import Mathlib

/-!
# Diki rule 242466 (PKI certificate file permissions): a shallow embedding

The Go source `pkg/provider/gardener/ruleset/disak8sstig/rules/242466.go` is
translated function by function.  Calls that leave the rule (cluster reads,
pod-context operations, remote inspection, the name generator, the logger) are
recorded in a trace of `Op`s; what such a call answers is supplied by an
environment `Env`, whose answers may depend on everything that happened before
the call.  A Go runtime panic (index out of range) is an explicit outcome.
-/

namespace Diki

/-! ## Strings (Go package `strings`) -/

/-- Go `strings.HasSuffix`, on the characters of the two strings. -/
def HasSuffix (s suffix : String) : Bool :=
  suffix.data.reverse.isPrefixOf s.data.reverse

/-- Worker of `Split`: `skip` counts the characters of a separator that has
just been recognised and is still to be consumed, `cur` is the current piece,
reversed. -/
def splitGo (sep : List Char) : List Char → Nat → List Char → List (List Char)
  | [], _, cur => [cur.reverse]
  | _ :: rest, skip + 1, cur => splitGo sep rest skip cur
  | c :: rest, 0, cur =>
    if sep.isPrefixOf (c :: rest) then
      cur.reverse :: splitGo sep rest (sep.length - 1) []
    else
      splitGo sep rest 0 (c :: cur)

/-- Go `strings.Split(s, sep)` for a non-empty separator `sep`. -/
def Split (s sep : String) : List String :=
  (splitGo sep.data s.data 0 []).map String.mk

/-- Go `unicode.IsSpace`. -/
def IsSpace (c : Char) : Bool :=
  let n := c.toNat
  (9 ≤ n && n ≤ 13) || n == 32 || n == 0x85 || n == 0xA0 || n == 0x1680 ||
  (0x2000 ≤ n && n ≤ 0x200A) || n == 0x2028 || n == 0x2029 || n == 0x202F ||
  n == 0x205F || n == 0x3000

/-- Go `strings.TrimSpace`. -/
def TrimSpace (s : String) : String :=
  String.mk (((s.data.dropWhile IsSpace).reverse.dropWhile IsSpace).reverse)

/-! ## Targets and check results (Go package `rule`) -/

/-- Modelled from the spec: the type `rule.Target` is declared in package
`rule`, whose source is missing; the spec describes it as an ordered sequence
of key/value pairs with structural equality. -/
abbrev Target := List (String × String)

/-- Modelled from the spec: `rule.NewTarget(k1, v1, ...)`, the target made of
the given pairs. -/
def NewTarget (keyValuePairs : List (String × String)) : Target := keyValuePairs

/-- Modelled from the spec: `Target.With(k1, v1, ...)` derives a new target by
appending pairs; the receiver is not changed. -/
def Target.With (t : Target) (keyValuePairs : List (String × String)) : Target :=
  t ++ keyValuePairs

/-- The outcome vocabulary of a check. -/
inductive Status where
  | Passed
  | Failed
  | Warning
  | Errored
  | Accepted
  deriving DecidableEq, Repr

/-- Go `rule.CheckResult`. -/
structure CheckResult where
  Status : Status
  Message : String
  Target : Target
  deriving DecidableEq, Repr

def PassedCheckResult (message : String) (target : Target) : CheckResult :=
  ⟨Status.Passed, message, target⟩

def FailedCheckResult (message : String) (target : Target) : CheckResult :=
  ⟨Status.Failed, message, target⟩

def WarningCheckResult (message : String) (target : Target) : CheckResult :=
  ⟨Status.Warning, message, target⟩

def ErroredCheckResult (message : String) (target : Target) : CheckResult :=
  ⟨Status.Errored, message, target⟩

def AcceptedCheckResult (message : String) (target : Target) : CheckResult :=
  ⟨Status.Accepted, message, target⟩

/-- Go `rule.RuleResult`: the identity of the rule and its check results. -/
structure RuleResult where
  RuleID : String
  RuleName : String
  Severity : String
  CheckResults : List CheckResult
  deriving DecidableEq, Repr

/-- Modelled from the spec: `rule.Result(r, checkResults...)` is declared in
package `rule`, whose source is missing; it wraps the check results with the
identity of the rule. -/
def Result (id name severity : String) (checkResults : List CheckResult) : RuleResult :=
  ⟨id, name, severity, checkResults⟩

/-! ## Kubernetes objects, as far as the rule reads them -/

structure ContainerStatus where
  ContainerID : String
  deriving DecidableEq, Repr

/-- Go `corev1.Pod`: metadata, `Spec.NodeName`, `Status.ContainerStatuses`. -/
structure Pod where
  Name : String
  Namespace : String
  Labels : List (String × String)
  NodeName : String
  ContainerStatuses : List ContainerStatus
  deriving DecidableEq, Repr

structure ReplicaSet where
  Name : String
  Namespace : String
  deriving DecidableEq, Repr

structure Node where
  Name : String
  Labels : List (String × String)
  deriving DecidableEq, Repr

/-- Go `corev1.Volume`: its name and what it is filled from. -/
structure Volume where
  Name : String
  Source : String
  deriving DecidableEq, Repr

/-- Go `appsv1.StatefulSet`: metadata and the volumes of its pod template. -/
structure StatefulSet where
  Name : String
  Namespace : String
  Volumes : List Volume
  deriving DecidableEq, Repr

/-- Go `labels.Selector` built from a label set: a list of `key=value`
requirements; the empty list selects everything (`labels.NewSelector()`). -/
structure Selector where
  requirements : List (String × String)
  deriving DecidableEq, Repr

def NewSelector : Selector := ⟨[]⟩

def SelectorFromSet (set : List (String × String)) : Selector := ⟨set⟩

def Selector.Matches (s : Selector) (labels : List (String × String)) : Bool :=
  s.requirements.all fun kv => labels.lookup kv.1 == some kv.2

def Selector.String (s : Selector) : String :=
  ",".intercalate (s.requirements.map fun kv => kv.1 ++ "=" ++ kv.2)

/-- Go `context.Context`: the background context, a context handed in by the
caller (with its cancellation state), or a context derived with a timeout in
seconds. -/
inductive Context where
  | Background
  | External (id : String) (cancelled : Bool)
  | WithTimeout (parent : Context) (seconds : Nat)
  deriving DecidableEq, Repr

/-- A `client.Client` held by the rule. -/
structure Client where
  handle : String
  deriving DecidableEq, Repr

/-- A `pod.PodContext` held by the rule. -/
structure PodContext where
  handle : String
  deriving DecidableEq, Repr

/-- A `provider.Logger` held by the rule. -/
structure Logger where
  handle : String
  deriving DecidableEq, Repr

/-- A `pod.PodExecutor` returned by `PodContext.Create`. -/
structure PodExecutor where
  handle : String
  deriving DecidableEq, Repr

/-- What `pod.NewPrivilegedPod(name, namespace, image, nodeName, labels)` asks
for. -/
structure PrivilegedPod where
  Name : String
  Namespace : String
  Image : String
  NodeName : String
  Labels : List (String × String)
  deriving DecidableEq, Repr

def NewPrivilegedPod (name ns image nodeName : String)
    (additionalLabels : List (String × String)) : PrivilegedPod :=
  ⟨name, ns, image, nodeName, additionalLabels⟩

/-- Go `intutils.FileStats`. -/
structure FileStats where
  Path : String
  Permissions : String
  UserOwner : String
  GroupOwner : String
  deriving DecidableEq, Repr

/-- Go `config.KubeletConfig`, the two fields the rule reads (nil pointers are
`none`). -/
structure KubeletConfig where
  TLSPrivateKeyFile : Option String
  TLSCertFile : Option String
  deriving DecidableEq, Repr

/-- Go `imagevector.ImageSource`. -/
structure ImageSource where
  Repository : String
  Tag : Option String
  deriving DecidableEq, Repr

/-- Go `option.KubeProxyOptions`. -/
structure KubeProxyOptions where
  KubeProxyDisabled : Bool
  deriving DecidableEq, Repr

/-- Go `Rule242466`; `Options` is a pointer that may be nil, and `Logger` is an
interface value that is nil (`none`) when the rule was built without one. -/
structure Rule242466 where
  InstanceID : String
  ControlPlaneClient : Client
  ClusterClient : Client
  ControlPlaneNamespace : String
  ControlPlanePodContext : PodContext
  ClusterPodContext : PodContext
  Options : Option KubeProxyOptions
  Logger : Option Logger
  deriving DecidableEq, Repr

/-! ## Calls that leave the rule -/

/-- A Go map is represented by the list of its entries in the order in which
the `range` loop over it visits them. -/
abbrev GoMap (κ ν : Type) := List (κ × ν)

/-- One call to a collaborator of the rule, with its arguments. -/
inductive Op where
  | FindImage (name : String)
  | GetPods (ctx : Context) (c : Client) (ns : String) (selector : Selector) (limit : Nat)
  | GetReplicaSets (ctx : Context) (c : Client) (ns : String) (selector : Selector)
      (limit : Nat)
  | GetDeploymentPods (ctx : Context) (c : Client) (name ns : String)
  | GetNodes (ctx : Context) (c : Client) (limit : Nat)
  | SelectPodOfReferenceGroup (pods : List Pod) (replicaSets : List ReplicaSet)
      (nodesAllocatablePods : GoMap String Int) (target : Target)
  | SelectNodes (nodes : List Node) (nodesAllocatablePods : GoMap String Int)
      (labels : List String)
  | Generate (n : Nat)
  | Create (ctx : Context) (pc : PodContext) (pod : PrivilegedPod)
  | Delete (ctx : Context) (pc : PodContext) (name ns : String)
  | Get (ctx : Context) (c : Client) (name ns : String)
  | GetMountedFilesStats (ctx : Context) (podContainerPath : String) (podExecutor : PodExecutor)
      (pod : Pod) (excludedSources : List String)
  | GetKubeletCommand (ctx : Context) (podExecutor : PodExecutor)
  | GetKubeletConfig (ctx : Context) (podExecutor : PodExecutor) (rawKubeletCommand : String)
  | GetSingleFileStats (ctx : Context) (podExecutor : PodExecutor) (filePath : String)
  | GetFileStatsByDir (ctx : Context) (podExecutor : PodExecutor) (dirPath : String)
  | LoggerError (msg : String)
  | GetCommandOptionFromDeployment (ctx : Context) (c : Client)
      (deploymentName containerName ns option : String)
  | GetStatefulSet (ctx : Context) (c : Client) (name ns : String)
  | GetFileDataFromVolume (ctx : Context) (c : Client) (ns : String) (volume : Volume)
      (fileName : String)
  deriving DecidableEq, Repr

abbrev Trace := List Op

/-- The collaborators of the rule.  They are declared in other packages
(`kubeutils`, `intutils`, `pod`, `imagevector`, `sharedrules`), so each is a
parameter.  A call that reaches the cluster, the diagnostic pod, the
image vector or the name generator is given the trace of all earlier calls and
may answer differently each time; the helpers without a context or client
argument are functions of their arguments.  A Go `error` is its text. -/
structure Env where
  ID242466 : String
  SeverityMedium : String
  DikiOpsImageName : String
  GitVersion : String
  LabelInstanceID : String
  WithOptionalTag : ImageSource → String → ImageSource
  ImageString : ImageSource → String
  FindImage : Trace → String → Except String ImageSource
  GetPods : Trace → Context → Client → String → Selector → Nat → Except String (List Pod)
  GetReplicaSets : Trace → Context → Client → String → Selector → Nat →
    Except String (List ReplicaSet)
  GetDeploymentPods : Trace → Context → Client → String → String → Except String (List Pod)
  GetNodes : Trace → Context → Client → Nat → Except String (List Node)
  GetNodesAllocatablePodsNum : List Pod → List Node → GoMap String Int
  SelectPodOfReferenceGroup : List Pod → List ReplicaSet → GoMap String Int → Target →
    GoMap String (List Pod) × List CheckResult
  SelectNodes : List Node → GoMap String Int → List String → List Node × List CheckResult
  TargetWithPod : Target → Pod → List ReplicaSet → Target
  Generate : Trace → Nat → String
  Create : Trace → Context → PodContext → PrivilegedPod → Except String PodExecutor
  Delete : Trace → Context → PodContext → String → String → Option String
  Get : Trace → Context → Client → String → String → Except String Pod
  GetMountedFilesStats : Trace → Context → String → PodExecutor → Pod → List String →
    GoMap String (List FileStats) × Option String
  ExceedFilePermissions : String → String → Except String Bool
  GetKubeletCommand : Trace → Context → PodExecutor → Except String String
  GetKubeletConfig : Trace → Context → PodExecutor → String → Except String KubeletConfig
  IsFlagSet : String → String → Bool
  FindFlagValueRaw : List String → String → List String
  GetSingleFileStats : Trace → Context → PodExecutor → String → Except String FileStats
  GetFileStatsByDir : Trace → Context → PodExecutor → String → Except String (List FileStats)

/-! ## Programs: a trace of calls and an outcome -/

/-- How a Go function call ends: it returns, or a runtime panic unwinds it. -/
inductive Outcome (α : Type) where
  | returned (a : α)
  | panicked (msg : String)
  deriving DecidableEq, Repr

/-- A program extends the trace of calls made so far and ends in an outcome. -/
def Prog (α : Type) : Type := Trace → Outcome α × Trace

def Prog.pure {α : Type} (a : α) : Prog α := fun tr => (Outcome.returned a, tr)

def Prog.bind {α β : Type} (m : Prog α) (f : α → Prog β) : Prog β := fun tr =>
  match m tr with
  | (Outcome.returned a, tr1) => f a tr1
  | (Outcome.panicked msg, tr1) => (Outcome.panicked msg, tr1)

instance : Monad Prog where
  pure := Prog.pure
  bind := Prog.bind

/-- A Go runtime panic. -/
def Prog.panic {α : Type} (msg : String) : Prog α := fun tr => (Outcome.panicked msg, tr)

/-- A call to a collaborator: it is answered from the trace so far and then
recorded. -/
def Prog.call {α : Type} (op : Op) (answer : Trace → α) : Prog α := fun tr =>
  (Outcome.returned (answer tr), tr ++ [op])

/-- Go `defer`: `deferred` runs when `body` is left, whether `body` returned or
panicked; it cannot change the values `body` returned, but a panic of `deferred`
becomes the outcome. -/
def Prog.defer {α : Type} (deferred : Prog Unit) (body : Prog α) : Prog α := fun tr =>
  match body tr with
  | (out, tr1) =>
    match deferred tr1 with
    | (Outcome.returned _, tr2) => (out, tr2)
    | (Outcome.panicked msg, tr2) => (Outcome.panicked msg, tr2)

/-! ## The rule -/

/-- Go `len(s)` of a string: its length in bytes. -/
def len (s : String) : Nat := s.utf8ByteSize

def Rule242466.ID (env : Env) (_r : Rule242466) : String := env.ID242466

def Rule242466.Name (_r : Rule242466) : String :=
  "The Kubernetes PKI CRT must have file permissions set to 644 or more restrictive."

/-- The zero value `rule.RuleResult{}`. -/
def RuleResult.zero : RuleResult := ⟨"", "", "", []⟩

/-- The call `rule.Result(r, checkResults...)` for this rule. -/
def Rule242466.Result (env : Env) (r : Rule242466) (checkResults : List CheckResult) :
    RuleResult :=
  Diki.Result (r.ID env) r.Name env.SeverityMedium checkResults

/-- The deferred function of `checkPods` (lines 221-228) and of `checkKubelet`
(lines 304-311): delete the diagnostic pod under a fresh 30 second timeout and
hand an error to the logger `r.Logger`.  The call `r.Logger.Error` (lines 226
and 309) is not guarded: on a nil logger it panics. -/
def deferredDelete (env : Env) (logger : Option Logger) (pc : PodContext) (podName : String) :
    Prog Unit := do
  let timeoutCtx := Context.WithTimeout Context.Background 30
  match ← Prog.call (Op.Delete timeoutCtx pc podName "kube-system")
      (fun tr => env.Delete tr timeoutCtx pc podName "kube-system") with
  | some err =>
    match logger with
    | none => Prog.panic "runtime error: invalid memory address or nil pointer dereference"
    | some _ => Prog.call (Op.LoggerError err) (fun _ => ())
  | none => pure ()

/-- Body of the innermost loop of `checkPods` (lines 264-284): one file of one
container. -/
def checkPodsFile (env : Env) (pod : Pod) (replicaSets : List ReplicaSet)
    (expectedFilePermissionsMax : String) (target : Target) (containerName : String)
    (checkResults : List CheckResult) (fileStat : FileStats) : List CheckResult :=
  if !HasSuffix fileStat.Path ".crt" && !HasSuffix fileStat.Path ".pem" then
    checkResults
  else
    let containerTarget :=
      env.TargetWithPod (target.With [("containerName", containerName)]) pod replicaSets
    match env.ExceedFilePermissions fileStat.Permissions expectedFilePermissionsMax with
    | Except.error err => checkResults ++ [ErroredCheckResult err containerTarget]
    | Except.ok true =>
      let detailedTarget := containerTarget.With [("details",
        "fileName: " ++ fileStat.Path ++ ", permissions: " ++ fileStat.Permissions ++
        ", expectedPermissionsMax: " ++ expectedFilePermissionsMax)]
      checkResults ++ [FailedCheckResult "File has too wide permissions" detailedTarget]
    | Except.ok false =>
      let detailedTarget := containerTarget.With [("details",
        "fileName: " ++ fileStat.Path ++ ", permissions: " ++ fileStat.Permissions)]
      checkResults ++ [PassedCheckResult "File has expected permissions" detailedTarget]

/-- The loop over `mappedFileStats` with its inner loop over the files (lines
263-285). -/
def checkPodsContainers (env : Env) (pod : Pod) (replicaSets : List ReplicaSet)
    (expectedFilePermissionsMax : String) (target : Target)
    (mappedFileStats : GoMap String (List FileStats)) (checkResults : List CheckResult) :
    List CheckResult :=
  mappedFileStats.foldl
    (fun acc entry =>
      entry.2.foldl
        (checkPodsFile env pod replicaSets expectedFilePermissionsMax target entry.1) acc)
    checkResults

/-- The loop over the sorted pods (lines 256-286). -/
def checkPodsLoop (env : Env) (ctx : Context) (execContainerPath : String)
    (podExecutor : PodExecutor) (replicaSets : List ReplicaSet)
    (expectedFilePermissionsMax : String) (target execPodTarget : Target) :
    List Pod → List CheckResult → Prog (List CheckResult)
  | [], checkResults => pure checkResults
  | pod :: rest, checkResults => do
    let excludedSources := ["/lib/modules", "/usr/share/ca-certificates", "/var/log/journal",
      "/var/run/dbus/system_bus_socket"]
    let (mappedFileStats, err) ←
      Prog.call (Op.GetMountedFilesStats ctx execContainerPath podExecutor pod excludedSources)
        (fun tr =>
          env.GetMountedFilesStats tr ctx execContainerPath podExecutor pod excludedSources)
    let checkResults :=
      match err with
      | some e => checkResults ++ [ErroredCheckResult e execPodTarget]
      | none => checkResults
    checkPodsLoop env ctx execContainerPath podExecutor replicaSets expectedFilePermissionsMax
      target execPodTarget rest
      (checkPodsContainers env pod replicaSets expectedFilePermissionsMax target
        mappedFileStats checkResults)

/-- Go `slices.SortFunc(pods, func(a, b) int { return cmp.Compare(a.Name, b.Name) })`:
ascending by name, byte-wise.  Pods with equal names keep their order here; Go
leaves their order open. -/
def sortPodsByName (pods : List Pod) : List Pod :=
  pods.insertionSort (fun a b => a.Name.data ≤ b.Name.data)

/-- `checkPods` after the `defer` statement (lines 230-287). -/
def checkPodsBody (env : Env) (ctx : Context) (c : Client) (pc : PodContext)
    (pods : List Pod) (replicaSets : List ReplicaSet) (nodeName imageName : String)
    (expectedFilePermissionsMax : String) (target : Target) (podName : String)
    (execPodTarget : Target) (additionalLabels : List (String × String)) :
    Prog (List CheckResult) := do
  let newPod := NewPrivilegedPod podName "kube-system" imageName nodeName additionalLabels
  match ← Prog.call (Op.Create ctx pc newPod) (fun tr => env.Create tr ctx pc newPod) with
  | Except.error err => pure [ErroredCheckResult err execPodTarget]
  | Except.ok podExecutor =>
    match ← Prog.call (Op.Get ctx c podName "kube-system")
        (fun tr => env.Get tr ctx c podName "kube-system") with
    | Except.error err => pure [ErroredCheckResult err execPodTarget]
    | Except.ok execPod =>
      match execPod.ContainerStatuses[0]? with
      | none => Prog.panic "runtime error: index out of range [0] with length 0"
      | some status =>
        let execContainerID := status.ContainerID
        match (Split execContainerID "//")[1]? with
        | none => Prog.panic "runtime error: index out of range [1] with length 1"
        | some execBaseContainerID =>
          let execContainerPath := "/run/containerd/io.containerd.runtime.v2.task/k8s.io/" ++
            execBaseContainerID ++ "/rootfs"
          checkPodsLoop env ctx execContainerPath podExecutor replicaSets
            expectedFilePermissionsMax target execPodTarget (sortPodsByName pods) []

/-- Go `Rule242466.checkPods` (lines 205-288). -/
def Rule242466.checkPods (env : Env) (r : Rule242466) (ctx : Context) (c : Client)
    (pc : PodContext) (pods : List Pod) (replicaSets : List ReplicaSet)
    (nodeName imageName : String) (expectedFilePermissionsMax : String) (target : Target) :
    Prog (List CheckResult) := do
  let generated ← Prog.call (Op.Generate 10) (fun tr => env.Generate tr 10)
  let podName := "diki-" ++ r.ID env ++ "-" ++ generated
  let execPodTarget := target.With [("name", podName), ("namespace", "kube-system"), ("kind", "Pod")]
  let additionalLabels := [(env.LabelInstanceID, r.InstanceID)]
  Prog.defer (deferredDelete env r.Logger pc podName)
    (checkPodsBody env ctx c pc pods replicaSets nodeName imageName expectedFilePermissionsMax
      target podName execPodTarget additionalLabels)

/-- Body of the last loop of `checkKubelet` (lines 372-387): one selected
file. -/
def checkKubeletFile (env : Env) (expectedFilePermissionsMax : String) (nodeTarget : Target)
    (checkResults : List CheckResult) (fileStats : FileStats) : List CheckResult :=
  match env.ExceedFilePermissions fileStats.Permissions expectedFilePermissionsMax with
  | Except.error err => checkResults ++ [ErroredCheckResult err nodeTarget]
  | Except.ok true =>
    let detailedTarget := nodeTarget.With [("details",
      "fileName: " ++ fileStats.Path ++ ", permissions: " ++ fileStats.Permissions ++
      ", expectedPermissionsMax: " ++ expectedFilePermissionsMax)]
    checkResults ++ [FailedCheckResult "File has too wide permissions" detailedTarget]
  | Except.ok false =>
    let detailedTarget := nodeTarget.With [("details",
      "fileName: " ++ fileStats.Path ++ ", permissions: " ++ fileStats.Permissions)]
    checkResults ++ [PassedCheckResult "File has expected permissions" detailedTarget]

/-- The last loop of `checkKubelet` (lines 372-388). -/
def checkKubeletFiles (env : Env) (expectedFilePermissionsMax : String) (nodeTarget : Target)
    (selectedFileStats : List FileStats) : List CheckResult :=
  selectedFileStats.foldl (checkKubeletFile env expectedFilePermissionsMax nodeTarget) []

/-- The `else` branch of `checkKubelet` that lists the PKI directory (lines
342-370), followed by the last loop. -/
def checkKubeletPKIDir (env : Env) (ctx : Context) (podExecutor : PodExecutor)
    (expectedFilePermissionsMax : String)
    (nodeTarget execPodTarget : Target) (kubeletPKIDir : String) : Prog (List CheckResult) := do
  match ← Prog.call (Op.GetFileStatsByDir ctx podExecutor kubeletPKIDir)
      (fun tr => env.GetFileStatsByDir tr ctx podExecutor kubeletPKIDir) with
  | Except.error err => pure [ErroredCheckResult err execPodTarget]
  | Except.ok pkiFilesStats =>
    let certFilesStats := pkiFilesStats.filter
      (fun pkiFileStat => HasSuffix pkiFileStat.Path ".crt" || HasSuffix pkiFileStat.Path ".pem")
    if certFilesStats.length == 0 then
      pure [ErroredCheckResult "no '.crt' files found in PKI directory"
        (nodeTarget.With [("directory", kubeletPKIDir)])]
    else
      pure (checkKubeletFiles env expectedFilePermissionsMax nodeTarget ([] ++ certFilesStats))

/-- `checkKubelet` after the `defer` statement (lines 312-388). -/
def checkKubeletBody (env : Env) (r : Rule242466) (ctx : Context) (nodeName imageName : String)
    (expectedFilePermissionsMax : String) (podName : String)
    (nodeTarget execPodTarget : Target) (additionalLabels : List (String × String)) :
    Prog (List CheckResult) := do
  let newPod := NewPrivilegedPod podName "kube-system" imageName nodeName additionalLabels
  match ← Prog.call (Op.Create ctx r.ClusterPodContext newPod)
      (fun tr => env.Create tr ctx r.ClusterPodContext newPod) with
  | Except.error err => pure [ErroredCheckResult err execPodTarget]
  | Except.ok podExecutor =>
    match ← Prog.call (Op.GetKubeletCommand ctx podExecutor)
        (fun tr => env.GetKubeletCommand tr ctx podExecutor) with
    | Except.error err => pure [ErroredCheckResult err execPodTarget]
    | Except.ok rawKubeletCommand =>
      if len rawKubeletCommand == 0 then
        pure [ErroredCheckResult
          "could not retrieve kubelet config: kubelet command not retrived" execPodTarget]
      else
        match ← Prog.call (Op.GetKubeletConfig ctx podExecutor rawKubeletCommand)
            (fun tr => env.GetKubeletConfig tr ctx podExecutor rawKubeletCommand) with
        | Except.error err =>
          pure [ErroredCheckResult ("could not retrieve kubelet config: " ++ err) execPodTarget]
        | Except.ok kubeletConfig =>
          match kubeletConfig.TLSPrivateKeyFile, kubeletConfig.TLSCertFile with
          | some _, some tlsCertFile =>
            if len tlsCertFile == 0 then
              pure [FailedCheckResult "could not find cert file, option tlsCertFile is empty."
                nodeTarget]
            else
              match ← Prog.call (Op.GetSingleFileStats ctx podExecutor tlsCertFile)
                  (fun tr => env.GetSingleFileStats tr ctx podExecutor tlsCertFile) with
              | Except.error err => pure [ErroredCheckResult err execPodTarget]
              | Except.ok certFileStats =>
                pure (checkKubeletFiles env expectedFilePermissionsMax nodeTarget
                  ([] ++ [certFileStats]))
          | _, _ =>
            if env.IsFlagSet rawKubeletCommand "cert-dir" then
              let valueSlice := env.FindFlagValueRaw (Split rawKubeletCommand " ") "cert-dir"
              if valueSlice.length > 1 then
                pure [ErroredCheckResult "kubelet cert-dir flag has been set more than once"
                  execPodTarget]
              else
                match valueSlice[0]? with
                | none => Prog.panic "runtime error: index out of range [0] with length 0"
                | some value =>
                  let kubeletPKIDir := TrimSpace value
                  if len kubeletPKIDir == 0 then
                    pure [ErroredCheckResult "kubelet cert-dir flag set to empty" execPodTarget]
                  else
                    checkKubeletPKIDir env ctx podExecutor
                      expectedFilePermissionsMax nodeTarget execPodTarget kubeletPKIDir
            else
              checkKubeletPKIDir env ctx podExecutor
                expectedFilePermissionsMax nodeTarget execPodTarget "/var/lib/kubelet/pki"

/-- Go `Rule242466.checkKubelet` (lines 290-389). -/
def Rule242466.checkKubelet (env : Env) (r : Rule242466) (ctx : Context)
    (nodeName imageName : String) (expectedFilePermissionsMax : String) (target : Target) :
    Prog (List CheckResult) := do
  let generated ← Prog.call (Op.Generate 10) (fun tr => env.Generate tr 10)
  let podName := "diki-" ++ r.ID env ++ "-" ++ generated
  let nodeTarget := target.With [("name", nodeName), ("kind", "Node")]
  let execPodTarget := target.With [("name", podName), ("namespace", "kube-system"), ("kind", "Pod")]
  let additionalLabels := [(env.LabelInstanceID, r.InstanceID)]
  Prog.defer (deferredDelete env r.Logger r.ClusterPodContext podName)
    (checkKubeletBody env r ctx nodeName imageName expectedFilePermissionsMax podName
      nodeTarget execPodTarget additionalLabels)

/-- The loop over `podSelectors` in `Run` (lines 95-109), one selector: the
state is `(checkPods, checkResults)`. -/
def runSeedSelector (r : Rule242466) (allSeedPods : List Pod) (seedTarget : Target)
    (st : List Pod × List CheckResult) (podSelector : Selector) :
    List Pod × List CheckResult :=
  let pods := allSeedPods.filter
    (fun p => podSelector.Matches p.Labels && p.Namespace == r.ControlPlaneNamespace)
  if pods.length == 0 then
    (st.1, st.2 ++ [ErroredCheckResult "pods not found"
      (seedTarget.With [("namespace", r.ControlPlaneNamespace),
        ("selector", podSelector.String)])])
  else
    (st.1 ++ pods, st.2)

/-- The loop over `deploymentNames` in `Run` (lines 111-124); the state is
`(checkPods, checkResults)`. -/
def runSeedDeployments (env : Env) (r : Rule242466) (ctx : Context) (seedTarget : Target) :
    List String → List Pod × List CheckResult → Prog (List Pod × List CheckResult)
  | [], st => pure st
  | deploymentName :: rest, st => do
    match ← Prog.call
        (Op.GetDeploymentPods ctx r.ControlPlaneClient deploymentName r.ControlPlaneNamespace)
        (fun tr => env.GetDeploymentPods tr ctx r.ControlPlaneClient deploymentName
          r.ControlPlaneNamespace) with
    | Except.error err =>
      runSeedDeployments env r ctx seedTarget rest
        (st.1, st.2 ++ [ErroredCheckResult err (seedTarget.With [("kind", "PodList")])])
    | Except.ok pods =>
      if pods.length == 0 then
        runSeedDeployments env r ctx seedTarget rest
          (st.1, st.2 ++ [ErroredCheckResult "pods not found for deployment"
            (seedTarget.With [("name", deploymentName), ("kind", "Deployment"),
              ("namespace", r.ControlPlaneNamespace)])])
      else
        runSeedDeployments env r ctx seedTarget rest (st.1 ++ pods, st.2)

/-- The loops `for nodeName, pods := range groupedPods` of `Run` (lines 135-138
and 196-199). -/
def runCheckPodsGroups (env : Env) (r : Rule242466) (ctx : Context) (c : Client)
    (pc : PodContext) (replicaSets : List ReplicaSet) (imageName : String)
    (expectedFilePermissionsMax : String) (target : Target) :
    GoMap String (List Pod) → List CheckResult → Prog (List CheckResult)
  | [], checkResults => pure checkResults
  | (nodeName, pods) :: rest, checkResults => do
    let results ← r.checkPods env ctx c pc pods replicaSets nodeName imageName
      expectedFilePermissionsMax target
    runCheckPodsGroups env r ctx c pc replicaSets imageName expectedFilePermissionsMax target
      rest (checkResults ++ results)

/-- The loop `for _, node := range selectedShootNodes` of `Run` (lines
172-175). -/
def runCheckKubelets (env : Env) (r : Rule242466) (ctx : Context) (imageName : String)
    (expectedFilePermissionsMax : String) (shootTarget : Target) :
    List Node → List CheckResult → Prog (List CheckResult)
  | [], checkResults => pure checkResults
  | node :: rest, checkResults => do
    let results ← r.checkKubelet env ctx node.Name imageName expectedFilePermissionsMax
      shootTarget
    runCheckKubelets env r ctx imageName expectedFilePermissionsMax shootTarget rest
      (checkResults ++ results)

/-- The condition `r.Options != nil && r.Options.KubeProxyDisabled` (line
178). -/
def Rule242466.kubeProxyDisabled (r : Rule242466) : Bool :=
  match r.Options with
  | some options => options.KubeProxyDisabled
  | none => false

/-- The kube-proxy check of `Run` (lines 177-202). -/
def runKubeProxy (env : Env) (r : Rule242466) (ctx : Context) (image : ImageSource)
    (expectedFilePermissionsMax : String) (kubeProxySelector : Selector) (shootTarget : Target)
    (allShootPods : List Pod) (shootReplicaSets : List ReplicaSet)
    (shootNodesAllocatablePods : GoMap String Int) (checkResults : List CheckResult) :
    Prog (RuleResult × Option String) := do
  if r.kubeProxyDisabled then
    pure (r.Result env (checkResults ++
      [AcceptedCheckResult "kube-proxy check is skipped." shootTarget]), none)
  else
    let pods := allShootPods.filter (fun p => kubeProxySelector.Matches p.Labels)
    if pods.length == 0 then
      pure (r.Result env (checkResults ++ [ErroredCheckResult "pods not found"
        (shootTarget.With [("selector", kubeProxySelector.String)])]), none)
    else
      let (groupedShootPods, checks) ←
        Prog.call (Op.SelectPodOfReferenceGroup pods shootReplicaSets shootNodesAllocatablePods
            shootTarget)
          (fun _ => env.SelectPodOfReferenceGroup pods shootReplicaSets
            shootNodesAllocatablePods shootTarget)
      let checkResults ← runCheckPodsGroups env r ctx r.ClusterClient r.ClusterPodContext
        shootReplicaSets (env.ImageString image) expectedFilePermissionsMax shootTarget
        groupedShootPods (checkResults ++ checks)
      pure (r.Result env checkResults, none)

/-- The shoot side of `Run` (lines 143-202): list the shoot objects, check the
kubelets of the selected nodes, then check kube-proxy. -/
def runShoot (env : Env) (r : Rule242466) (ctx : Context) (image : ImageSource)
    (expectedFilePermissionsMax : String) (kubeProxySelector : Selector)
    (nodeLabels : List String) (checkResults : List CheckResult) :
    Prog (RuleResult × Option String) := do
  let shootTarget := NewTarget [("cluster", "shoot")]
  match ← Prog.call (Op.GetPods ctx r.ClusterClient "" NewSelector 300)
      (fun tr => env.GetPods tr ctx r.ClusterClient "" NewSelector 300) with
  | Except.error err =>
    pure (r.Result env (checkResults ++
      [ErroredCheckResult err (shootTarget.With [("kind", "PodList")])]), none)
  | Except.ok allShootPods =>
    match ← Prog.call (Op.GetReplicaSets ctx r.ClusterClient "" NewSelector 300)
        (fun tr => env.GetReplicaSets tr ctx r.ClusterClient "" NewSelector 300) with
    | Except.error err =>
      pure (r.Result env (checkResults ++
        [ErroredCheckResult err (shootTarget.With [("kind", "ReplicaSetList")])]), none)
    | Except.ok shootReplicaSets =>
      match ← Prog.call (Op.GetNodes ctx r.ClusterClient 300)
          (fun tr => env.GetNodes tr ctx r.ClusterClient 300) with
      | Except.error err =>
        pure (r.Result env (checkResults ++
          [ErroredCheckResult err (shootTarget.With [("kind", "NodeList")])]), none)
      | Except.ok shootNodes =>
        let shootNodesAllocatablePods := env.GetNodesAllocatablePodsNum allShootPods shootNodes
        let (selectedShootNodes, checks) ←
          Prog.call (Op.SelectNodes shootNodes shootNodesAllocatablePods nodeLabels)
            (fun _ => env.SelectNodes shootNodes shootNodesAllocatablePods nodeLabels)
        let checkResults := checkResults ++ checks
        let checkResults :=
          if selectedShootNodes.length == 0 then
            checkResults ++
              [ErroredCheckResult "no allocatable nodes could be selected" shootTarget]
          else checkResults
        let checkResults ← runCheckKubelets env r ctx (env.ImageString image)
          expectedFilePermissionsMax shootTarget selectedShootNodes checkResults
        runKubeProxy env r ctx image expectedFilePermissionsMax kubeProxySelector shootTarget
          allShootPods shootReplicaSets shootNodesAllocatablePods checkResults

/-- Go `Rule242466.Run` (lines 61-203).  The second component of the value
returned is the Go `error`, `none` for nil. -/
def Rule242466.Run (env : Env) (r : Rule242466) (ctx : Context) :
    Prog (RuleResult × Option String) := do
  let checkResults : List CheckResult := []
  let expectedFilePermissionsMax := "644"
  let etcdMainSelector := SelectorFromSet [("app.kubernetes.io/part-of", "etcd-main")]
  let etcdEventsSelector := SelectorFromSet [("app.kubernetes.io/part-of", "etcd-events")]
  let kubeProxySelector := SelectorFromSet [("role", "proxy")]
  let deploymentNames := ["kube-apiserver", "kube-controller-manager", "kube-scheduler"]
  let nodeLabels := ["worker.gardener.cloud/pool"]
  match ← Prog.call (Op.FindImage env.DikiOpsImageName)
      (fun tr => env.FindImage tr env.DikiOpsImageName) with
  | Except.error err =>
    pure (RuleResult.zero,
      some ("failed to find image version for " ++ env.DikiOpsImageName ++ ": " ++ err))
  | Except.ok image0 =>
    let image := env.WithOptionalTag image0 env.GitVersion
    -- control plane check
    let seedTarget := NewTarget [("cluster", "seed")]
    match ← Prog.call (Op.GetPods ctx r.ControlPlaneClient "" NewSelector 300)
        (fun tr => env.GetPods tr ctx r.ControlPlaneClient "" NewSelector 300) with
    | Except.error err =>
      runShoot env r ctx image expectedFilePermissionsMax kubeProxySelector nodeLabels
        (checkResults ++ [ErroredCheckResult err (seedTarget.With [("kind", "PodList")])])
    | Except.ok allSeedPods =>
      let podSelectors := [etcdMainSelector, etcdEventsSelector]
      match ← Prog.call
          (Op.GetReplicaSets ctx r.ControlPlaneClient r.ControlPlaneNamespace NewSelector 300)
          (fun tr => env.GetReplicaSets tr ctx r.ControlPlaneClient r.ControlPlaneNamespace
            NewSelector 300) with
      | Except.error err =>
        pure (r.Result env (checkResults ++ [ErroredCheckResult err
          (seedTarget.With [("namespace", r.ControlPlaneNamespace),
            ("kind", "ReplicaSetList")])]), none)
      | Except.ok seedReplicaSets =>
        let st := podSelectors.foldl (runSeedSelector r allSeedPods seedTarget)
          (([] : List Pod), checkResults)
        let (checkPods, checkResults) ←
          runSeedDeployments env r ctx seedTarget deploymentNames st
        if checkPods.length > 0 then
          match ← Prog.call (Op.GetNodes ctx r.ControlPlaneClient 300)
              (fun tr => env.GetNodes tr ctx r.ControlPlaneClient 300) with
          | Except.error err =>
            runShoot env r ctx image expectedFilePermissionsMax kubeProxySelector nodeLabels
              (checkResults ++
                [ErroredCheckResult err (seedTarget.With [("kind", "NodeList")])])
          | Except.ok nodes =>
            let nodesAllocatablePods := env.GetNodesAllocatablePodsNum allSeedPods nodes
            let (groupedPods, checks) ←
              Prog.call (Op.SelectPodOfReferenceGroup checkPods seedReplicaSets
                  nodesAllocatablePods seedTarget)
                (fun _ => env.SelectPodOfReferenceGroup checkPods seedReplicaSets
                  nodesAllocatablePods seedTarget)
            let checkResults ← runCheckPodsGroups env r ctx r.ControlPlaneClient
              r.ControlPlanePodContext seedReplicaSets (env.ImageString image)
              expectedFilePermissionsMax seedTarget groupedPods (checkResults ++ checks)
            runShoot env r ctx image expectedFilePermissionsMax kubeProxySelector nodeLabels
              checkResults
        else
          runShoot env r ctx image expectedFilePermissionsMax kubeProxySelector nodeLabels
            checkResults

/-! ## Reading traces -/

/-- The name `checkPods` and `checkKubelet` give their diagnostic pod when they
start at trace `tr` (lines 216 and 298). -/
def generatedPodName (env : Env) (r : Rule242466) (tr : Trace) : String :=
  "diki-" ++ r.ID env ++ "-" ++ env.Generate tr 10

/-- What the deferred function tells the logger: the error of `Delete`, if
any. -/
def deleteLog (err : Option String) : List Op :=
  match err with
  | some e => [Op.LoggerError e]
  | none => []

/-- The operations of a `pod.PodContext`: `Create` and `Delete`. -/
def Op.isPodContextOp : Op → Bool
  | Op.Create _ _ _ => true
  | Op.Delete _ _ _ _ => true
  | _ => false

/-- The remote inspections made through a diagnostic pod. -/
def Op.isInspection : Op → Bool
  | Op.GetMountedFilesStats _ _ _ _ _ => true
  | Op.GetKubeletCommand _ _ => true
  | Op.GetKubeletConfig _ _ _ => true
  | Op.GetSingleFileStats _ _ _ => true
  | Op.GetFileStatsByDir _ _ _ => true
  | _ => false

/-- A program all of whose calls satisfy `p`: it only appends such calls to the
trace. -/
def Prog.OnlyCalls {α : Type} (p : Op → Bool) (m : Prog α) : Prop :=
  ∀ tr, ∃ more, (m tr).2 = tr ++ more ∧ ∀ op ∈ more, p op = true

/-- The environment `env` with `Delete` answering as `delete` does and
everything else unchanged. -/
def Env.withDelete (env : Env)
    (delete : Trace → Context → PodContext → String → String → Option String) : Env :=
  { env with Delete := delete }

/-! ## A concrete cluster, for evaluating the rule -/

/-- The value of an octal digit. -/
def octalDigit (c : Char) : Option Nat :=
  if 48 ≤ c.toNat ∧ c.toNat ≤ 55 then some (c.toNat - 48) else none

/-- Whether digit `actual` has a permission bit that digit `allowed` lacks:
`actual AND (NOT allowed)` is not zero, bit by bit. -/
def digitExceeds (actual allowed : Nat) : Bool :=
  (actual / 4 % 2 == 1 && allowed / 4 % 2 == 0) ||
  (actual / 2 % 2 == 1 && allowed / 2 % 2 == 0) ||
  (actual % 2 == 1 && allowed % 2 == 0)

/-- Modelled from the spec: `intutils.ExceedFilePermissions` is declared in
package `intutils`, whose source is missing.  Both operands are strings of octal digits of the same width,
otherwise the call fails; the permissions exceed the maximum when some digit
grants a bit the corresponding digit of the maximum lacks. -/
def ExceedFilePermissionsSpec (filePermissions filePermissionsMax : String) :
    Except String Bool :=
  match filePermissions.data.mapM octalDigit, filePermissionsMax.data.mapM octalDigit with
  | some actual, some allowed =>
    if actual.length == allowed.length then
      Except.ok ((actual.zip allowed).any fun d => digitExceeds d.1 d.2)
    else
      Except.error "permissions and maximum differ in width"
  | _, _ => Except.error "permissions are not octal digits"

def etcdPod : Pod :=
  { Name := "etcd-main-0", Namespace := "shoot--foo", NodeName := "seed-node-a",
    Labels := [("app.kubernetes.io/part-of", "etcd-main")], ContainerStatuses := [] }

def proxyPod : Pod :=
  { Name := "kube-proxy-x", Namespace := "kube-system", NodeName := "shoot-node-a",
    Labels := [("role", "proxy")], ContainerStatuses := [] }

/-- A small cluster in which everything succeeds: one etcd pod on the seed, one
kube-proxy pod and one node on the shoot, a certificate with permissions 664
and a key with permissions 600 mounted in every inspected pod, and two
certificates in the PKI directory of the kubelet. -/
def scenario : Env where
  ID242466 := "242466"
  SeverityMedium := "Medium"
  DikiOpsImageName := "diki-ops"
  GitVersion := "v1"
  LabelInstanceID := "instanceID"
  WithOptionalTag := fun image tag =>
    match image.Tag with
    | none => { image with Tag := some tag }
    | some _ => image
  ImageString := fun image =>
    match image.Tag with
    | none => image.Repository
    | some tag => image.Repository ++ ":" ++ tag
  FindImage := fun _ name => Except.ok ⟨name, none⟩
  GetPods := fun _ _ c _ _ _ =>
    if c.handle == "seed" then Except.ok [etcdPod] else Except.ok [proxyPod]
  GetReplicaSets := fun _ _ _ _ _ _ => Except.ok []
  GetDeploymentPods := fun _ _ _ _ _ => Except.ok []
  GetNodes := fun _ _ c _ =>
    if c.handle == "seed" then Except.ok [⟨"seed-node-a", []⟩]
    else Except.ok [⟨"shoot-node-a", []⟩]
  GetNodesAllocatablePodsNum := fun _ nodes => nodes.map fun n => (n.Name, 10)
  SelectPodOfReferenceGroup := fun pods _ _ _ =>
    match pods with
    | [] => ([], [])
    | p :: _ => ([(p.NodeName, pods.filter fun q => q.NodeName == p.NodeName)], [])
  SelectNodes := fun nodes _ _ => (nodes.take 1, [])
  TargetWithPod := fun target pod _ =>
    target.With [("name", pod.Name), ("namespace", pod.Namespace), ("kind", "Pod")]
  Generate := fun _ _ => "abcdefghij"
  Create := fun _ _ _ pod => Except.ok ⟨pod.Name⟩
  Delete := fun _ _ _ _ _ => none
  Get := fun _ _ _ name ns =>
    Except.ok { Name := name, Namespace := ns, NodeName := "", Labels := [],
                ContainerStatuses := [⟨"containerd://0a1b"⟩] }
  GetMountedFilesStats := fun _ _ _ _ _ _ =>
    ([("main", [⟨"/pki/ca.crt", "664", "0", "0"⟩, ⟨"/pki/tls.key", "600", "0", "0"⟩])], none)
  ExceedFilePermissions := ExceedFilePermissionsSpec
  GetKubeletCommand := fun _ _ _ => Except.ok "kubelet --config=/etc/kubelet.yaml"
  GetKubeletConfig := fun _ _ _ _ => Except.ok ⟨none, none⟩
  IsFlagSet := fun _ _ => false
  FindFlagValueRaw := fun _ _ => []
  GetSingleFileStats := fun _ _ _ path => Except.ok ⟨path, "644", "0", "0"⟩
  GetFileStatsByDir := fun _ _ _ dir =>
    Except.ok [⟨dir ++ "/kubelet.crt", "644", "0", "0"⟩, ⟨dir ++ "/kubelet.pem", "664", "0", "0"⟩]

/-- The rule as configured for `scenario`. -/
def scenarioRule : Rule242466 :=
  { InstanceID := "run-1", ControlPlaneClient := ⟨"seed"⟩, ClusterClient := ⟨"shoot"⟩,
    ControlPlaneNamespace := "shoot--foo", ControlPlanePodContext := ⟨"seed"⟩,
    ClusterPodContext := ⟨"shoot"⟩, Options := none, Logger := some ⟨"logger"⟩ }

/-- The context the caller of `scenario` hands in. -/
def scenarioCtx : Context := Context.External "caller" false

/-- The cluster of `scenario`, except that creating a diagnostic pod fails. -/
def scenarioCreateFails : Env :=
  { scenario with Create := fun _ _ _ _ => Except.error "pods is forbidden" }

/-- The cluster of `scenario`, except that the diagnostic pod cannot be
fetched after it was created. -/
def scenarioGetFails : Env :=
  { scenario with Get := fun _ _ _ _ _ => Except.error "pod not found" }

/-- The cluster of `scenario`, except that the diagnostic pod, fetched after
it was created, has no container status yet. -/
def scenarioNotReady : Env :=
  { scenario with
    Get := fun _ _ _ name ns =>
      Except.ok { Name := name, Namespace := ns, NodeName := "", Labels := [],
                  ContainerStatuses := [] } }

/-- The cluster of `scenario`, except that the container of the diagnostic pod
has no runtime identifier yet: its `ContainerID` is empty. -/
def scenarioNoContainerID : Env :=
  { scenario with
    Get := fun _ _ _ name ns =>
      Except.ok { Name := name, Namespace := ns, NodeName := "", Labels := [],
                  ContainerStatuses := [⟨""⟩] } }

/-- The mount sources `checkPods` leaves out (line 257). -/
def checkPodsExcludedSources : List String :=
  ["/lib/modules", "/usr/share/ca-certificates", "/var/log/journal",
    "/var/run/dbus/system_bus_socket"]

/-- What the loop of `checkPods` appends for one pod, given what
`GetMountedFilesStats` answered for it: the Errored result of the error, if
any, then the results of the files of each container. -/
def podResults (env : Env) (pod : Pod) (replicaSets : List ReplicaSet)
    (expectedFilePermissionsMax : String) (target execPodTarget : Target)
    (answer : GoMap String (List FileStats) × Option String) : List CheckResult :=
  (match answer.2 with
    | some e => [ErroredCheckResult e execPodTarget]
    | none => []) ++
  answer.1.flatMap fun entry =>
    entry.2.flatMap
      (checkPodsFile env pod replicaSets expectedFilePermissionsMax target entry.1 [])

/-- The cluster of `scenario`, except that listing the mounted files fails
half way: an error comes back together with the stats found so far. -/
def scenarioPartialStats : Env :=
  { scenario with
    GetMountedFilesStats := fun _ _ _ _ _ _ =>
      ([("main", [⟨"/pki/ca.crt", "644", "0", "0"⟩])], some "command stat failed") }

/-- The cluster of `scenario`, except that the replica sets of the seed
cannot be listed. -/
def scenarioSeedReplicaSetsFail : Env :=
  { scenario with
    GetReplicaSets := fun _ _ c _ _ _ =>
      if c.handle == "seed" then Except.error "replicasets is forbidden" else Except.ok [] }

/-- The cluster of `scenario`, except that the pods of the seed cannot be
listed. -/
def scenarioSeedPodsFail : Env :=
  { scenario with
    GetPods := fun _ _ c _ _ _ =>
      if c.handle == "seed" then Except.error "pods is forbidden" else Except.ok [proxyPod] }

/-- The cluster of `scenarioSeedPodsFail`, in which moreover no shoot node has
room for a diagnostic pod: `SelectNodes` selects none and reports the pool. -/
def scenarioNoNodes : Env :=
  { scenarioSeedPodsFail with
    SelectNodes := fun _ _ _ =>
      ([], [⟨Status.Errored, "no allocatable node in pool", [("pool", "worker-a")]⟩]) }

/-- What `checkPods` does between `Create` and `Delete`: it re-fetches the pod
and inspects. -/
def Op.isProbe : Op → Bool
  | Op.Get _ _ _ _ => true
  | op => op.isInspection

/-- The node a `Create` asks its pod to be placed on. -/
def Op.createdNode : Op → List String
  | Op.Create _ _ pod => [pod.NodeName]
  | _ => []

/-- The nodes a call of the sampler returns: the keys of the map of
`SelectPodOfReferenceGroup`, in the order in which they are ranged over, or the
names of the nodes of `SelectNodes`. -/
def Op.sampledNodes (env : Env) : Op → List String
  | Op.SelectPodOfReferenceGroup pods replicaSets nodesAllocatablePods target =>
    (env.SelectPodOfReferenceGroup pods replicaSets nodesAllocatablePods target).1.map
      fun entry => entry.1
  | Op.SelectNodes nodes nodesAllocatablePods labels =>
    (env.SelectNodes nodes nodesAllocatablePods labels).1.map fun node => node.Name
  | _ => []

/-- A program that never calls the sampler and creates diagnostic pods on the
nodes `nodes`, in this order, one each: all of them when it returns, the first
few of them when a panic cuts it short. -/
def Prog.Creates {α : Type} (env : Env) (nodes : List String) (m : Prog α) : Prop :=
  ∀ tr, ∃ more, (m tr).2 = tr ++ more ∧
    more.flatMap (Op.sampledNodes env) = [] ∧
    more.flatMap Op.createdNode <+: nodes ∧
    ∀ a, (m tr).1 = Outcome.returned a → more.flatMap Op.createdNode = nodes

/-- A program that creates diagnostic pods on the nodes `owed` and then on the
nodes its own sampler calls return, in this order, one each: all of them when
it returns, the first few of them when a panic cuts it short. -/
def Prog.Owes {α : Type} (env : Env) (owed : List String) (m : Prog α) : Prop :=
  ∀ tr, ∃ more, (m tr).2 = tr ++ more ∧
    more.flatMap Op.createdNode <+: owed ++ more.flatMap (Op.sampledNodes env) ∧
    ∀ a, (m tr).1 = Outcome.returned a →
      more.flatMap Op.createdNode = owed ++ more.flatMap (Op.sampledNodes env)

/-- The calls `Run` makes itself, outside `checkPods` and `checkKubelet`: the
image lookup, the listings and the sampler. -/
def Op.isRunCall : Op → Bool
  | Op.FindImage _ => true
  | Op.GetPods _ _ _ _ _ => true
  | Op.GetReplicaSets _ _ _ _ _ => true
  | Op.GetDeploymentPods _ _ _ _ => true
  | Op.GetNodes _ _ _ => true
  | Op.SelectPodOfReferenceGroup _ _ _ _ => true
  | Op.SelectNodes _ _ _ => true
  | _ => false

/-- The calls of the sampler. -/
def Op.isSampler : Op → Bool
  | Op.SelectPodOfReferenceGroup _ _ _ _ => true
  | Op.SelectNodes _ _ _ => true
  | _ => false

/-- A program whose calls, taken together, satisfy `P`. -/
def Prog.Emits {α : Type} (P : List Op → Prop) (m : Prog α) : Prop :=
  ∀ tr, ∃ more, (m tr).2 = tr ++ more ∧ P more

/-- A sequence of pod-context operations in which every `Create` is directly
followed by the `Delete` of the pod it created (same pod context, name and
namespace), and nothing else occurs. -/
def pairedOps : List Op → Bool
  | [] => true
  | Op.Create _ pc pod :: Op.Delete _ pc1 name ns :: rest =>
    pc == pc1 && pod.Name == name && pod.Namespace == ns && pairedOps rest
  | _ => false

/-- The diagnostic pods alive after one more call: `Create` adds its pod,
`Delete` removes the pod it names. -/
def liveStep (live : List (PodContext × String × String)) :
    Op → List (PodContext × String × String)
  | Op.Create _ pc pod => (pc, pod.Namespace, pod.Name) :: live
  | Op.Delete _ pc name ns => live.erase (pc, ns, name)
  | _ => live

/-- The diagnostic pods alive after a sequence of calls. -/
def livePods (ops : List Op) : List (PodContext × String × String) :=
  ops.foldl liveStep []

/-- Whether a context is cancelled: the background context never is, a context
of the caller is when the caller cancelled it, a context derived with a timeout
is when its parent is (the running out of the timeout is not represented). -/
def Context.Cancelled : Context → Bool
  | Context.Background => false
  | Context.External _ cancelled => cancelled
  | Context.WithTimeout parent _ => parent.Cancelled

/-- The context at the root of a chain of derived contexts. -/
def Context.root : Context → Context
  | Context.WithTimeout parent _ => parent.root
  | ctx => ctx

/-- The diagnostic check results a call of the sampler returns. -/
def Op.sampledChecks (env : Env) : Op → List CheckResult
  | Op.SelectPodOfReferenceGroup pods replicaSets nodesAllocatablePods target =>
    (env.SelectPodOfReferenceGroup pods replicaSets nodesAllocatablePods target).2
  | Op.SelectNodes nodes nodesAllocatablePods labels =>
    (env.SelectNodes nodes nodesAllocatablePods labels).2
  | _ => []

/-- A step of `Run` that was entered with the check results `acc`: when it
returns `a`, the results `res a` it hands on hold `acc` followed by the
diagnostics of the sampler calls it made, in this order, with nothing
changed. -/
def Prog.Keeps {α : Type} (env : Env) (res : α → List CheckResult) (acc : List CheckResult)
    (m : Prog α) : Prop :=
  ∀ tr a tr1, m tr = (Outcome.returned a, tr1) →
    ∃ more, tr1 = tr ++ more ∧
      (acc ++ more.flatMap (Op.sampledChecks env)).Sublist (res a)

/-- A last step of `Run` that was entered with the check results `acc`: when
it returns, the error is nil and the value is the rule result of check results
that hold `acc` followed by the diagnostics of the sampler calls it made. -/
def Prog.Concludes (env : Env) (r : Rule242466) (acc : List CheckResult)
    (m : Prog (RuleResult × Option String)) : Prop :=
  ∀ tr out tr1, m tr = (Outcome.returned out, tr1) →
    ∃ more results, tr1 = tr ++ more ∧ out = (r.Result env results, none) ∧
      (acc ++ more.flatMap (Op.sampledChecks env)).Sublist results

/-- The cluster of `scenario`, except that the image of the diagnostic pod is
not in the image vector. -/
def scenarioImageFails : Env :=
  { scenario with FindImage := fun _ _ => Except.error "image not found" }

/-- The cluster of `scenario`, in which the sampler moreover reports one pod
group and one node pool it could not cover. -/
def scenarioDiagnostics : Env :=
  { scenario with
    SelectPodOfReferenceGroup := fun pods _ _ target =>
      match pods with
      | [] => ([], [])
      | p :: _ =>
        ([(p.NodeName, pods.filter fun q => q.NodeName == p.NodeName)],
          [⟨Status.Errored, "pod cannot be tested", target.With [("name", "other")]⟩])
    SelectNodes := fun nodes _ _ =>
      (nodes.take 1, [⟨Status.Errored, "no allocatable node in pool", [("pool", "b")]⟩]) }

/-- The rule of `scenarioRule`, configured with the kube-proxy check switched
off. -/
def scenarioRuleProxyDisabled : Rule242466 :=
  { scenarioRule with Options := some ⟨true⟩ }

/-- The rule of `scenario`, built without a logger. -/
def scenarioRuleNoLogger : Rule242466 :=
  { scenarioRule with Logger := none }

/-- The results of the loop of `checkPods`, pod by pod: for each pod, in the
order of the list, what `podResults` makes of the answer `GetMountedFilesStats`
gives at that point of the run. -/
def checkPodsBlocks (env : Env) (ctx : Context) (execContainerPath : String)
    (podExecutor : PodExecutor) (replicaSets : List ReplicaSet)
    (expectedFilePermissionsMax : String) (target execPodTarget : Target) :
    List Pod → Trace → List (List CheckResult)
  | [], _ => []
  | pod :: rest, tr =>
    podResults env pod replicaSets expectedFilePermissionsMax target execPodTarget
      (env.GetMountedFilesStats tr ctx execContainerPath podExecutor pod
        checkPodsExcludedSources) ::
    checkPodsBlocks env ctx execContainerPath podExecutor replicaSets
      expectedFilePermissionsMax target execPodTarget rest
      (tr ++ [Op.GetMountedFilesStats ctx execContainerPath podExecutor pod
        checkPodsExcludedSources])

/-- A second pod, for the cluster of `scenario`. -/
def apiserverPod : Pod :=
  { Name := "apiserver-1", Namespace := "shoot--foo", NodeName := "seed-node-a",
    Labels := [("role", "apiserver")], ContainerStatuses := [] }

/-! ## The shared rules 242421 and 242379 -/

/-- Go `config.TransportSecurity`; nil pointers are `none`. -/
structure TransportSecurity where
  AutoTLS : Option Bool
  ClientCertAuth : Option Bool
  deriving DecidableEq, Repr

/-- Go `config.EtcdConfig`. -/
structure EtcdConfig where
  ClientTransportSecurity : TransportSecurity
  PeerTransportSecurity : TransportSecurity
  deriving DecidableEq, Repr

/-- The collaborators of the shared rules.  They are declared in other
packages (`kubeutils`, `client`, `yaml`), so each is a parameter; a call that
reaches the cluster is given the trace of all earlier calls. -/
structure SharedEnv where
  ID242421 : String
  ID242379 : String
  SeverityMedium : String
  GetCommandOptionFromDeployment : Trace → Context → Client → String → String → String →
    String → Except String (List String)
  GetStatefulSet : Trace → Context → Client → String → String → Except String StatefulSet
  GetVolumeFromStatefulSet : StatefulSet → String → Option Volume
  GetFileDataFromVolume : Trace → Context → Client → String → Volume → String →
    Except String String
  Unmarshal : String → Except String EtcdConfig

/-- Modelled from the spec: `kubeutils.TargetWithK8sObject` is declared in
package `kubeutils`, whose source is missing.  It extends the target with the
name, the namespace and the kind of the object, in this order, as the targets
expected by the tests of the sibling rules show (`242428_test.go`, lines
49-50). -/
def TargetWithK8sObject (target : Target) (kind : String) (name ns : String) : Target :=
  target.With [("name", name), ("namespace", ns), ("kind", kind)]

/-- Go `Rule242421`. -/
structure Rule242421 where
  Client : Client
  Namespace : String
  DeploymentName : String
  ContainerName : String
  deriving DecidableEq, Repr

def Rule242421.ID (env : SharedEnv) (_r : Rule242421) : String := env.ID242421

def Rule242421.Name (_r : Rule242421) : String :=
  "Kubernetes Controller Manager must have the SSL Certificate Authority set."

/-- The call `rule.Result(r, checkResults...)` for rule 242421. -/
def Rule242421.Result (env : SharedEnv) (r : Rule242421) (checkResults : List CheckResult) :
    RuleResult :=
  Diki.Result (r.ID env) r.Name env.SeverityMedium checkResults

/-- Go `Rule242421.Run` (`242421.go`, lines 42-71). -/
def Rule242421.Run (env : SharedEnv) (r : Rule242421) (ctx : Context) :
    Prog (RuleResult × Option String) := do
  let option := "root-ca-file"
  let deploymentName :=
    if r.DeploymentName != "" then r.DeploymentName else "kube-controller-manager"
  let containerName :=
    if r.ContainerName != "" then r.ContainerName else "kube-controller-manager"
  let target := NewTarget [("name", deploymentName), ("namespace", r.Namespace),
    ("kind", "Deployment")]
  match ← Prog.call
      (Op.GetCommandOptionFromDeployment ctx r.Client deploymentName containerName r.Namespace
        option)
      (fun tr => env.GetCommandOptionFromDeployment tr ctx r.Client deploymentName
        containerName r.Namespace option) with
  | Except.error err => pure (r.Result env [ErroredCheckResult err target], none)
  | Except.ok optSlice =>
    if optSlice.length == 0 then
      pure (r.Result env
        [FailedCheckResult ("Option " ++ option ++ " has not been set.") target], none)
    else if optSlice.length > 1 then
      pure (r.Result env
        [WarningCheckResult
          ("Option " ++ option ++ " has been set more than once in container command.")
          target], none)
    else
      match optSlice[0]? with
      | none => Prog.panic "runtime error: index out of range [0] with length 0"
      | some value =>
        if TrimSpace value == "" then
          pure (r.Result env
            [FailedCheckResult ("Option " ++ option ++ " is empty.") target], none)
        else
          pure (r.Result env
            [PassedCheckResult ("Option " ++ option ++ " set.") target], none)

/-- Go `Rule242379`. -/
structure Rule242379 where
  Client : Client
  Namespace : String
  StatefulSetETCDMain : String
  StatefulSetETCDEvents : String
  deriving DecidableEq, Repr

def Rule242379.ID (env : SharedEnv) (_r : Rule242379) : String := env.ID242379

def Rule242379.Name (_r : Rule242379) : String :=
  "The Kubernetes etcd must use TLS to protect the confidentiality of sensitive data " ++
  "during electronic dissemination."

/-- The call `rule.Result(r, checkResults...)` for rule 242379. -/
def Rule242379.Result (env : SharedEnv) (r : Rule242379) (checkResults : List CheckResult) :
    RuleResult :=
  Diki.Result (r.ID env) r.Name env.SeverityMedium checkResults

/-- Go `Rule242379.checkStatefulSet` (`242379.go`, lines 63-101). -/
def Rule242379.checkStatefulSet (env : SharedEnv) (r : Rule242379) (ctx : Context)
    (statefulSetName : String) : Prog CheckResult := do
  let target := TargetWithK8sObject (NewTarget []) "StatefulSet" statefulSetName r.Namespace
  match ← Prog.call (Op.GetStatefulSet ctx r.Client statefulSetName r.Namespace)
      (fun tr => env.GetStatefulSet tr ctx r.Client statefulSetName r.Namespace) with
  | Except.error err => pure (ErroredCheckResult err target)
  | Except.ok statefulSet =>
    match env.GetVolumeFromStatefulSet statefulSet "etcd-config-file" with
    | none =>
      pure (ErroredCheckResult
        "StatefulSet does not contain volume with name: etcd-config-file." target)
    | some volume =>
      match ← Prog.call
          (Op.GetFileDataFromVolume ctx r.Client r.Namespace volume "etcd.conf.yaml")
          (fun tr => env.GetFileDataFromVolume tr ctx r.Client r.Namespace volume
            "etcd.conf.yaml") with
      | Except.error err => pure (ErroredCheckResult err target)
      | Except.ok configByteSlice =>
        match env.Unmarshal configByteSlice with
        | Except.error err => pure (ErroredCheckResult err target)
        | Except.ok config =>
          match config.ClientTransportSecurity.AutoTLS with
          | none =>
            pure (WarningCheckResult
              "Option client-transport-security.auto-tls has not been set." target)
          | some true =>
            pure (FailedCheckResult
              "Option client-transport-security.auto-tls set to not allowed value." target)
          | some false =>
            pure (PassedCheckResult
              "Option client-transport-security.auto-tls set to allowed value." target)

/-- Go `Rule242379.Run` (`242379.go`, lines 44-61). -/
def Rule242379.Run (env : SharedEnv) (r : Rule242379) (ctx : Context) :
    Prog (RuleResult × Option String) := do
  let checkResults : List CheckResult := []
  let etcdMain := if r.StatefulSetETCDMain != "" then r.StatefulSetETCDMain else "etcd-main"
  let etcdEvents :=
    if r.StatefulSetETCDEvents != "" then r.StatefulSetETCDEvents else "etcd-events"
  let first ← r.checkStatefulSet env ctx etcdMain
  let checkResults := checkResults ++ [first]
  let second ← r.checkStatefulSet env ctx etcdEvents
  let checkResults := checkResults ++ [second]
  pure (r.Result env checkResults, none)

/-- A control plane for the shared rules.  The command option found for a
container is told by the name of the container; the stateful set `etcd-main`
has its configuration with `auto-tls: false`, `etcd-events` cannot be
fetched, `etcd-bare` has no configuration volume, `etcd-secretless` has one
whose file cannot be read, and the configurations `broken`, `unset` and `auto`
do not parse, leave `auto-tls` out and set it to true. -/
def sharedScenario : SharedEnv where
  ID242421 := "242421"
  ID242379 := "242379"
  SeverityMedium := "Medium"
  GetCommandOptionFromDeployment := fun _ _ _ _ containerName _ _ =>
    if containerName == "absent" then Except.error "deployment does not contain container"
    else if containerName == "unset" then Except.ok []
    else if containerName == "twice" then Except.ok ["/ca-1.crt", "/ca-2.crt"]
    else if containerName == "blank" then Except.ok ["  "]
    else Except.ok ["/srv/kubernetes/ca/ca.crt"]
  GetStatefulSet := fun _ _ _ name ns =>
    if name == "etcd-events" then Except.error "statefulsets etcd-events not found"
    else if name == "etcd-bare" then Except.ok ⟨name, ns, []⟩
    else Except.ok ⟨name, ns, [⟨"etcd-config-file", name⟩]⟩
  GetVolumeFromStatefulSet := fun statefulSet volumeName =>
    statefulSet.Volumes.find? fun volume => volume.Name == volumeName
  GetFileDataFromVolume := fun _ _ _ _ volume _ =>
    if volume.Source == "etcd-secretless" then Except.error "secret not found"
    else Except.ok volume.Source
  Unmarshal := fun data =>
    if data == "broken" then Except.error "yaml: unmarshal errors"
    else if data == "unset" then Except.ok ⟨⟨none, none⟩, ⟨none, none⟩⟩
    else if data == "auto" then Except.ok ⟨⟨some true, none⟩, ⟨none, none⟩⟩
    else Except.ok ⟨⟨some false, none⟩, ⟨none, none⟩⟩

/-- The cluster of `scenario`, except that the kubelet is started with the
flag `cert-dir` given twice. -/
def scenarioCertDirTwice : Env :=
  { scenario with
    GetKubeletCommand := fun _ _ _ => Except.ok "kubelet --cert-dir=/a --cert-dir=/b"
    IsFlagSet := fun _ flag => flag == "cert-dir"
    FindFlagValueRaw := fun _ _ => ["/a", "/b"] }

/-- The kubelet configuration names both TLS files. -/
def scenarioTLSFiles : Env :=
  { scenario with
    GetKubeletConfig := fun _ _ _ _ =>
      Except.ok ⟨some "/etc/kubelet/tls.key", some "/etc/kubelet/tls.crt"⟩ }

/-- The kubelet configuration names both TLS files, the certificate with the
empty string. -/
def scenarioTLSCertEmpty : Env :=
  { scenario with
    GetKubeletConfig := fun _ _ _ _ => Except.ok ⟨some "/etc/kubelet/tls.key", some ""⟩ }

/-- The kubelet command sets `cert-dir` once, to nothing. -/
def scenarioCertDirBlank : Env :=
  { scenario with
    GetKubeletCommand := fun _ _ _ => Except.ok "kubelet --cert-dir="
    IsFlagSet := fun _ flag => flag == "cert-dir"
    FindFlagValueRaw := fun _ _ => [""] }

/-- The kubelet command sets `cert-dir` once; the value ends in a line feed,
and the directory holds certificates among other files. -/
def scenarioCertDirOnce : Env :=
  { scenario with
    GetKubeletCommand := fun _ _ _ => Except.ok "kubelet --cert-dir=/etc/pki\n"
    IsFlagSet := fun _ flag => flag == "cert-dir"
    FindFlagValueRaw := fun _ _ => ["/etc/pki\n"]
    GetFileStatsByDir := fun _ _ _ dir =>
      Except.ok [⟨dir ++ "/kubelet.key", "600", "0", "0"⟩,
        ⟨dir ++ "/kubelet.pem", "664", "0", "0"⟩,
        ⟨dir ++ "/notes.txt", "644", "0", "0"⟩,
        ⟨dir ++ "/ca.crt", "644", "0", "0"⟩] }

/-- The default PKI directory holds no certificate. -/
def scenarioNoCertFiles : Env :=
  { scenario with
    GetFileStatsByDir := fun _ _ _ dir => Except.ok [⟨dir ++ "/kubelet.key", "600", "0", "0"⟩] }

/-! ## Basic facts about programs -/

theorem Prog.bind_apply {α β : Type} (m : Prog α) (f : α → Prog β) (tr : Trace) :
    (m >>= f) tr =
      match m tr with
      | (Outcome.returned a, tr1) => f a tr1
      | (Outcome.panicked msg, tr1) => (Outcome.panicked msg, tr1) := rfl

theorem Prog.pure_apply {α : Type} (a : α) (tr : Trace) :
    (Pure.pure a : Prog α) tr = (Outcome.returned a, tr) := rfl

theorem Prog.call_apply {α : Type} (op : Op) (answer : Trace → α) (tr : Trace) :
    Prog.call op answer tr = (Outcome.returned (answer tr), tr ++ [op]) := rfl

theorem Prog.panic_apply {α : Type} (msg : String) (tr : Trace) :
    (Prog.panic msg : Prog α) tr = (Outcome.panicked msg, tr) := rfl

/-- Running the deferred delete: one `Delete`, then possibly one logger call;
an error of `Delete` with no logger to tell it to is a panic. -/
theorem deferredDelete_apply (env : Env) (logger : Option Logger) (pc : PodContext)
    (podName : String) (tr : Trace) :
    deferredDelete env logger pc podName tr =
      (match logger,
          env.Delete tr (Context.WithTimeout Context.Background 30) pc podName "kube-system" with
        | none, some _ =>
          Outcome.panicked "runtime error: invalid memory address or nil pointer dereference"
        | _, _ => Outcome.returned (),
        tr ++ Op.Delete (Context.WithTimeout Context.Background 30) pc podName "kube-system" ::
          deleteLog (match logger with
            | none => none
            | some _ => env.Delete tr (Context.WithTimeout Context.Background 30) pc podName
                "kube-system")) := by
  simp only [deferredDelete, Prog.bind_apply, Prog.call_apply]
  cases env.Delete tr (Context.WithTimeout Context.Background 30) pc podName "kube-system" <;>
    cases logger <;> simp [Prog.pure_apply, Prog.call_apply, Prog.panic_apply, deleteLog]

theorem onlyCalls_pure {α : Type} (p : Op → Bool) (a : α) :
    Prog.OnlyCalls p (Pure.pure a : Prog α) := fun tr => ⟨[], by simp [Prog.pure_apply]⟩

theorem onlyCalls_panic {α : Type} (p : Op → Bool) (msg : String) :
    Prog.OnlyCalls p (Prog.panic msg : Prog α) := fun tr => ⟨[], by simp [Prog.panic_apply]⟩

theorem onlyCalls_call {α : Type} (p : Op → Bool) (op : Op) (answer : Trace → α)
    (h : p op = true) : Prog.OnlyCalls p (Prog.call op answer) :=
  fun tr => ⟨[op], by simp [Prog.call_apply, h]⟩

theorem onlyCalls_bind {α β : Type} (p : Op → Bool) (m : Prog α) (f : α → Prog β)
    (hm : Prog.OnlyCalls p m) (hf : ∀ a, Prog.OnlyCalls p (f a)) :
    Prog.OnlyCalls p (m >>= f) := by
  intro tr
  obtain ⟨more1, h1, hp1⟩ := hm tr
  rw [Prog.bind_apply]
  rcases hmt : m tr with ⟨out, tr1⟩
  rw [hmt] at h1
  simp only at h1
  subst h1
  cases out with
  | returned a =>
    obtain ⟨more2, h2, hp2⟩ := hf a (tr ++ more1)
    refine ⟨more1 ++ more2, ?_, ?_⟩
    · simp [h2]
    · intro op hop
      rcases List.mem_append.1 hop with h | h
      · exact hp1 op h
      · exact hp2 op h
  | panicked msg => exact ⟨more1, rfl, hp1⟩

theorem onlyCalls_mono {α : Type} (p q : Op → Bool) (m : Prog α)
    (hpq : ∀ op, p op = true → q op = true) (hm : Prog.OnlyCalls p m) : Prog.OnlyCalls q m :=
  fun tr => by
    obtain ⟨more, h, hp⟩ := hm tr
    exact ⟨more, h, fun op hop => hpq op (hp op hop)⟩

/-- The loop over the pods only calls `GetMountedFilesStats`. -/
theorem checkPodsLoop_onlyCalls (env : Env) (ctx : Context) (execContainerPath : String)
    (podExecutor : PodExecutor) (replicaSets : List ReplicaSet)
    (expectedFilePermissionsMax : String) (target execPodTarget : Target) (pods : List Pod) :
    ∀ checkResults, Prog.OnlyCalls Op.isInspection
      (checkPodsLoop env ctx execContainerPath podExecutor replicaSets
        expectedFilePermissionsMax target execPodTarget pods checkResults) := by
  induction pods with
  | nil => intro checkResults; exact onlyCalls_pure _ _
  | cons pod rest ih =>
    intro checkResults
    unfold checkPodsLoop
    apply onlyCalls_bind
    · exact onlyCalls_call _ _ _ rfl
    · intro a
      exact ih _

/-- After `Create`, `checkPods` only re-fetches the pod and inspects. -/
theorem checkPodsBody_trace (env : Env) (ctx : Context) (c : Client) (pc : PodContext)
    (pods : List Pod) (replicaSets : List ReplicaSet) (nodeName imageName : String)
    (expectedFilePermissionsMax : String) (target : Target) (podName : String)
    (execPodTarget : Target) (additionalLabels : List (String × String)) (tr : Trace) :
    ∃ more, (checkPodsBody env ctx c pc pods replicaSets nodeName imageName
        expectedFilePermissionsMax target podName execPodTarget additionalLabels tr).2 =
      tr ++ Op.Create ctx pc
        (NewPrivilegedPod podName "kube-system" imageName nodeName additionalLabels) :: more ∧
      ∀ op ∈ more, op.isProbe = true := by
  simp only [checkPodsBody, Prog.bind_apply, Prog.call_apply]
  cases env.Create tr ctx pc
      (NewPrivilegedPod podName "kube-system" imageName nodeName additionalLabels) with
  | error err => exact ⟨[], by simp [Prog.pure_apply]⟩
  | ok podExecutor =>
    simp only [Prog.bind_apply, Prog.call_apply]
    cases env.Get (tr ++ [Op.Create ctx pc
        (NewPrivilegedPod podName "kube-system" imageName nodeName additionalLabels)])
        ctx c podName "kube-system" with
    | error err =>
      exact ⟨[Op.Get ctx c podName "kube-system"], by simp [Prog.pure_apply, Op.isProbe]⟩
    | ok execPod =>
      simp only []
      cases execPod.ContainerStatuses[0]? with
      | none =>
        exact ⟨[Op.Get ctx c podName "kube-system"],
          by simp [Prog.panic_apply, Op.isProbe]⟩
      | some status =>
        simp only []
        cases (Split status.ContainerID "//")[1]? with
        | none =>
          exact ⟨[Op.Get ctx c podName "kube-system"],
            by simp [Prog.panic_apply, Op.isProbe]⟩
        | some execBaseContainerID =>
          simp only []
          obtain ⟨more, h, hp⟩ := checkPodsLoop_onlyCalls env ctx
            ("/run/containerd/io.containerd.runtime.v2.task/k8s.io/" ++
              execBaseContainerID ++ "/rootfs")
            podExecutor replicaSets expectedFilePermissionsMax target execPodTarget
            (sortPodsByName pods) []
            (tr ++ [Op.Create ctx pc
              (NewPrivilegedPod podName "kube-system" imageName nodeName additionalLabels)] ++
              [Op.Get ctx c podName "kube-system"])
          refine ⟨Op.Get ctx c podName "kube-system" :: more, ?_, ?_⟩
          · rw [h]; simp
          · intro op hop
            rcases List.mem_cons.1 hop with h1 | h1
            · subst h1; rfl
            · have := hp op h1
              cases op <;> simp_all [Op.isInspection, Op.isProbe]

/-- A call followed by a continuation that only makes calls satisfying `p`. -/
theorem onlyCalls_after_call {α β : Type} (p : Op → Bool) (op : Op) (answer : Trace → α)
    (f : α → Prog β) (hf : ∀ a, Prog.OnlyCalls p (f a)) (tr : Trace) :
    ∃ more, ((Prog.call op answer >>= f) tr).2 = tr ++ op :: more ∧
      ∀ o ∈ more, p o = true := by
  obtain ⟨more, h, hp⟩ := hf (answer tr) (tr ++ [op])
  refine ⟨more, ?_, hp⟩
  simp only [Prog.bind_apply, Prog.call_apply]
  rw [h]
  simp

theorem checkKubeletPKIDir_onlyCalls (env : Env) (ctx : Context) (podExecutor : PodExecutor)
    (expectedFilePermissionsMax : String) (nodeTarget execPodTarget : Target)
    (kubeletPKIDir : String) :
    Prog.OnlyCalls Op.isInspection
      (checkKubeletPKIDir env ctx podExecutor expectedFilePermissionsMax nodeTarget
        execPodTarget kubeletPKIDir) := by
  unfold checkKubeletPKIDir
  apply onlyCalls_bind
  · exact onlyCalls_call _ _ _ rfl
  · intro a
    cases a with
    | error err => exact onlyCalls_pure _ _
    | ok pkiFilesStats =>
      simp only []
      split <;> exact onlyCalls_pure _ _

/-- After `Create`, `checkKubelet` only inspects. -/
theorem checkKubeletBody_trace (env : Env) (r : Rule242466) (ctx : Context)
    (nodeName imageName : String) (expectedFilePermissionsMax : String) (podName : String)
    (nodeTarget execPodTarget : Target) (additionalLabels : List (String × String))
    (tr : Trace) :
    ∃ more, (checkKubeletBody env r ctx nodeName imageName expectedFilePermissionsMax podName
        nodeTarget execPodTarget additionalLabels tr).2 =
      tr ++ Op.Create ctx r.ClusterPodContext
        (NewPrivilegedPod podName "kube-system" imageName nodeName additionalLabels) :: more ∧
      ∀ op ∈ more, op.isInspection = true := by
  unfold checkKubeletBody
  apply onlyCalls_after_call
  intro a
  cases a with
  | error err => exact onlyCalls_pure _ _
  | ok podExecutor =>
    simp only []
    apply onlyCalls_bind
    · exact onlyCalls_call _ _ _ rfl
    · intro a
      cases a with
      | error err => exact onlyCalls_pure _ _
      | ok rawKubeletCommand =>
        simp only []
        split
        · exact onlyCalls_pure _ _
        · apply onlyCalls_bind
          · exact onlyCalls_call _ _ _ rfl
          · intro a
            cases a with
            | error err => exact onlyCalls_pure _ _
            | ok kubeletConfig =>
              simp only []
              split
              · split
                · exact onlyCalls_pure _ _
                · apply onlyCalls_bind
                  · exact onlyCalls_call _ _ _ rfl
                  · intro a
                    cases a <;> exact onlyCalls_pure _ _
              · split
                · split
                  · exact onlyCalls_pure _ _
                  · split
                    · exact onlyCalls_panic _ _
                    · split
                      · exact onlyCalls_pure _ _
                      · exact checkKubeletPKIDir_onlyCalls _ _ _ _ _ _ _
                · exact checkKubeletPKIDir_onlyCalls _ _ _ _ _ _ _

/-- A body under the deferred delete: its trace is followed by the `Delete` and
what the logger is told; the outcome is that of the body, unless `Delete` fails
and there is no logger, which is a panic. -/
theorem defer_deferredDelete_apply {α : Type} (env : Env) (logger : Option Logger)
    (pc : PodContext) (podName : String) (body : Prog α) (tr : Trace) :
    Prog.defer (deferredDelete env logger pc podName) body tr =
      (match logger,
          env.Delete (body tr).2 (Context.WithTimeout Context.Background 30) pc podName
            "kube-system" with
        | none, some _ =>
          Outcome.panicked "runtime error: invalid memory address or nil pointer dereference"
        | _, _ => (body tr).1,
        (body tr).2 ++
          Op.Delete (Context.WithTimeout Context.Background 30) pc podName "kube-system" ::
          deleteLog (match logger with
            | none => none
            | some _ => env.Delete (body tr).2 (Context.WithTimeout Context.Background 30) pc
                podName "kube-system")) := by
  simp only [Prog.defer, deferredDelete_apply]
  cases logger <;>
    cases env.Delete (body tr).2 (Context.WithTimeout Context.Background 30) pc podName
      "kube-system" <;> rfl

/-- A body under the deferred delete of a rule with a logger: the outcome of
the body, and its trace followed by the `Delete` and what the logger is told. -/
theorem defer_deferredDelete_logger {α : Type} (env : Env) (logger : Option Logger)
    (pc : PodContext) (podName : String) (body : Prog α) (tr : Trace)
    (hlogger : logger ≠ none) :
    Prog.defer (deferredDelete env logger pc podName) body tr =
      ((body tr).1,
        (body tr).2 ++
          Op.Delete (Context.WithTimeout Context.Background 30) pc podName "kube-system" ::
          deleteLog (env.Delete (body tr).2 (Context.WithTimeout Context.Background 30) pc
            podName "kube-system")) := by
  rw [defer_deferredDelete_apply]
  cases logger with
  | none => exact absurd rfl hlogger
  | some _ => rfl

theorem checkPods_apply (env : Env) (r : Rule242466) (ctx : Context) (c : Client)
    (pc : PodContext) (pods : List Pod) (replicaSets : List ReplicaSet)
    (nodeName imageName : String) (expectedFilePermissionsMax : String) (target : Target)
    (tr : Trace) :
    r.checkPods env ctx c pc pods replicaSets nodeName imageName expectedFilePermissionsMax
        target tr =
      Prog.defer (deferredDelete env r.Logger pc (generatedPodName env r tr))
        (checkPodsBody env ctx c pc pods replicaSets nodeName imageName
          expectedFilePermissionsMax target (generatedPodName env r tr)
          (target.With [("name", generatedPodName env r tr), ("namespace", "kube-system"),
            ("kind", "Pod")])
          [(env.LabelInstanceID, r.InstanceID)])
        (tr ++ [Op.Generate 10]) := rfl

theorem checkKubelet_apply (env : Env) (r : Rule242466) (ctx : Context)
    (nodeName imageName : String) (expectedFilePermissionsMax : String) (target : Target)
    (tr : Trace) :
    r.checkKubelet env ctx nodeName imageName expectedFilePermissionsMax target tr =
      Prog.defer (deferredDelete env r.Logger r.ClusterPodContext (generatedPodName env r tr))
        (checkKubeletBody env r ctx nodeName imageName expectedFilePermissionsMax
          (generatedPodName env r tr) (target.With [("name", nodeName), ("kind", "Node")])
          (target.With [("name", generatedPodName env r tr), ("namespace", "kube-system"),
            ("kind", "Pod")])
          [(env.LabelInstanceID, r.InstanceID)])
        (tr ++ [Op.Generate 10]) := rfl

theorem deleteLog_filter (err : Option String) :
    (deleteLog err).filter Op.isPodContextOp = [] := by
  cases err <;> rfl

theorem filter_isPodContextOp_eq_nil (more : List Op)
    (h : ∀ op ∈ more, op.isPodContextOp = false) : more.filter Op.isPodContextOp = [] := by
  rw [List.filter_eq_nil_iff]
  intro op hop
  simp [h op hop]

theorem isPodContextOp_of_isInspection (op : Op) (h : op.isInspection = true) :
    op.isPodContextOp = false := by
  cases op <;> simp_all [Op.isInspection, Op.isPodContextOp]

theorem isPodContextOp_of_isProbe (op : Op) (h : op.isProbe = true) :
    op.isPodContextOp = false := by
  cases op <;> simp_all [Op.isProbe, Op.isInspection, Op.isPodContextOp]

theorem isProbe_of_isInspection (op : Op) (h : op.isInspection = true) :
    op.isProbe = true := by
  cases op <;> simp_all [Op.isProbe, Op.isInspection]

/-- C1: every invocation of `checkPods` and of `checkKubelet`, whatever its
steps answer and however it ends (return or panic), performs exactly two
pod-context operations: first one `Create` of the privileged pod with the
generated name in namespace "kube-system", and last one `Delete` of that same
name in "kube-system". -/
theorem C1_create_once_delete_once_last (env : Env) (r : Rule242466) (ctx : Context)
    (c : Client) (pc : PodContext) (pods : List Pod) (replicaSets : List ReplicaSet)
    (nodeName imageName : String) (expectedFilePermissionsMax : String) (target : Target)
    (tr : Trace) :
    (∃ more,
      (r.checkPods env ctx c pc pods replicaSets nodeName imageName
        expectedFilePermissionsMax target tr).2 = tr ++ more ∧
      more.filter Op.isPodContextOp =
        [Op.Create ctx pc (NewPrivilegedPod (generatedPodName env r tr) "kube-system"
            imageName nodeName [(env.LabelInstanceID, r.InstanceID)]),
         Op.Delete (Context.WithTimeout Context.Background 30) pc
            (generatedPodName env r tr) "kube-system"]) ∧
    (∃ more,
      (r.checkKubelet env ctx nodeName imageName expectedFilePermissionsMax target tr).2 =
        tr ++ more ∧
      more.filter Op.isPodContextOp =
        [Op.Create ctx r.ClusterPodContext (NewPrivilegedPod (generatedPodName env r tr)
            "kube-system" imageName nodeName [(env.LabelInstanceID, r.InstanceID)]),
         Op.Delete (Context.WithTimeout Context.Background 30) r.ClusterPodContext
            (generatedPodName env r tr) "kube-system"]) := by
  constructor
  · rw [checkPods_apply, defer_deferredDelete_apply]
    obtain ⟨more, h, hp⟩ := checkPodsBody_trace env ctx c pc pods replicaSets nodeName
      imageName expectedFilePermissionsMax target (generatedPodName env r tr)
      (target.With [("name", generatedPodName env r tr), ("namespace", "kube-system"),
        ("kind", "Pod")]) [(env.LabelInstanceID, r.InstanceID)] (tr ++ [Op.Generate 10])
    rw [h]
    refine ⟨_, by simp only [List.append_assoc]; rfl, ?_⟩
    simp [List.filter_cons, List.filter_append, Op.isPodContextOp, deleteLog_filter,
      filter_isPodContextOp_eq_nil more
        (fun op hop => isPodContextOp_of_isProbe op (hp op hop))]
  · rw [checkKubelet_apply, defer_deferredDelete_apply]
    obtain ⟨more, h, hp⟩ := checkKubeletBody_trace env r ctx nodeName imageName
      expectedFilePermissionsMax (generatedPodName env r tr)
      (target.With [("name", nodeName), ("kind", "Node")])
      (target.With [("name", generatedPodName env r tr), ("namespace", "kube-system"),
        ("kind", "Pod")]) [(env.LabelInstanceID, r.InstanceID)] (tr ++ [Op.Generate 10])
    rw [h]
    refine ⟨_, by simp only [List.append_assoc]; rfl, ?_⟩
    simp [List.filter_cons, List.filter_append, Op.isPodContextOp, deleteLog_filter,
      filter_isPodContextOp_eq_nil more
        (fun op hop => isPodContextOp_of_isInspection op (hp op hop))]

/-! ## C2: the outcome of `Delete` does not reach the results -/

theorem checkPodsLoop_withDelete (env : Env)
    (delete : Trace → Context → PodContext → String → String → Option String)
    (ctx : Context) (execContainerPath : String) (podExecutor : PodExecutor)
    (replicaSets : List ReplicaSet) (expectedFilePermissionsMax : String)
    (target execPodTarget : Target) (pods : List Pod) :
    ∀ checkResults,
      checkPodsLoop (env.withDelete delete) ctx execContainerPath podExecutor replicaSets
        expectedFilePermissionsMax target execPodTarget pods checkResults =
      checkPodsLoop env ctx execContainerPath podExecutor replicaSets
        expectedFilePermissionsMax target execPodTarget pods checkResults := by
  induction pods with
  | nil => intro checkResults; rfl
  | cons pod rest ih =>
    intro checkResults
    unfold checkPodsLoop
    funext tr
    simp only [Prog.bind_apply, Prog.call_apply, ih]
    rfl

theorem checkPodsBody_withDelete (env : Env)
    (delete : Trace → Context → PodContext → String → String → Option String)
    (ctx : Context) (c : Client) (pc : PodContext)
    (pods : List Pod) (replicaSets : List ReplicaSet) (nodeName imageName : String)
    (expectedFilePermissionsMax : String) (target : Target) (podName : String)
    (execPodTarget : Target) (additionalLabels : List (String × String)) :
    checkPodsBody (env.withDelete delete) ctx c pc pods replicaSets nodeName imageName
      expectedFilePermissionsMax target podName execPodTarget additionalLabels =
    checkPodsBody env ctx c pc pods replicaSets nodeName imageName
      expectedFilePermissionsMax target podName execPodTarget additionalLabels := by
  unfold checkPodsBody
  simp only [checkPodsLoop_withDelete]
  rfl

theorem checkKubeletBody_withDelete (env : Env)
    (delete : Trace → Context → PodContext → String → String → Option String)
    (r : Rule242466) (ctx : Context)
    (nodeName imageName : String) (expectedFilePermissionsMax : String) (podName : String)
    (nodeTarget execPodTarget : Target) (additionalLabels : List (String × String)) :
    checkKubeletBody (env.withDelete delete) r ctx nodeName imageName
      expectedFilePermissionsMax podName nodeTarget execPodTarget additionalLabels =
    checkKubeletBody env r ctx nodeName imageName
      expectedFilePermissionsMax podName nodeTarget execPodTarget additionalLabels := rfl

/-- C2 as stated fails for a rule built without a logger: in the cluster of
`scenario`, where `Delete` succeeds, `checkPods` and `checkKubelet` return
their results; in the same cluster with `Delete` failing, the deferred function
calls `Error` on the nil logger and both functions panic, so no result list is
returned at all. -/
theorem C2_failing_delete_without_logger_panics :
    scenarioRuleNoLogger.Logger = none ∧
    (scenarioRuleNoLogger.checkPods scenario scenarioCtx ⟨"seed"⟩ ⟨"seed"⟩ [etcdPod] []
        "seed-node-a" "diki-ops:v1" "644" [("cluster", "seed")] []).1 =
      Outcome.returned [⟨Status.Failed, "File has too wide permissions",
        [("cluster", "seed"), ("containerName", "main"), ("name", "etcd-main-0"),
          ("namespace", "shoot--foo"), ("kind", "Pod"),
          ("details",
            "fileName: /pki/ca.crt, permissions: 664, expectedPermissionsMax: 644")]⟩] ∧
    (scenarioRuleNoLogger.checkPods
        (scenario.withDelete fun _ _ _ _ _ => some "context deadline exceeded")
        scenarioCtx ⟨"seed"⟩ ⟨"seed"⟩ [etcdPod] []
        "seed-node-a" "diki-ops:v1" "644" [("cluster", "seed")] []).1 =
      Outcome.panicked "runtime error: invalid memory address or nil pointer dereference" ∧
    (scenarioRuleNoLogger.checkKubelet scenario scenarioCtx "shoot-node-a" "diki-ops:v1"
        "644" [("cluster", "shoot")] []).1 =
      Outcome.returned [
        ⟨Status.Passed, "File has expected permissions",
          [("cluster", "shoot"), ("name", "shoot-node-a"), ("kind", "Node"),
            ("details", "fileName: /var/lib/kubelet/pki/kubelet.crt, permissions: 644")]⟩,
        ⟨Status.Failed, "File has too wide permissions",
          [("cluster", "shoot"), ("name", "shoot-node-a"), ("kind", "Node"),
            ("details", "fileName: /var/lib/kubelet/pki/kubelet.pem, permissions: 664, " ++
              "expectedPermissionsMax: 644")]⟩] ∧
    scenarioRuleNoLogger.checkKubelet
        (scenario.withDelete fun _ _ _ _ _ => some "context deadline exceeded")
        scenarioCtx "shoot-node-a" "diki-ops:v1" "644" [("cluster", "shoot")] [] =
      (Outcome.panicked "runtime error: invalid memory address or nil pointer dereference",
       [Op.Generate 10,
        Op.Create scenarioCtx ⟨"shoot"⟩ ⟨"diki-242466-abcdefghij", "kube-system",
          "diki-ops:v1", "shoot-node-a", [("instanceID", "run-1")]⟩,
        Op.GetKubeletCommand scenarioCtx ⟨"diki-242466-abcdefghij"⟩,
        Op.GetKubeletConfig scenarioCtx ⟨"diki-242466-abcdefghij"⟩
          "kubelet --config=/etc/kubelet.yaml",
        Op.GetFileStatsByDir scenarioCtx ⟨"diki-242466-abcdefghij"⟩ "/var/lib/kubelet/pki",
        Op.Delete (Context.WithTimeout Context.Background 30) ⟨"shoot"⟩
          "diki-242466-abcdefghij" "kube-system"]) :=
  ⟨rfl, rfl, rfl, rfl, rfl⟩

/-- C2, amended: for a rule whose `Logger` is set, the outcome (the returned
check results, or the panic) of `checkPods` and of `checkKubelet` is the same
whatever `Delete` answers, success or any error; the run ends with the `Delete`
call followed only by what its error, if any, hands to the logger. -/
theorem C2_results_independent_of_delete (env : Env)
    (delete : Trace → Context → PodContext → String → String → Option String)
    (r : Rule242466) (ctx : Context) (c : Client) (pc : PodContext) (pods : List Pod)
    (replicaSets : List ReplicaSet) (nodeName imageName : String)
    (expectedFilePermissionsMax : String) (target : Target) (tr : Trace)
    (hlogger : r.Logger ≠ none) :
    (r.checkPods (env.withDelete delete) ctx c pc pods replicaSets nodeName imageName
        expectedFilePermissionsMax target tr).1 =
      (r.checkPods env ctx c pc pods replicaSets nodeName imageName
        expectedFilePermissionsMax target tr).1 ∧
    (r.checkKubelet (env.withDelete delete) ctx nodeName imageName expectedFilePermissionsMax
        target tr).1 =
      (r.checkKubelet env ctx nodeName imageName expectedFilePermissionsMax target tr).1 ∧
    (∃ before,
      (r.checkPods env ctx c pc pods replicaSets nodeName imageName
        expectedFilePermissionsMax target tr).2 =
      before ++ Op.Delete (Context.WithTimeout Context.Background 30) pc
          (generatedPodName env r tr) "kube-system" ::
        deleteLog (env.Delete before (Context.WithTimeout Context.Background 30) pc
          (generatedPodName env r tr) "kube-system")) ∧
    (∃ before,
      (r.checkKubelet env ctx nodeName imageName expectedFilePermissionsMax target tr).2 =
      before ++ Op.Delete (Context.WithTimeout Context.Background 30) r.ClusterPodContext
          (generatedPodName env r tr) "kube-system" ::
        deleteLog (env.Delete before (Context.WithTimeout Context.Background 30)
          r.ClusterPodContext (generatedPodName env r tr) "kube-system")) := by
  refine ⟨?_, ?_, ?_, ?_⟩
  · rw [checkPods_apply, checkPods_apply, defer_deferredDelete_logger _ _ _ _ _ _ hlogger,
      defer_deferredDelete_logger _ _ _ _ _ _ hlogger, checkPodsBody_withDelete]
    rfl
  · rw [checkKubelet_apply, checkKubelet_apply,
      defer_deferredDelete_logger _ _ _ _ _ _ hlogger,
      defer_deferredDelete_logger _ _ _ _ _ _ hlogger, checkKubeletBody_withDelete]
    rfl
  · rw [checkPods_apply, defer_deferredDelete_logger _ _ _ _ _ _ hlogger]
    exact ⟨_, rfl⟩
  · rw [checkKubelet_apply, defer_deferredDelete_logger _ _ _ _ _ _ hlogger]
    exact ⟨_, rfl⟩

/-- Witness of the amended C2: the rule of `scenario` has a logger, and its
results are those of the cluster where `Delete` succeeds also when `Delete`
fails; the error is told to the logger after the `Delete`. -/
theorem C2_results_independent_of_delete_witness :
    scenarioRule.Logger ≠ none ∧
    (scenarioRule.checkPods
        (scenario.withDelete fun _ _ _ _ _ => some "context deadline exceeded")
        scenarioCtx ⟨"seed"⟩ ⟨"seed"⟩ [etcdPod] []
        "seed-node-a" "diki-ops:v1" "644" [("cluster", "seed")] []).1 =
      (scenarioRule.checkPods scenario scenarioCtx ⟨"seed"⟩ ⟨"seed"⟩ [etcdPod] []
        "seed-node-a" "diki-ops:v1" "644" [("cluster", "seed")] []).1 ∧
    (scenarioRule.checkKubelet
        (scenario.withDelete fun _ _ _ _ _ => some "context deadline exceeded")
        scenarioCtx "shoot-node-a" "diki-ops:v1" "644" [("cluster", "shoot")] []).1 =
      (scenarioRule.checkKubelet scenario scenarioCtx "shoot-node-a" "diki-ops:v1" "644"
        [("cluster", "shoot")] []).1 ∧
    scenarioRule.checkKubelet
        (scenario.withDelete fun _ _ _ _ _ => some "context deadline exceeded")
        scenarioCtx "shoot-node-a" "diki-ops:v1" "644" [("cluster", "shoot")] [] =
      (Outcome.returned [
        ⟨Status.Passed, "File has expected permissions",
          [("cluster", "shoot"), ("name", "shoot-node-a"), ("kind", "Node"),
            ("details", "fileName: /var/lib/kubelet/pki/kubelet.crt, permissions: 644")]⟩,
        ⟨Status.Failed, "File has too wide permissions",
          [("cluster", "shoot"), ("name", "shoot-node-a"), ("kind", "Node"),
            ("details", "fileName: /var/lib/kubelet/pki/kubelet.pem, permissions: 664, " ++
              "expectedPermissionsMax: 644")]⟩],
       [Op.Generate 10,
        Op.Create scenarioCtx ⟨"shoot"⟩ ⟨"diki-242466-abcdefghij", "kube-system",
          "diki-ops:v1", "shoot-node-a", [("instanceID", "run-1")]⟩,
        Op.GetKubeletCommand scenarioCtx ⟨"diki-242466-abcdefghij"⟩,
        Op.GetKubeletConfig scenarioCtx ⟨"diki-242466-abcdefghij"⟩
          "kubelet --config=/etc/kubelet.yaml",
        Op.GetFileStatsByDir scenarioCtx ⟨"diki-242466-abcdefghij"⟩ "/var/lib/kubelet/pki",
        Op.Delete (Context.WithTimeout Context.Background 30) ⟨"shoot"⟩
          "diki-242466-abcdefghij" "kube-system",
        Op.LoggerError "context deadline exceeded"]) :=
  ⟨by decide,
   (C2_results_independent_of_delete scenario
      (fun _ _ _ _ _ => some "context deadline exceeded") scenarioRule scenarioCtx ⟨"seed"⟩
      ⟨"seed"⟩ [etcdPod] [] "seed-node-a" "diki-ops:v1" "644" [("cluster", "seed")] []
      (by decide)).1,
   (C2_results_independent_of_delete scenario
      (fun _ _ _ _ _ => some "context deadline exceeded") scenarioRule scenarioCtx ⟨"seed"⟩
      ⟨"seed"⟩ [etcdPod] [] "shoot-node-a" "diki-ops:v1" "644" [("cluster", "shoot")] []
      (by decide)).2.1,
   rfl⟩

/-! ## C3: a failed `Create` or re-fetch short-circuits -/

/-- C3: for a rule whose `Logger` is set, if `Create` fails (in `checkPods` or
`checkKubelet`), or `Create` succeeds and re-fetching the pod fails (in
`checkPods`), the function returns
exactly one result, Errored with the text of the error, at the base target
extended with name=<generated pod name>, namespace=kube-system, kind=Pod; the
only calls made are the name generation, `Create`, the re-fetch where it is
reached, and the deferred `Delete` with its logging: no inspection call. -/
theorem C3_create_or_refetch_failure_short_circuits (env : Env) (r : Rule242466)
    (ctx : Context) (c : Client) (pc : PodContext) (pods : List Pod)
    (replicaSets : List ReplicaSet) (nodeName imageName : String)
    (expectedFilePermissionsMax : String) (target : Target) (tr : Trace) (err : String)
    (hlogger : r.Logger ≠ none) :
    (env.Create (tr ++ [Op.Generate 10]) ctx pc
        (NewPrivilegedPod (generatedPodName env r tr) "kube-system" imageName nodeName
          [(env.LabelInstanceID, r.InstanceID)]) = Except.error err →
      r.checkPods env ctx c pc pods replicaSets nodeName imageName
          expectedFilePermissionsMax target tr =
        (Outcome.returned [ErroredCheckResult err
            (target.With [("name", generatedPodName env r tr), ("namespace", "kube-system"),
              ("kind", "Pod")])],
          tr ++ [Op.Generate 10,
            Op.Create ctx pc (NewPrivilegedPod (generatedPodName env r tr) "kube-system"
              imageName nodeName [(env.LabelInstanceID, r.InstanceID)])] ++
            Op.Delete (Context.WithTimeout Context.Background 30) pc
              (generatedPodName env r tr) "kube-system" ::
            deleteLog (env.Delete
              (tr ++ [Op.Generate 10,
                Op.Create ctx pc (NewPrivilegedPod (generatedPodName env r tr) "kube-system"
                  imageName nodeName [(env.LabelInstanceID, r.InstanceID)])])
              (Context.WithTimeout Context.Background 30) pc
              (generatedPodName env r tr) "kube-system"))) ∧
    (∀ podExecutor,
      env.Create (tr ++ [Op.Generate 10]) ctx pc
        (NewPrivilegedPod (generatedPodName env r tr) "kube-system" imageName nodeName
          [(env.LabelInstanceID, r.InstanceID)]) = Except.ok podExecutor →
      env.Get (tr ++ [Op.Generate 10,
          Op.Create ctx pc (NewPrivilegedPod (generatedPodName env r tr) "kube-system"
            imageName nodeName [(env.LabelInstanceID, r.InstanceID)])])
        ctx c (generatedPodName env r tr) "kube-system" = Except.error err →
      r.checkPods env ctx c pc pods replicaSets nodeName imageName
          expectedFilePermissionsMax target tr =
        (Outcome.returned [ErroredCheckResult err
            (target.With [("name", generatedPodName env r tr), ("namespace", "kube-system"),
              ("kind", "Pod")])],
          tr ++ [Op.Generate 10,
            Op.Create ctx pc (NewPrivilegedPod (generatedPodName env r tr) "kube-system"
              imageName nodeName [(env.LabelInstanceID, r.InstanceID)]),
            Op.Get ctx c (generatedPodName env r tr) "kube-system"] ++
            Op.Delete (Context.WithTimeout Context.Background 30) pc
              (generatedPodName env r tr) "kube-system" ::
            deleteLog (env.Delete
              (tr ++ [Op.Generate 10,
                Op.Create ctx pc (NewPrivilegedPod (generatedPodName env r tr) "kube-system"
                  imageName nodeName [(env.LabelInstanceID, r.InstanceID)]),
                Op.Get ctx c (generatedPodName env r tr) "kube-system"])
              (Context.WithTimeout Context.Background 30) pc
              (generatedPodName env r tr) "kube-system"))) ∧
    (env.Create (tr ++ [Op.Generate 10]) ctx r.ClusterPodContext
        (NewPrivilegedPod (generatedPodName env r tr) "kube-system" imageName nodeName
          [(env.LabelInstanceID, r.InstanceID)]) = Except.error err →
      r.checkKubelet env ctx nodeName imageName expectedFilePermissionsMax target tr =
        (Outcome.returned [ErroredCheckResult err
            (target.With [("name", generatedPodName env r tr), ("namespace", "kube-system"),
              ("kind", "Pod")])],
          tr ++ [Op.Generate 10,
            Op.Create ctx r.ClusterPodContext (NewPrivilegedPod (generatedPodName env r tr)
              "kube-system" imageName nodeName [(env.LabelInstanceID, r.InstanceID)])] ++
            Op.Delete (Context.WithTimeout Context.Background 30) r.ClusterPodContext
              (generatedPodName env r tr) "kube-system" ::
            deleteLog (env.Delete
              (tr ++ [Op.Generate 10,
                Op.Create ctx r.ClusterPodContext (NewPrivilegedPod (generatedPodName env r tr)
                  "kube-system" imageName nodeName [(env.LabelInstanceID, r.InstanceID)])])
              (Context.WithTimeout Context.Background 30) r.ClusterPodContext
              (generatedPodName env r tr) "kube-system"))) := by
  refine ⟨?_, ?_, ?_⟩
  · intro h
    rw [checkPods_apply, defer_deferredDelete_logger _ _ _ _ _ _ hlogger]
    simp [checkPodsBody, Prog.bind_apply, Prog.call_apply, Prog.pure_apply, h]
  · intro podExecutor h hget
    rw [checkPods_apply, defer_deferredDelete_logger _ _ _ _ _ _ hlogger]
    simp [checkPodsBody, Prog.bind_apply, Prog.call_apply, Prog.pure_apply, h, hget]
  · intro h
    rw [checkKubelet_apply, defer_deferredDelete_logger _ _ _ _ _ _ hlogger]
    simp [checkKubeletBody, Prog.bind_apply, Prog.call_apply, Prog.pure_apply, h]

/-- Witness of C3: in a cluster where `Create` is refused, and in one where the
created pod cannot be fetched, `checkPods` and `checkKubelet` return the single
Errored result and the trace shows no inspection. -/
theorem C3_create_or_refetch_failure_witness :
    scenarioRule.checkPods scenarioCreateFails scenarioCtx ⟨"seed"⟩ ⟨"seed"⟩ [etcdPod] []
        "seed-node-a" "diki-ops:v1" "644" [("cluster", "seed")] [] =
      (Outcome.returned [ErroredCheckResult "pods is forbidden"
          [("cluster", "seed"), ("name", "diki-242466-abcdefghij"),
            ("namespace", "kube-system"), ("kind", "Pod")]],
        [Op.Generate 10,
          Op.Create scenarioCtx ⟨"seed"⟩ ⟨"diki-242466-abcdefghij", "kube-system",
            "diki-ops:v1", "seed-node-a", [("instanceID", "run-1")]⟩,
          Op.Delete (Context.WithTimeout Context.Background 30) ⟨"seed"⟩
            "diki-242466-abcdefghij" "kube-system"]) ∧
    scenarioRule.checkPods scenarioGetFails scenarioCtx ⟨"seed"⟩ ⟨"seed"⟩ [etcdPod] []
        "seed-node-a" "diki-ops:v1" "644" [("cluster", "seed")] [] =
      (Outcome.returned [ErroredCheckResult "pod not found"
          [("cluster", "seed"), ("name", "diki-242466-abcdefghij"),
            ("namespace", "kube-system"), ("kind", "Pod")]],
        [Op.Generate 10,
          Op.Create scenarioCtx ⟨"seed"⟩ ⟨"diki-242466-abcdefghij", "kube-system",
            "diki-ops:v1", "seed-node-a", [("instanceID", "run-1")]⟩,
          Op.Get scenarioCtx ⟨"seed"⟩ "diki-242466-abcdefghij" "kube-system",
          Op.Delete (Context.WithTimeout Context.Background 30) ⟨"seed"⟩
            "diki-242466-abcdefghij" "kube-system"]) ∧
    scenarioRule.checkKubelet scenarioCreateFails scenarioCtx "shoot-node-a" "diki-ops:v1"
        "644" [("cluster", "shoot")] [] =
      (Outcome.returned [ErroredCheckResult "pods is forbidden"
          [("cluster", "shoot"), ("name", "diki-242466-abcdefghij"),
            ("namespace", "kube-system"), ("kind", "Pod")]],
        [Op.Generate 10,
          Op.Create scenarioCtx ⟨"shoot"⟩ ⟨"diki-242466-abcdefghij", "kube-system",
            "diki-ops:v1", "shoot-node-a", [("instanceID", "run-1")]⟩,
          Op.Delete (Context.WithTimeout Context.Background 30) ⟨"shoot"⟩
            "diki-242466-abcdefghij" "kube-system"]) :=
  ⟨(C3_create_or_refetch_failure_short_circuits scenarioCreateFails scenarioRule scenarioCtx
      ⟨"seed"⟩ ⟨"seed"⟩ [etcdPod] [] "seed-node-a" "diki-ops:v1" "644" [("cluster", "seed")] []
      "pods is forbidden" (by decide)).1 rfl,
   (C3_create_or_refetch_failure_short_circuits scenarioGetFails scenarioRule scenarioCtx
      ⟨"seed"⟩ ⟨"seed"⟩ [etcdPod] [] "seed-node-a" "diki-ops:v1" "644" [("cluster", "seed")] []
      "pod not found" (by decide)).2.1 ⟨"diki-242466-abcdefghij"⟩ rfl rfl,
   (C3_create_or_refetch_failure_short_circuits scenarioCreateFails scenarioRule scenarioCtx
      ⟨"seed"⟩ ⟨"seed"⟩ [etcdPod] [] "shoot-node-a" "diki-ops:v1" "644" [("cluster", "shoot")]
      [] "pods is forbidden" (by decide)).2.2 rfl⟩

/-! ## C4: a diagnostic pod without container status -/

/-- C4 (what the code does), for a rule whose `Logger` is set: when `Create`
succeeds and the re-fetched pod has an empty list of container statuses,
`checkPods` does not return an Errored
result: the lookup `ContainerStatuses[0]` is out of range and the function
panics.  It also panics, at the lookup `[1]` after the split at "//", when the
first container status has a `ContainerID` without "//".  In both cases no
inspection is made and the deferred `Delete` still runs. -/
theorem C4_empty_container_statuses_panics (env : Env) (r : Rule242466)
    (ctx : Context) (c : Client) (pc : PodContext) (pods : List Pod)
    (replicaSets : List ReplicaSet) (nodeName imageName : String)
    (expectedFilePermissionsMax : String) (target : Target) (tr : Trace)
    (podExecutor : PodExecutor) (execPod : Pod)
    (hcreate : env.Create (tr ++ [Op.Generate 10]) ctx pc
        (NewPrivilegedPod (generatedPodName env r tr) "kube-system" imageName nodeName
          [(env.LabelInstanceID, r.InstanceID)]) = Except.ok podExecutor)
    (hget : env.Get (tr ++ [Op.Generate 10,
          Op.Create ctx pc (NewPrivilegedPod (generatedPodName env r tr) "kube-system"
            imageName nodeName [(env.LabelInstanceID, r.InstanceID)])])
        ctx c (generatedPodName env r tr) "kube-system" = Except.ok execPod)
    (hlogger : r.Logger ≠ none) :
    (execPod.ContainerStatuses = [] →
      r.checkPods env ctx c pc pods replicaSets nodeName imageName
          expectedFilePermissionsMax target tr =
        (Outcome.panicked "runtime error: index out of range [0] with length 0",
          tr ++ [Op.Generate 10,
            Op.Create ctx pc (NewPrivilegedPod (generatedPodName env r tr) "kube-system"
              imageName nodeName [(env.LabelInstanceID, r.InstanceID)]),
            Op.Get ctx c (generatedPodName env r tr) "kube-system"] ++
            Op.Delete (Context.WithTimeout Context.Background 30) pc
              (generatedPodName env r tr) "kube-system" ::
            deleteLog (env.Delete
              (tr ++ [Op.Generate 10,
                Op.Create ctx pc (NewPrivilegedPod (generatedPodName env r tr) "kube-system"
                  imageName nodeName [(env.LabelInstanceID, r.InstanceID)]),
                Op.Get ctx c (generatedPodName env r tr) "kube-system"])
              (Context.WithTimeout Context.Background 30) pc
              (generatedPodName env r tr) "kube-system"))) ∧
    (∀ status rest, execPod.ContainerStatuses = status :: rest →
      (Split status.ContainerID "//")[1]? = none →
      r.checkPods env ctx c pc pods replicaSets nodeName imageName
          expectedFilePermissionsMax target tr =
        (Outcome.panicked "runtime error: index out of range [1] with length 1",
          tr ++ [Op.Generate 10,
            Op.Create ctx pc (NewPrivilegedPod (generatedPodName env r tr) "kube-system"
              imageName nodeName [(env.LabelInstanceID, r.InstanceID)]),
            Op.Get ctx c (generatedPodName env r tr) "kube-system"] ++
            Op.Delete (Context.WithTimeout Context.Background 30) pc
              (generatedPodName env r tr) "kube-system" ::
            deleteLog (env.Delete
              (tr ++ [Op.Generate 10,
                Op.Create ctx pc (NewPrivilegedPod (generatedPodName env r tr) "kube-system"
                  imageName nodeName [(env.LabelInstanceID, r.InstanceID)]),
                Op.Get ctx c (generatedPodName env r tr) "kube-system"])
              (Context.WithTimeout Context.Background 30) pc
              (generatedPodName env r tr) "kube-system"))) := by
  constructor
  · intro hstatus
    rw [checkPods_apply, defer_deferredDelete_logger _ _ _ _ _ _ hlogger]
    simp [checkPodsBody, Prog.bind_apply, Prog.call_apply, Prog.panic_apply, hcreate, hget,
      hstatus]
  · intro status rest hstatus hsplit
    rw [checkPods_apply, defer_deferredDelete_logger _ _ _ _ _ _ hlogger]
    simp [checkPodsBody, Prog.bind_apply, Prog.call_apply, Prog.panic_apply, hcreate, hget,
      hstatus, hsplit]

/-- Witness of C4: in the cluster whose diagnostic pod has no container status
yet, and in the one whose container has no runtime identifier yet, `checkPods`
panics. -/
theorem C4_empty_container_statuses_witness :
    scenarioRule.checkPods scenarioNotReady scenarioCtx ⟨"seed"⟩ ⟨"seed"⟩ [etcdPod] []
        "seed-node-a" "diki-ops:v1" "644" [("cluster", "seed")] [] =
      (Outcome.panicked "runtime error: index out of range [0] with length 0",
        [Op.Generate 10,
          Op.Create scenarioCtx ⟨"seed"⟩ ⟨"diki-242466-abcdefghij", "kube-system",
            "diki-ops:v1", "seed-node-a", [("instanceID", "run-1")]⟩,
          Op.Get scenarioCtx ⟨"seed"⟩ "diki-242466-abcdefghij" "kube-system",
          Op.Delete (Context.WithTimeout Context.Background 30) ⟨"seed"⟩
            "diki-242466-abcdefghij" "kube-system"]) ∧
    scenarioRule.checkPods scenarioNoContainerID scenarioCtx ⟨"seed"⟩ ⟨"seed"⟩ [etcdPod] []
        "seed-node-a" "diki-ops:v1" "644" [("cluster", "seed")] [] =
      (Outcome.panicked "runtime error: index out of range [1] with length 1",
        [Op.Generate 10,
          Op.Create scenarioCtx ⟨"seed"⟩ ⟨"diki-242466-abcdefghij", "kube-system",
            "diki-ops:v1", "seed-node-a", [("instanceID", "run-1")]⟩,
          Op.Get scenarioCtx ⟨"seed"⟩ "diki-242466-abcdefghij" "kube-system",
          Op.Delete (Context.WithTimeout Context.Background 30) ⟨"seed"⟩
            "diki-242466-abcdefghij" "kube-system"]) :=
  ⟨(C4_empty_container_statuses_panics scenarioNotReady scenarioRule scenarioCtx
      ⟨"seed"⟩ ⟨"seed"⟩ [etcdPod] [] "seed-node-a" "diki-ops:v1" "644" [("cluster", "seed")] []
      ⟨"diki-242466-abcdefghij"⟩
      { Name := "diki-242466-abcdefghij", Namespace := "kube-system", NodeName := "",
        Labels := [], ContainerStatuses := [] }
      rfl rfl (by decide)).1 rfl,
   (C4_empty_container_statuses_panics scenarioNoContainerID scenarioRule scenarioCtx
      ⟨"seed"⟩ ⟨"seed"⟩ [etcdPod] [] "seed-node-a" "diki-ops:v1" "644" [("cluster", "seed")] []
      ⟨"diki-242466-abcdefghij"⟩
      { Name := "diki-242466-abcdefghij", Namespace := "kube-system", NodeName := "",
        Labels := [], ContainerStatuses := [⟨""⟩] }
      rfl rfl (by decide)).2 ⟨""⟩ [] rfl rfl⟩

/-! ## The results of one pod: files and containers -/

theorem checkPodsFile_append (env : Env) (pod : Pod) (replicaSets : List ReplicaSet)
    (expectedFilePermissionsMax : String) (target : Target) (containerName : String)
    (checkResults : List CheckResult) (fileStat : FileStats) :
    checkPodsFile env pod replicaSets expectedFilePermissionsMax target containerName
        checkResults fileStat =
      checkResults ++ checkPodsFile env pod replicaSets expectedFilePermissionsMax target
        containerName [] fileStat := by
  unfold checkPodsFile
  split
  · simp
  · simp only []
    split <;> simp

theorem checkPodsFiles_foldl (env : Env) (pod : Pod) (replicaSets : List ReplicaSet)
    (expectedFilePermissionsMax : String) (target : Target) (containerName : String)
    (fileStats : List FileStats) :
    ∀ checkResults,
      fileStats.foldl
          (checkPodsFile env pod replicaSets expectedFilePermissionsMax target containerName)
          checkResults =
        checkResults ++ fileStats.flatMap
          (checkPodsFile env pod replicaSets expectedFilePermissionsMax target containerName
            []) := by
  induction fileStats with
  | nil => intro checkResults; simp
  | cons fileStat rest ih =>
    intro checkResults
    rw [List.foldl_cons, ih, checkPodsFile_append, List.flatMap_cons, List.append_assoc]

theorem checkPodsContainers_eq (env : Env) (pod : Pod) (replicaSets : List ReplicaSet)
    (expectedFilePermissionsMax : String) (target : Target)
    (mappedFileStats : GoMap String (List FileStats)) :
    ∀ checkResults,
      checkPodsContainers env pod replicaSets expectedFilePermissionsMax target
          mappedFileStats checkResults =
        checkResults ++ mappedFileStats.flatMap fun entry =>
          entry.2.flatMap
            (checkPodsFile env pod replicaSets expectedFilePermissionsMax target entry.1
              []) := by
  unfold checkPodsContainers
  induction mappedFileStats with
  | nil => intro checkResults; simp
  | cons entry rest ih =>
    intro checkResults
    rw [List.foldl_cons, ih, checkPodsFiles_foldl, List.flatMap_cons, List.append_assoc]

/-! ## The loop over the pods -/

/-- One turn of the loop over the pods. -/
theorem checkPodsLoop_cons (env : Env) (ctx : Context) (execContainerPath : String)
    (podExecutor : PodExecutor) (replicaSets : List ReplicaSet)
    (expectedFilePermissionsMax : String) (target execPodTarget : Target) (pod : Pod)
    (rest : List Pod) (checkResults : List CheckResult) (tr : Trace) :
    checkPodsLoop env ctx execContainerPath podExecutor replicaSets
        expectedFilePermissionsMax target execPodTarget (pod :: rest) checkResults tr =
      checkPodsLoop env ctx execContainerPath podExecutor replicaSets
        expectedFilePermissionsMax target execPodTarget rest
        (checkResults ++ podResults env pod replicaSets expectedFilePermissionsMax target
          execPodTarget
          (env.GetMountedFilesStats tr ctx execContainerPath podExecutor pod
            checkPodsExcludedSources))
        (tr ++ [Op.GetMountedFilesStats ctx execContainerPath podExecutor pod
          checkPodsExcludedSources]) := by
  rw [checkPodsLoop]
  simp only [Prog.bind_apply, Prog.call_apply, checkPodsContainers_eq, podResults,
    checkPodsExcludedSources]
  rcases env.GetMountedFilesStats tr ctx execContainerPath podExecutor pod
      ["/lib/modules", "/usr/share/ca-certificates", "/var/log/journal",
        "/var/run/dbus/system_bus_socket"] with ⟨mapped, err⟩
  cases err <;> simp

/-- The loop calls `GetMountedFilesStats` once for every pod, in order, and
nothing else. -/
theorem checkPodsLoop_trace (env : Env) (ctx : Context) (execContainerPath : String)
    (podExecutor : PodExecutor) (replicaSets : List ReplicaSet)
    (expectedFilePermissionsMax : String) (target execPodTarget : Target) (pods : List Pod) :
    ∀ checkResults tr,
      (checkPodsLoop env ctx execContainerPath podExecutor replicaSets
        expectedFilePermissionsMax target execPodTarget pods checkResults tr).2 =
      tr ++ pods.map fun pod =>
        Op.GetMountedFilesStats ctx execContainerPath podExecutor pod
          checkPodsExcludedSources := by
  induction pods with
  | nil => intro checkResults tr; simp [checkPodsLoop, Prog.pure_apply]
  | cons pod rest ih =>
    intro checkResults tr
    rw [checkPodsLoop_cons, ih]
    simp

/-- The loop returns, and what it returns starts with the results it was
given. -/
theorem checkPodsLoop_returns (env : Env) (ctx : Context) (execContainerPath : String)
    (podExecutor : PodExecutor) (replicaSets : List ReplicaSet)
    (expectedFilePermissionsMax : String) (target execPodTarget : Target) (pods : List Pod) :
    ∀ checkResults tr, ∃ later,
      (checkPodsLoop env ctx execContainerPath podExecutor replicaSets
        expectedFilePermissionsMax target execPodTarget pods checkResults tr).1 =
      Outcome.returned (checkResults ++ later) := by
  induction pods with
  | nil => intro checkResults tr; exact ⟨[], by simp [checkPodsLoop, Prog.pure_apply]⟩
  | cons pod rest ih =>
    intro checkResults tr
    rw [checkPodsLoop_cons]
    obtain ⟨later, h⟩ := ih
      (checkResults ++ podResults env pod replicaSets expectedFilePermissionsMax target
        execPodTarget
        (env.GetMountedFilesStats tr ctx execContainerPath podExecutor pod
          checkPodsExcludedSources))
      (tr ++ [Op.GetMountedFilesStats ctx execContainerPath podExecutor pod
        checkPodsExcludedSources])
    exact ⟨_, by rw [h, List.append_assoc]⟩

/-! ## C6: one result per certificate file -/

/-- C6: in the loop of `checkPods`, each pod contributes the results of
`podResults`, that is of every file of every container that
`GetMountedFilesStats` answered, each file on its own.  A file whose path ends
neither in ".crt" nor in ".pem" gives no result; any other file gives exactly
one: Errored with the error text when `ExceedFilePermissions` fails, Failed
when it answers true, Passed with message "File has expected permissions" when
it answers false.  (`Run` passes "644" as the maximum.) -/
theorem C6_one_result_per_certificate_file (env : Env) (ctx : Context)
    (execContainerPath : String) (podExecutor : PodExecutor) (replicaSets : List ReplicaSet)
    (expectedFilePermissionsMax : String) (target execPodTarget : Target) (pod : Pod) :
    (∀ rest checkResults tr,
      checkPodsLoop env ctx execContainerPath podExecutor replicaSets
          expectedFilePermissionsMax target execPodTarget (pod :: rest) checkResults tr =
        checkPodsLoop env ctx execContainerPath podExecutor replicaSets
          expectedFilePermissionsMax target execPodTarget rest
          (checkResults ++ podResults env pod replicaSets expectedFilePermissionsMax target
            execPodTarget
            (env.GetMountedFilesStats tr ctx execContainerPath podExecutor pod
              checkPodsExcludedSources))
          (tr ++ [Op.GetMountedFilesStats ctx execContainerPath podExecutor pod
            checkPodsExcludedSources])) ∧
    (∀ containerName fileStat,
      HasSuffix fileStat.Path ".crt" = false → HasSuffix fileStat.Path ".pem" = false →
      checkPodsFile env pod replicaSets expectedFilePermissionsMax target containerName []
        fileStat = []) ∧
    (∀ containerName fileStat,
      HasSuffix fileStat.Path ".crt" = true ∨ HasSuffix fileStat.Path ".pem" = true →
      (∀ err,
        env.ExceedFilePermissions fileStat.Permissions expectedFilePermissionsMax =
          Except.error err →
        checkPodsFile env pod replicaSets expectedFilePermissionsMax target containerName []
            fileStat =
          [⟨Status.Errored, err,
            env.TargetWithPod (target.With [("containerName", containerName)]) pod
              replicaSets⟩]) ∧
      (env.ExceedFilePermissions fileStat.Permissions expectedFilePermissionsMax =
          Except.ok true →
        checkPodsFile env pod replicaSets expectedFilePermissionsMax target containerName []
            fileStat =
          [⟨Status.Failed, "File has too wide permissions",
            (env.TargetWithPod (target.With [("containerName", containerName)]) pod
              replicaSets).With [("details",
                "fileName: " ++ fileStat.Path ++ ", permissions: " ++ fileStat.Permissions ++
                ", expectedPermissionsMax: " ++ expectedFilePermissionsMax)]⟩]) ∧
      (env.ExceedFilePermissions fileStat.Permissions expectedFilePermissionsMax =
          Except.ok false →
        checkPodsFile env pod replicaSets expectedFilePermissionsMax target containerName []
            fileStat =
          [⟨Status.Passed, "File has expected permissions",
            (env.TargetWithPod (target.With [("containerName", containerName)]) pod
              replicaSets).With [("details",
                "fileName: " ++ fileStat.Path ++ ", permissions: " ++
                fileStat.Permissions)]⟩])) := by
  refine ⟨fun rest checkResults tr => checkPodsLoop_cons _ _ _ _ _ _ _ _ _ _ _ _, ?_, ?_⟩
  · intro containerName fileStat hcrt hpem
    simp [checkPodsFile, hcrt, hpem]
  · intro containerName fileStat hcert
    have hcond : (!HasSuffix fileStat.Path ".crt" && !HasSuffix fileStat.Path ".pem") = false := by
      rcases hcert with h | h <;> simp [h]
    refine ⟨?_, ?_, ?_⟩
    · intro err h
      simp [checkPodsFile, hcond, h, ErroredCheckResult]
    · intro h
      simp [checkPodsFile, hcond, h, FailedCheckResult]
    · intro h
      simp [checkPodsFile, hcond, h, PassedCheckResult]

/-- Witness of C6: a key file, a certificate with permissions 664, one with
644 and one with a malformed permission string, evaluated against "644". -/
theorem C6_one_result_per_certificate_file_witness :
    checkPodsFile scenario etcdPod [] "644" [("cluster", "seed")] "main" []
        ⟨"/pki/tls.key", "600", "0", "0"⟩ = [] ∧
    checkPodsFile scenario etcdPod [] "644" [("cluster", "seed")] "main" []
        ⟨"/pki/ca.crt", "rw-r--r--", "0", "0"⟩ =
      [⟨Status.Errored, "permissions are not octal digits",
        [("cluster", "seed"), ("containerName", "main"), ("name", "etcd-main-0"),
          ("namespace", "shoot--foo"), ("kind", "Pod")]⟩] ∧
    checkPodsFile scenario etcdPod [] "644" [("cluster", "seed")] "main" []
        ⟨"/pki/ca.crt", "664", "0", "0"⟩ =
      [⟨Status.Failed, "File has too wide permissions",
        [("cluster", "seed"), ("containerName", "main"), ("name", "etcd-main-0"),
          ("namespace", "shoot--foo"), ("kind", "Pod"),
          ("details", "fileName: /pki/ca.crt, permissions: 664, expectedPermissionsMax: 644")]⟩] ∧
    checkPodsFile scenario etcdPod [] "644" [("cluster", "seed")] "main" []
        ⟨"/pki/ca.pem", "644", "0", "0"⟩ =
      [⟨Status.Passed, "File has expected permissions",
        [("cluster", "seed"), ("containerName", "main"), ("name", "etcd-main-0"),
          ("namespace", "shoot--foo"), ("kind", "Pod"),
          ("details", "fileName: /pki/ca.pem, permissions: 644")]⟩] :=
  ⟨(C6_one_result_per_certificate_file scenario scenarioCtx "/rootfs" ⟨"exec"⟩ [] "644"
      [("cluster", "seed")] [] etcdPod).2.1 "main" ⟨"/pki/tls.key", "600", "0", "0"⟩ rfl rfl,
   ((C6_one_result_per_certificate_file scenario scenarioCtx "/rootfs" ⟨"exec"⟩ [] "644"
      [("cluster", "seed")] [] etcdPod).2.2 "main" ⟨"/pki/ca.crt", "rw-r--r--", "0", "0"⟩
      (Or.inl rfl)).1 "permissions are not octal digits" rfl,
   ((C6_one_result_per_certificate_file scenario scenarioCtx "/rootfs" ⟨"exec"⟩ [] "644"
      [("cluster", "seed")] [] etcdPod).2.2 "main" ⟨"/pki/ca.crt", "664", "0", "0"⟩
      (Or.inl rfl)).2.1 rfl,
   ((C6_one_result_per_certificate_file scenario scenarioCtx "/rootfs" ⟨"exec"⟩ [] "644"
      [("cluster", "seed")] [] etcdPod).2.2 "main" ⟨"/pki/ca.pem", "644", "0", "0"⟩
      (Or.inr rfl)).2.2 rfl⟩

/-! ## C7: a certificate with too wide permissions -/

/-- C7 as stated fails: for a certificate with permissions 664 against the
maximum 644, `checkPods` and `checkKubelet` each give exactly one Failed
result, but its message is the fixed text "File has too wide permissions",
which holds no digit at all, so it names no permission digit. -/
theorem C7_failed_message_names_no_digit :
    (∃ res,
      checkPodsFile scenario etcdPod [] "644" [("cluster", "seed")] "main" []
          ⟨"/pki/ca.crt", "664", "0", "0"⟩ = [res] ∧
        res.Status = Status.Failed ∧ res.Message = "File has too wide permissions" ∧
        ∀ ch ∈ res.Message.data, ch.isDigit = false) ∧
    (∃ res,
      checkKubeletFile scenario "644" [("cluster", "shoot"), ("name", "shoot-node-a"),
          ("kind", "Node")] [] ⟨"/var/lib/kubelet/pki/kubelet.pem", "664", "0", "0"⟩ = [res] ∧
        res.Status = Status.Failed ∧ res.Message = "File has too wide permissions" ∧
        ∀ ch ∈ res.Message.data, ch.isDigit = false) := by
  constructor
  · exact ⟨_, rfl, rfl, rfl, by decide⟩
  · exact ⟨_, rfl, rfl, rfl, by decide⟩

/-- C7, amended: when `ExceedFilePermissions` answers that the permissions of
a file exceed the maximum, the file yields exactly one Failed result with the
message "File has too wide permissions"; the file name, its permissions and
the maximum are given in the `details` entry appended to the target (of the
container and pod in `checkPods`, for a file ending in ".crt" or ".pem"; of
the node in `checkKubelet`). -/
theorem C7_too_wide_permissions_failed_with_details (env : Env) (pod : Pod)
    (replicaSets : List ReplicaSet) (expectedFilePermissionsMax : String)
    (target nodeTarget : Target) (containerName : String) (checkResults : List CheckResult)
    (fileStat : FileStats)
    (hexceed : env.ExceedFilePermissions fileStat.Permissions expectedFilePermissionsMax =
      Except.ok true) :
    (HasSuffix fileStat.Path ".crt" = true ∨ HasSuffix fileStat.Path ".pem" = true →
      checkPodsFile env pod replicaSets expectedFilePermissionsMax target containerName
          checkResults fileStat =
        checkResults ++ [⟨Status.Failed, "File has too wide permissions",
          (env.TargetWithPod (target.With [("containerName", containerName)]) pod
            replicaSets).With [("details",
              "fileName: " ++ fileStat.Path ++ ", permissions: " ++ fileStat.Permissions ++
              ", expectedPermissionsMax: " ++ expectedFilePermissionsMax)]⟩]) ∧
    checkKubeletFile env expectedFilePermissionsMax nodeTarget checkResults fileStat =
      checkResults ++ [⟨Status.Failed, "File has too wide permissions",
        nodeTarget.With [("details",
          "fileName: " ++ fileStat.Path ++ ", permissions: " ++ fileStat.Permissions ++
          ", expectedPermissionsMax: " ++ expectedFilePermissionsMax)]⟩] := by
  constructor
  · intro hcert
    have hcond : (!HasSuffix fileStat.Path ".crt" && !HasSuffix fileStat.Path ".pem") = false := by
      rcases hcert with h | h <;> simp [h]
    simp [checkPodsFile, hcond, hexceed, FailedCheckResult]
  · simp [checkKubeletFile, hexceed, FailedCheckResult]

/-- Witness of the amended C7: permissions 664 against the maximum 644. -/
theorem C7_too_wide_permissions_witness :
    checkPodsFile scenario etcdPod [] "644" [("cluster", "seed")] "main" []
        ⟨"/pki/ca.crt", "664", "0", "0"⟩ =
      [⟨Status.Failed, "File has too wide permissions",
        [("cluster", "seed"), ("containerName", "main"), ("name", "etcd-main-0"),
          ("namespace", "shoot--foo"), ("kind", "Pod"),
          ("details", "fileName: /pki/ca.crt, permissions: 664, expectedPermissionsMax: 644")]⟩] ∧
    checkKubeletFile scenario "644" [("cluster", "shoot"), ("name", "shoot-node-a"),
        ("kind", "Node")] [] ⟨"/pki/ca.crt", "664", "0", "0"⟩ =
      [⟨Status.Failed, "File has too wide permissions",
        [("cluster", "shoot"), ("name", "shoot-node-a"), ("kind", "Node"),
          ("details", "fileName: /pki/ca.crt, permissions: 664, expectedPermissionsMax: 644")]⟩] :=
  ⟨(C7_too_wide_permissions_failed_with_details scenario etcdPod [] "644" [("cluster", "seed")]
      [("cluster", "shoot"), ("name", "shoot-node-a"), ("kind", "Node")] "main" []
      ⟨"/pki/ca.crt", "664", "0", "0"⟩ rfl).1 (Or.inl rfl),
   (C7_too_wide_permissions_failed_with_details scenario etcdPod [] "644" [("cluster", "seed")]
      [("cluster", "shoot"), ("name", "shoot-node-a"), ("kind", "Node")] "main" []
      ⟨"/pki/ca.crt", "664", "0", "0"⟩ rfl).2⟩

/-! ## C9: an error of `GetMountedFilesStats` with partial stats -/

/-- C9: when `GetMountedFilesStats` answers for a pod with an error together
with some file stats, the loop of `checkPods` appends for that pod exactly one
Errored result with the text of the error at the target of the diagnostic pod,
then the results of the files that were returned; it goes on with the remaining
pods, calling `GetMountedFilesStats` once for each of them, and returns. -/
theorem C9_error_with_partial_stats (env : Env) (ctx : Context)
    (execContainerPath : String) (podExecutor : PodExecutor) (replicaSets : List ReplicaSet)
    (expectedFilePermissionsMax : String) (target execPodTarget : Target) (pod : Pod)
    (rest : List Pod) (checkResults : List CheckResult) (tr : Trace)
    (mappedFileStats : GoMap String (List FileStats)) (e : String)
    (hstats : env.GetMountedFilesStats tr ctx execContainerPath podExecutor pod
      checkPodsExcludedSources = (mappedFileStats, some e)) :
    (∃ later,
      (checkPodsLoop env ctx execContainerPath podExecutor replicaSets
        expectedFilePermissionsMax target execPodTarget (pod :: rest) checkResults tr).1 =
      Outcome.returned (checkResults ++ [⟨Status.Errored, e, execPodTarget⟩] ++
        (mappedFileStats.flatMap fun entry =>
          entry.2.flatMap
            (checkPodsFile env pod replicaSets expectedFilePermissionsMax target entry.1
              [])) ++ later)) ∧
    (checkPodsLoop env ctx execContainerPath podExecutor replicaSets
        expectedFilePermissionsMax target execPodTarget (pod :: rest) checkResults tr).2 =
      tr ++ (pod :: rest).map fun p =>
        Op.GetMountedFilesStats ctx execContainerPath podExecutor p
          checkPodsExcludedSources := by
  refine ⟨?_, checkPodsLoop_trace _ _ _ _ _ _ _ _ _ _ _⟩
  rw [checkPodsLoop_cons, hstats]
  obtain ⟨later, h⟩ := checkPodsLoop_returns env ctx execContainerPath podExecutor
    replicaSets expectedFilePermissionsMax target execPodTarget rest
    (checkResults ++ podResults env pod replicaSets expectedFilePermissionsMax target
      execPodTarget (mappedFileStats, some e))
    (tr ++ [Op.GetMountedFilesStats ctx execContainerPath podExecutor pod
      checkPodsExcludedSources])
  refine ⟨later, ?_⟩
  rw [h]
  simp [podResults, ErroredCheckResult]

/-- Witness of C9: two pods in a cluster where listing the mounted files fails
half way; both pods are inspected, and each gives the Errored result followed
by the result of the file that was found. -/
theorem C9_error_with_partial_stats_witness :
    checkPodsLoop scenarioPartialStats scenarioCtx "/rootfs" ⟨"exec"⟩ [] "644"
        [("cluster", "seed")] [("name", "exec")] [etcdPod, proxyPod] [] [] =
      (Outcome.returned
        [⟨Status.Errored, "command stat failed", [("name", "exec")]⟩,
         ⟨Status.Passed, "File has expected permissions",
          [("cluster", "seed"), ("containerName", "main"), ("name", "etcd-main-0"),
            ("namespace", "shoot--foo"), ("kind", "Pod"),
            ("details", "fileName: /pki/ca.crt, permissions: 644")]⟩,
         ⟨Status.Errored, "command stat failed", [("name", "exec")]⟩,
         ⟨Status.Passed, "File has expected permissions",
          [("cluster", "seed"), ("containerName", "main"), ("name", "kube-proxy-x"),
            ("namespace", "kube-system"), ("kind", "Pod"),
            ("details", "fileName: /pki/ca.crt, permissions: 644")]⟩],
       [Op.GetMountedFilesStats scenarioCtx "/rootfs" ⟨"exec"⟩ etcdPod
          checkPodsExcludedSources,
        Op.GetMountedFilesStats scenarioCtx "/rootfs" ⟨"exec"⟩ proxyPod
          checkPodsExcludedSources]) := by
  have h := C9_error_with_partial_stats scenarioPartialStats scenarioCtx "/rootfs" ⟨"exec"⟩
    [] "644" [("cluster", "seed")] [("name", "exec")] etcdPod [proxyPod] [] []
    [("main", [⟨"/pki/ca.crt", "644", "0", "0"⟩])] "command stat failed" rfl
  exact Prod.ext_iff.2 ⟨rfl, h.2⟩

/-! ## C8: failures while gathering the seed objects -/

/-- C8 (what the code does): when the pods of the seed cannot be listed, `Run`
records an Errored result and goes on with the shoot side (`runShoot`, lines
143-202); but when the replica sets of the seed cannot be listed, `Run` records
an Errored result and returns at once (line 92): the trace ends with that
listing, no shoot object is listed and neither the kubelet nor the kube-proxy
check is made. -/
theorem C8_seed_replica_sets_failure_returns (env : Env) (r : Rule242466) (ctx : Context)
    (tr : Trace) (image0 : ImageSource) (err : String)
    (himage : env.FindImage tr env.DikiOpsImageName = Except.ok image0) :
    (env.GetPods (tr ++ [Op.FindImage env.DikiOpsImageName]) ctx r.ControlPlaneClient ""
        NewSelector 300 = Except.error err →
      r.Run env ctx tr =
        runShoot env r ctx (env.WithOptionalTag image0 env.GitVersion) "644"
          (SelectorFromSet [("role", "proxy")]) ["worker.gardener.cloud/pool"]
          [⟨Status.Errored, err, [("cluster", "seed"), ("kind", "PodList")]⟩]
          (tr ++ [Op.FindImage env.DikiOpsImageName,
            Op.GetPods ctx r.ControlPlaneClient "" NewSelector 300])) ∧
    (∀ allSeedPods,
      env.GetPods (tr ++ [Op.FindImage env.DikiOpsImageName]) ctx r.ControlPlaneClient ""
        NewSelector 300 = Except.ok allSeedPods →
      env.GetReplicaSets
        (tr ++ [Op.FindImage env.DikiOpsImageName,
          Op.GetPods ctx r.ControlPlaneClient "" NewSelector 300])
        ctx r.ControlPlaneClient r.ControlPlaneNamespace NewSelector 300 = Except.error err →
      r.Run env ctx tr =
        (Outcome.returned
          (r.Result env [⟨Status.Errored, err,
            [("cluster", "seed"), ("namespace", r.ControlPlaneNamespace),
              ("kind", "ReplicaSetList")]⟩], none),
         tr ++ [Op.FindImage env.DikiOpsImageName,
           Op.GetPods ctx r.ControlPlaneClient "" NewSelector 300,
           Op.GetReplicaSets ctx r.ControlPlaneClient r.ControlPlaneNamespace NewSelector
             300])) := by
  constructor
  · intro hpods
    simp [Rule242466.Run, Prog.bind_apply, Prog.call_apply, himage, hpods, NewTarget,
      Target.With, ErroredCheckResult]
  · intro allSeedPods hpods hrs
    simp [Rule242466.Run, Prog.bind_apply, Prog.call_apply, Prog.pure_apply, himage, hpods,
      hrs, NewTarget, Target.With, ErroredCheckResult]

/-- Witness of C8: with the seed pods not listable `Run` goes on with the shoot
side; with the seed replica sets not listable it returns after three calls. -/
theorem C8_seed_replica_sets_failure_witness :
    scenarioRule.Run scenarioSeedPodsFail scenarioCtx [] =
      runShoot scenarioSeedPodsFail scenarioRule scenarioCtx ⟨"diki-ops", some "v1"⟩ "644"
        (SelectorFromSet [("role", "proxy")]) ["worker.gardener.cloud/pool"]
        [⟨Status.Errored, "pods is forbidden", [("cluster", "seed"), ("kind", "PodList")]⟩]
        [Op.FindImage "diki-ops", Op.GetPods scenarioCtx ⟨"seed"⟩ "" NewSelector 300] ∧
    scenarioRule.Run scenarioSeedReplicaSetsFail scenarioCtx [] =
      (Outcome.returned
        (⟨"242466",
          "The Kubernetes PKI CRT must have file permissions set to 644 or more restrictive.",
          "Medium",
          [⟨Status.Errored, "replicasets is forbidden",
            [("cluster", "seed"), ("namespace", "shoot--foo"), ("kind", "ReplicaSetList")]⟩]⟩,
          none),
       [Op.FindImage "diki-ops", Op.GetPods scenarioCtx ⟨"seed"⟩ "" NewSelector 300,
        Op.GetReplicaSets scenarioCtx ⟨"seed"⟩ "shoot--foo" NewSelector 300]) :=
  ⟨(C8_seed_replica_sets_failure_returns scenarioSeedPodsFail scenarioRule scenarioCtx []
      ⟨"diki-ops", none⟩ "pods is forbidden" rfl).1 rfl,
   (C8_seed_replica_sets_failure_returns scenarioSeedReplicaSetsFail scenarioRule scenarioCtx
      [] ⟨"diki-ops", none⟩ "replicasets is forbidden" rfl).2 [etcdPod] rfl rfl⟩

/-! ## The loops of `Run` keep the results accumulated so far -/

theorem runCheckPodsGroups_returned (env : Env) (r : Rule242466) (ctx : Context) (c : Client)
    (pc : PodContext) (replicaSets : List ReplicaSet) (imageName : String)
    (expectedFilePermissionsMax : String) (target : Target)
    (groupedPods : GoMap String (List Pod)) :
    ∀ checkResults tr results tr1,
      runCheckPodsGroups env r ctx c pc replicaSets imageName expectedFilePermissionsMax
        target groupedPods checkResults tr = (Outcome.returned results, tr1) →
      ∃ later, results = checkResults ++ later := by
  induction groupedPods with
  | nil =>
    intro checkResults tr results tr1 h
    simp only [runCheckPodsGroups, Prog.pure_apply, Prod.mk.injEq, Outcome.returned.injEq] at h
    exact ⟨[], by simp [h.1]⟩
  | cons entry rest ih =>
    intro checkResults tr results tr1 h
    rcases entry with ⟨nodeName, pods⟩
    simp only [runCheckPodsGroups, Prog.bind_apply] at h
    rcases hc : r.checkPods env ctx c pc pods replicaSets nodeName imageName
      expectedFilePermissionsMax target tr with ⟨out, tr2⟩
    rw [hc] at h
    cases out with
    | returned res =>
      simp only at h
      obtain ⟨later, hl⟩ := ih _ _ _ _ h
      exact ⟨res ++ later, by rw [hl, List.append_assoc]⟩
    | panicked msg => simp at h

theorem runKubeProxy_returned (env : Env) (r : Rule242466) (ctx : Context)
    (image : ImageSource) (expectedFilePermissionsMax : String) (kubeProxySelector : Selector)
    (shootTarget : Target) (allShootPods : List Pod) (shootReplicaSets : List ReplicaSet)
    (shootNodesAllocatablePods : GoMap String Int) (checkResults : List CheckResult)
    (tr : Trace) (out : RuleResult × Option String) (tr1 : Trace)
    (h : runKubeProxy env r ctx image expectedFilePermissionsMax kubeProxySelector shootTarget
      allShootPods shootReplicaSets shootNodesAllocatablePods checkResults tr =
        (Outcome.returned out, tr1)) :
    out.2 = none ∧ ∃ later, out.1.CheckResults = checkResults ++ later := by
  unfold runKubeProxy at h
  split at h
  · simp only [Prog.pure_apply, Prod.mk.injEq, Outcome.returned.injEq] at h
    rw [← h.1]
    exact ⟨rfl, _, rfl⟩
  · simp only [] at h
    split at h
    · simp only [Prog.pure_apply, Prod.mk.injEq, Outcome.returned.injEq] at h
      rw [← h.1]
      exact ⟨rfl, _, rfl⟩
    · simp only [Prog.bind_apply, Prog.call_apply] at h
      split at h
      · rename_i results tr2 hg
        simp only [Prog.pure_apply, Prod.mk.injEq, Outcome.returned.injEq] at h
        obtain ⟨later, hl⟩ := runCheckPodsGroups_returned _ _ _ _ _ _ _ _ _ _ _ _ _ _ hg
        rw [← h.1]
        subst hl
        exact ⟨rfl, _, List.append_assoc _ _ _⟩
      · simp at h

/-! ## C10: no shoot node could be selected -/

/-- The shoot side of `Run` when the three listings succeed and `SelectNodes`
selects no node: the Errored result is added at the bare shoot target, no
kubelet is checked, and the kube-proxy check follows. -/
theorem runShoot_no_selected_node (env : Env) (r : Rule242466) (ctx : Context)
    (image : ImageSource) (expectedFilePermissionsMax : String) (kubeProxySelector : Selector)
    (nodeLabels : List String) (checkResults : List CheckResult) (tr : Trace)
    (allShootPods : List Pod) (shootReplicaSets : List ReplicaSet) (shootNodes : List Node)
    (checks : List CheckResult)
    (hpods : env.GetPods tr ctx r.ClusterClient "" NewSelector 300 = Except.ok allShootPods)
    (hrs : env.GetReplicaSets (tr ++ [Op.GetPods ctx r.ClusterClient "" NewSelector 300]) ctx
      r.ClusterClient "" NewSelector 300 = Except.ok shootReplicaSets)
    (hnodes : env.GetNodes
      (tr ++ [Op.GetPods ctx r.ClusterClient "" NewSelector 300,
        Op.GetReplicaSets ctx r.ClusterClient "" NewSelector 300])
      ctx r.ClusterClient 300 = Except.ok shootNodes)
    (hselect : env.SelectNodes shootNodes
      (env.GetNodesAllocatablePodsNum allShootPods shootNodes) nodeLabels = ([], checks)) :
    runShoot env r ctx image expectedFilePermissionsMax kubeProxySelector nodeLabels
        checkResults tr =
      runKubeProxy env r ctx image expectedFilePermissionsMax kubeProxySelector
        [("cluster", "shoot")] allShootPods shootReplicaSets
        (env.GetNodesAllocatablePodsNum allShootPods shootNodes)
        (checkResults ++ checks ++
          [⟨Status.Errored, "no allocatable nodes could be selected", [("cluster", "shoot")]⟩])
        (tr ++ [Op.GetPods ctx r.ClusterClient "" NewSelector 300,
          Op.GetReplicaSets ctx r.ClusterClient "" NewSelector 300,
          Op.GetNodes ctx r.ClusterClient 300,
          Op.SelectNodes shootNodes (env.GetNodesAllocatablePodsNum allShootPods shootNodes)
            nodeLabels]) := by
  simp [runShoot, Prog.bind_apply, Prog.call_apply, Prog.pure_apply, hpods, hrs, hnodes,
    hselect, runCheckKubelets, NewTarget, ErroredCheckResult]

/-- C10: whenever `Run` has reached its shoot side (lines 143-202, entered with
the results `checkResults` of the control-plane check), the shoot pods, replica
sets and nodes are listed and `SelectNodes` selects no node, `Run` continues
directly with the kube-proxy check: after the call of `SelectNodes` no
diagnostic pod is created for a kubelet, and the results handed on are those so
far, the diagnostics of `SelectNodes`, and one Errored result "no allocatable
nodes could be selected" at the bare shoot target cluster=shoot.  If `Run`
returns, its error is nil and its check results start with these. -/
theorem C10_no_allocatable_node_selected (env : Env) (r : Rule242466) (ctx : Context)
    (tr0 : Trace) (image : ImageSource) (checkResults : List CheckResult) (tr : Trace)
    (allShootPods : List Pod) (shootReplicaSets : List ReplicaSet) (shootNodes : List Node)
    (checks : List CheckResult)
    (hreach : r.Run env ctx tr0 =
      runShoot env r ctx image "644" (SelectorFromSet [("role", "proxy")])
        ["worker.gardener.cloud/pool"] checkResults tr)
    (hpods : env.GetPods tr ctx r.ClusterClient "" NewSelector 300 = Except.ok allShootPods)
    (hrs : env.GetReplicaSets (tr ++ [Op.GetPods ctx r.ClusterClient "" NewSelector 300]) ctx
      r.ClusterClient "" NewSelector 300 = Except.ok shootReplicaSets)
    (hnodes : env.GetNodes
      (tr ++ [Op.GetPods ctx r.ClusterClient "" NewSelector 300,
        Op.GetReplicaSets ctx r.ClusterClient "" NewSelector 300])
      ctx r.ClusterClient 300 = Except.ok shootNodes)
    (hselect : env.SelectNodes shootNodes
      (env.GetNodesAllocatablePodsNum allShootPods shootNodes)
      ["worker.gardener.cloud/pool"] = ([], checks)) :
    r.Run env ctx tr0 =
      runKubeProxy env r ctx image "644" (SelectorFromSet [("role", "proxy")])
        [("cluster", "shoot")] allShootPods shootReplicaSets
        (env.GetNodesAllocatablePodsNum allShootPods shootNodes)
        (checkResults ++ checks ++
          [⟨Status.Errored, "no allocatable nodes could be selected", [("cluster", "shoot")]⟩])
        (tr ++ [Op.GetPods ctx r.ClusterClient "" NewSelector 300,
          Op.GetReplicaSets ctx r.ClusterClient "" NewSelector 300,
          Op.GetNodes ctx r.ClusterClient 300,
          Op.SelectNodes shootNodes (env.GetNodesAllocatablePodsNum allShootPods shootNodes)
            ["worker.gardener.cloud/pool"]]) ∧
    ∀ out tr1, r.Run env ctx tr0 = (Outcome.returned out, tr1) →
      out.2 = none ∧
      ∃ later, out.1.CheckResults =
        checkResults ++ checks ++
          [⟨Status.Errored, "no allocatable nodes could be selected", [("cluster", "shoot")]⟩]
          ++ later := by
  have hrun := hreach.trans
    (runShoot_no_selected_node env r ctx image "644" (SelectorFromSet [("role", "proxy")])
      ["worker.gardener.cloud/pool"] checkResults tr allShootPods shootReplicaSets shootNodes
      checks hpods hrs hnodes hselect)
  refine ⟨hrun, ?_⟩
  intro out tr1 hout
  rw [hrun] at hout
  exact runKubeProxy_returned _ _ _ _ _ _ _ _ _ _ _ _ _ _ hout

/-- Witness of C10: in the cluster in which `SelectNodes` selects no node,
`Run` hands the three results to the kube-proxy check right after the call of
`SelectNodes`, and whatever it returns has a nil error and starts with them. -/
theorem C10_no_allocatable_node_selected_witness :
    scenarioRule.Run scenarioNoNodes scenarioCtx [] =
      runKubeProxy scenarioNoNodes scenarioRule scenarioCtx ⟨"diki-ops", some "v1"⟩ "644"
        (SelectorFromSet [("role", "proxy")]) [("cluster", "shoot")] [proxyPod] []
        [("shoot-node-a", 10)]
        [⟨Status.Errored, "pods is forbidden", [("cluster", "seed"), ("kind", "PodList")]⟩,
         ⟨Status.Errored, "no allocatable node in pool", [("pool", "worker-a")]⟩,
         ⟨Status.Errored, "no allocatable nodes could be selected", [("cluster", "shoot")]⟩]
        [Op.FindImage "diki-ops", Op.GetPods scenarioCtx ⟨"seed"⟩ "" NewSelector 300,
         Op.GetPods scenarioCtx ⟨"shoot"⟩ "" NewSelector 300,
         Op.GetReplicaSets scenarioCtx ⟨"shoot"⟩ "" NewSelector 300,
         Op.GetNodes scenarioCtx ⟨"shoot"⟩ 300,
         Op.SelectNodes [⟨"shoot-node-a", []⟩] [("shoot-node-a", 10)]
           ["worker.gardener.cloud/pool"]] ∧
    ∀ out tr1, scenarioRule.Run scenarioNoNodes scenarioCtx [] = (Outcome.returned out, tr1) →
      out.2 = none ∧
      ∃ later, out.1.CheckResults =
        [⟨Status.Errored, "pods is forbidden", [("cluster", "seed"), ("kind", "PodList")]⟩,
         ⟨Status.Errored, "no allocatable node in pool", [("pool", "worker-a")]⟩,
         ⟨Status.Errored, "no allocatable nodes could be selected", [("cluster", "shoot")]⟩]
          ++ later :=
  C10_no_allocatable_node_selected scenarioNoNodes scenarioRule scenarioCtx []
    ⟨"diki-ops", some "v1"⟩
    [⟨Status.Errored, "pods is forbidden", [("cluster", "seed"), ("kind", "PodList")]⟩]
    [Op.FindImage "diki-ops", Op.GetPods scenarioCtx ⟨"seed"⟩ "" NewSelector 300]
    [proxyPod] [] [⟨"shoot-node-a", []⟩]
    [⟨Status.Errored, "no allocatable node in pool", [("pool", "worker-a")]⟩]
    rfl rfl rfl rfl rfl

/-! ## Where diagnostic pods are created -/

theorem flatMap_eq_nil_of {β : Type} (f : Op → List β) (l : List Op)
    (h : ∀ op ∈ l, f op = []) : l.flatMap f = [] := by
  induction l with
  | nil => rfl
  | cons op rest ih =>
    rw [List.flatMap_cons, h op (List.mem_cons_self _ _),
      ih (fun o ho => h o (List.mem_cons_of_mem _ ho))]
    rfl

theorem createdNode_of_isProbe (op : Op) (h : op.isProbe = true) : op.createdNode = [] := by
  cases op <;> simp_all [Op.isProbe, Op.isInspection, Op.createdNode]

theorem sampledNodes_of_isProbe (env : Env) (op : Op) (h : op.isProbe = true) :
    op.sampledNodes env = [] := by
  cases op <;> simp_all [Op.isProbe, Op.isInspection, Op.sampledNodes]

theorem deleteLog_createdNode (err : Option String) :
    (deleteLog err).flatMap Op.createdNode = [] := by
  cases err <;> rfl

theorem deleteLog_sampledNodes (env : Env) (err : Option String) :
    (deleteLog err).flatMap (Op.sampledNodes env) = [] := by
  cases err <;> rfl

/-- `checkPods` creates one diagnostic pod, on the node it is given, whether it
returns or panics. -/
theorem checkPods_creates (env : Env) (r : Rule242466) (ctx : Context) (c : Client)
    (pc : PodContext) (pods : List Pod) (replicaSets : List ReplicaSet)
    (nodeName imageName : String) (expectedFilePermissionsMax : String) (target : Target) :
    Prog.Creates env [nodeName]
      (r.checkPods env ctx c pc pods replicaSets nodeName imageName
        expectedFilePermissionsMax target) := by
  intro tr
  rw [checkPods_apply, defer_deferredDelete_apply]
  obtain ⟨more, h, hp⟩ := checkPodsBody_trace env ctx c pc pods replicaSets nodeName
    imageName expectedFilePermissionsMax target (generatedPodName env r tr)
    (target.With [("name", generatedPodName env r tr), ("namespace", "kube-system"),
      ("kind", "Pod")]) [(env.LabelInstanceID, r.InstanceID)] (tr ++ [Op.Generate 10])
  rw [h]
  have hc : more.flatMap Op.createdNode = [] :=
    flatMap_eq_nil_of _ _ (fun op hop => createdNode_of_isProbe op (hp op hop))
  have hs : more.flatMap (Op.sampledNodes env) = [] :=
    flatMap_eq_nil_of _ _ (fun op hop => sampledNodes_of_isProbe env op (hp op hop))
  refine ⟨_, by simp only [List.append_assoc]; rfl, ?_, ?_, ?_⟩
  · simp [List.flatMap_append, List.flatMap_cons, Op.sampledNodes, hs, deleteLog_sampledNodes]
  · simp [List.flatMap_append, List.flatMap_cons, Op.createdNode, hc, deleteLog_createdNode,
      NewPrivilegedPod]
  · intro a _
    simp [List.flatMap_append, List.flatMap_cons, Op.createdNode, hc, deleteLog_createdNode,
      NewPrivilegedPod]

/-- `checkKubelet` creates one diagnostic pod, on the node it is given, whether
it returns or panics. -/
theorem checkKubelet_creates (env : Env) (r : Rule242466) (ctx : Context)
    (nodeName imageName : String) (expectedFilePermissionsMax : String) (target : Target) :
    Prog.Creates env [nodeName]
      (r.checkKubelet env ctx nodeName imageName expectedFilePermissionsMax target) := by
  intro tr
  rw [checkKubelet_apply, defer_deferredDelete_apply]
  obtain ⟨more, h, hp⟩ := checkKubeletBody_trace env r ctx nodeName imageName
    expectedFilePermissionsMax (generatedPodName env r tr)
    (target.With [("name", nodeName), ("kind", "Node")])
    (target.With [("name", generatedPodName env r tr), ("namespace", "kube-system"),
      ("kind", "Pod")]) [(env.LabelInstanceID, r.InstanceID)] (tr ++ [Op.Generate 10])
  rw [h]
  have hc : more.flatMap Op.createdNode = [] :=
    flatMap_eq_nil_of _ _
      (fun op hop => createdNode_of_isProbe op (isProbe_of_isInspection op (hp op hop)))
  have hs : more.flatMap (Op.sampledNodes env) = [] :=
    flatMap_eq_nil_of _ _
      (fun op hop => sampledNodes_of_isProbe env op (isProbe_of_isInspection op (hp op hop)))
  refine ⟨_, by simp only [List.append_assoc]; rfl, ?_, ?_, ?_⟩
  · simp [List.flatMap_append, List.flatMap_cons, Op.sampledNodes, hs, deleteLog_sampledNodes]
  · simp [List.flatMap_append, List.flatMap_cons, Op.createdNode, hc, deleteLog_createdNode,
      NewPrivilegedPod]
  · intro a _
    simp [List.flatMap_append, List.flatMap_cons, Op.createdNode, hc, deleteLog_createdNode,
      NewPrivilegedPod]

theorem creates_pure {α : Type} (env : Env) (a : α) :
    Prog.Creates env [] (Pure.pure a : Prog α) :=
  fun tr => ⟨[], by simp [Prog.pure_apply]⟩

theorem creates_bind {α β : Type} (env : Env) (n1 n2 : List String) (m : Prog α)
    (f : α → Prog β) (hm : Prog.Creates env n1 m) (hf : ∀ a, Prog.Creates env n2 (f a)) :
    Prog.Creates env (n1 ++ n2) (m >>= f) := by
  intro tr
  obtain ⟨more1, h1, hs1, hc1, he1⟩ := hm tr
  rw [Prog.bind_apply]
  rcases hmt : m tr with ⟨out, tr1⟩
  rw [hmt] at h1 he1
  simp only at h1 he1
  subst h1
  cases out with
  | returned a =>
    obtain ⟨more2, h2, hs2, hc2, he2⟩ := hf a (tr ++ more1)
    have e1 := he1 a rfl
    refine ⟨more1 ++ more2, by simp [h2], ?_, ?_, ?_⟩
    · simp [List.flatMap_append, hs1, hs2]
    · rw [List.flatMap_append, e1]
      exact (List.prefix_append_right_inj n1).2 hc2
    · intro b hb
      rw [List.flatMap_append, e1, he2 b hb]
  | panicked msg =>
    refine ⟨more1, rfl, hs1, hc1.trans (List.prefix_append _ _), ?_⟩
    intro b hb
    simp at hb

/-- A call that is neither `Create` nor a sampler call, in front of a program
that creates on `nodes`. -/
theorem creates_after_call {α β : Type} (env : Env) (nodes : List String) (op : Op)
    (answer : Trace → α) (f : α → Prog β) (hc : op.createdNode = [])
    (hs : op.sampledNodes env = []) (hf : ∀ a, Prog.Creates env nodes (f a)) :
    Prog.Creates env nodes (Prog.call op answer >>= f) := by
  have h := creates_bind env [] nodes (Prog.call op answer) f
    (fun tr => ⟨[op], by simp [Prog.call_apply, hc, hs]⟩) hf
  simpa using h

theorem runCheckPodsGroups_creates (env : Env) (r : Rule242466) (ctx : Context) (c : Client)
    (pc : PodContext) (replicaSets : List ReplicaSet) (imageName : String)
    (expectedFilePermissionsMax : String) (target : Target)
    (groupedPods : GoMap String (List Pod)) :
    ∀ checkResults, Prog.Creates env (groupedPods.map fun entry => entry.1)
      (runCheckPodsGroups env r ctx c pc replicaSets imageName expectedFilePermissionsMax
        target groupedPods checkResults) := by
  induction groupedPods with
  | nil => intro checkResults; exact creates_pure env _
  | cons entry rest ih =>
    intro checkResults
    rcases entry with ⟨nodeName, pods⟩
    unfold runCheckPodsGroups
    exact creates_bind env [nodeName] _ _ _ (checkPods_creates _ _ _ _ _ _ _ _ _ _ _)
      (fun results => ih _)

theorem runCheckKubelets_creates (env : Env) (r : Rule242466) (ctx : Context)
    (imageName : String) (expectedFilePermissionsMax : String) (shootTarget : Target)
    (nodes : List Node) :
    ∀ checkResults, Prog.Creates env (nodes.map fun node => node.Name)
      (runCheckKubelets env r ctx imageName expectedFilePermissionsMax shootTarget nodes
        checkResults) := by
  induction nodes with
  | nil => intro checkResults; exact creates_pure env _
  | cons node rest ih =>
    intro checkResults
    unfold runCheckKubelets
    exact creates_bind env [node.Name] _ _ _ (checkKubelet_creates _ _ _ _ _ _ _)
      (fun results => ih _)

theorem runSeedDeployments_creates (env : Env) (r : Rule242466) (ctx : Context)
    (seedTarget : Target) (deploymentNames : List String) :
    ∀ st, Prog.Creates env [] (runSeedDeployments env r ctx seedTarget deploymentNames st) := by
  induction deploymentNames with
  | nil => intro st; exact creates_pure env _
  | cons deploymentName rest ih =>
    intro st
    unfold runSeedDeployments
    refine creates_after_call env [] _ _ _ ?_ ?_ ?_
    · rfl
    · rfl
    intro a
    cases a with
    | error err => exact ih _
    | ok pods =>
      simp only []
      split
      · exact ih _
      · exact ih _

theorem owes_pure {α : Type} (env : Env) (a : α) :
    Prog.Owes env [] (Pure.pure a : Prog α) :=
  fun tr => ⟨[], by simp [Prog.pure_apply]⟩

/-- A program that creates on `nodes`, followed by one that creates where its
own sampler calls say. -/
theorem owes_of_creates_bind {α β : Type} (env : Env) (nodes : List String)
    (m : Prog α) (f : α → Prog β) (hm : Prog.Creates env nodes m)
    (hf : ∀ a, Prog.Owes env [] (f a)) : Prog.Owes env nodes (m >>= f) := by
  intro tr
  obtain ⟨more1, h1, hs1, hc1, he1⟩ := hm tr
  rw [Prog.bind_apply]
  rcases hmt : m tr with ⟨out, tr1⟩
  rw [hmt] at h1 he1
  simp only at h1 he1
  subst h1
  cases out with
  | returned a =>
    obtain ⟨more2, h2, hc2, he2⟩ := hf a (tr ++ more1)
    have e1 := he1 a rfl
    simp only [List.nil_append] at hc2 he2
    refine ⟨more1 ++ more2, by simp [h2], ?_, ?_⟩
    · rw [List.flatMap_append, List.flatMap_append, e1, hs1, List.nil_append]
      exact (List.prefix_append_right_inj nodes).2 hc2
    · intro b hb
      rw [List.flatMap_append, List.flatMap_append, e1, hs1, List.nil_append, he2 b hb]
  | panicked msg =>
    refine ⟨more1, rfl, ?_, ?_⟩
    · rw [hs1, List.append_nil]; exact hc1
    · intro b hb
      simp at hb

/-- A call that is neither `Create` nor a sampler call, in front of a program
that owes `owed`. -/
theorem owes_after_call {α β : Type} (env : Env) (owed : List String) (op : Op)
    (answer : Trace → α) (f : α → Prog β) (hc : op.createdNode = [])
    (hs : op.sampledNodes env = []) (hf : ∀ a, Prog.Owes env owed (f a)) :
    Prog.Owes env owed (Prog.call op answer >>= f) := by
  intro tr
  obtain ⟨more, h, hp, he⟩ := hf (answer tr) (tr ++ [op])
  refine ⟨op :: more, ?_, ?_, ?_⟩
  · simp only [Prog.bind_apply, Prog.call_apply]
    rw [h]
    simp
  · simpa [List.flatMap_cons, hc, hs] using hp
  · intro b hb
    simp only [Prog.bind_apply, Prog.call_apply] at hb
    simpa [List.flatMap_cons, hc, hs] using he b hb

/-- A sampler call, in front of a program that creates on the nodes the call
returned and then where its own sampler calls say. -/
theorem owes_after_sampler {α β : Type} (env : Env) (op : Op) (answer : α)
    (f : α → Prog β) (hc : op.createdNode = [])
    (hf : Prog.Owes env (op.sampledNodes env) (f answer)) :
    Prog.Owes env [] (Prog.call op (fun _ => answer) >>= f) := by
  intro tr
  obtain ⟨more, h, hp, he⟩ := hf (tr ++ [op])
  refine ⟨op :: more, ?_, ?_, ?_⟩
  · simp only [Prog.bind_apply, Prog.call_apply]
    rw [h]
    simp
  · simpa [List.flatMap_cons, hc] using hp
  · intro b hb
    simp only [Prog.bind_apply, Prog.call_apply] at hb
    simpa [List.flatMap_cons, hc] using he b hb

theorem runKubeProxy_owes (env : Env) (r : Rule242466) (ctx : Context)
    (image : ImageSource) (expectedFilePermissionsMax : String) (kubeProxySelector : Selector)
    (shootTarget : Target) (allShootPods : List Pod) (shootReplicaSets : List ReplicaSet)
    (shootNodesAllocatablePods : GoMap String Int) (checkResults : List CheckResult) :
    Prog.Owes env []
      (runKubeProxy env r ctx image expectedFilePermissionsMax kubeProxySelector shootTarget
        allShootPods shootReplicaSets shootNodesAllocatablePods checkResults) := by
  unfold runKubeProxy
  split
  · exact owes_pure env _
  · simp only []
    split
    · exact owes_pure env _
    · refine owes_after_sampler env _ _ _ rfl ?_
      simp only [Op.sampledNodes]
      rcases env.SelectPodOfReferenceGroup
        (List.filter (fun p => kubeProxySelector.Matches p.Labels) allShootPods)
        shootReplicaSets shootNodesAllocatablePods shootTarget with ⟨groupedShootPods, checks⟩
      simp only []
      exact owes_of_creates_bind env _ _ _ (runCheckPodsGroups_creates _ _ _ _ _ _ _ _ _ _ _)
        (fun a => owes_pure env _)

theorem runShoot_owes (env : Env) (r : Rule242466) (ctx : Context) (image : ImageSource)
    (expectedFilePermissionsMax : String) (kubeProxySelector : Selector)
    (nodeLabels : List String) (checkResults : List CheckResult) :
    Prog.Owes env []
      (runShoot env r ctx image expectedFilePermissionsMax kubeProxySelector nodeLabels
        checkResults) := by
  unfold runShoot
  refine owes_after_call env [] _ _ _ rfl rfl ?_
  intro a
  cases a with
  | error err => exact owes_pure env _
  | ok allShootPods =>
    simp only []
    refine owes_after_call env [] _ _ _ rfl rfl ?_
    intro a
    cases a with
    | error err => exact owes_pure env _
    | ok shootReplicaSets =>
      simp only []
      refine owes_after_call env [] _ _ _ rfl rfl ?_
      intro a
      cases a with
      | error err => exact owes_pure env _
      | ok shootNodes =>
        simp only []
        refine owes_after_sampler env _ _ _ rfl ?_
        simp only [Op.sampledNodes]
        rcases env.SelectNodes shootNodes
          (env.GetNodesAllocatablePodsNum allShootPods shootNodes) nodeLabels with
          ⟨selectedShootNodes, checks⟩
        simp only []
        exact owes_of_creates_bind env _ _ _ (runCheckKubelets_creates _ _ _ _ _ _ _ _)
          (fun a => runKubeProxy_owes _ _ _ _ _ _ _ _ _ _ _)

/-- `Run` creates diagnostic pods exactly where its sampler calls say. -/
theorem Run_owes (env : Env) (r : Rule242466) (ctx : Context) :
    Prog.Owes env [] (r.Run env ctx) := by
  unfold Rule242466.Run
  simp only []
  refine owes_after_call env [] _ _ _ rfl rfl ?_
  intro a
  cases a with
  | error err => exact owes_pure env _
  | ok image0 =>
    simp only []
    refine owes_after_call env [] _ _ _ rfl rfl ?_
    intro a
    cases a with
    | error err => exact runShoot_owes _ _ _ _ _ _ _ _
    | ok allSeedPods =>
      simp only []
      refine owes_after_call env [] _ _ _ rfl rfl ?_
      intro a
      cases a with
      | error err => exact owes_pure env _
      | ok seedReplicaSets =>
        simp only []
        refine owes_of_creates_bind env [] _ _
          (runSeedDeployments_creates _ _ _ _ _ _) ?_
        intro st
        rcases st with ⟨checkPods, checkResults⟩
        simp only []
        split
        · refine owes_after_call env [] _ _ _ rfl rfl ?_
          intro a
          cases a with
          | error err => exact runShoot_owes _ _ _ _ _ _ _ _
          | ok nodes =>
            simp only []
            refine owes_after_sampler env _ _ _ rfl ?_
            simp only [Op.sampledNodes]
            rcases env.SelectPodOfReferenceGroup checkPods seedReplicaSets
              (env.GetNodesAllocatablePodsNum allSeedPods nodes)
              (NewTarget [("cluster", "seed")]) with ⟨groupedPods, checks⟩
            simp only []
            exact owes_of_creates_bind env _ _ _
              (runCheckPodsGroups_creates _ _ _ _ _ _ _ _ _ _ _)
              (fun a => runShoot_owes _ _ _ _ _ _ _ _)
        · exact runShoot_owes _ _ _ _ _ _ _ _

/-! ## C5: diagnostic pods only on sampled nodes -/

/-- C5: in every run of `Run`, the nodes of the `Create` calls, in the order
of the calls, are the first of the nodes the sampler calls of that run
returned (the keys of each map of `SelectPodOfReferenceGroup` as ranged over,
the names of the nodes of `SelectNodes`), in the order of the sampler calls:
no `Create` is issued for any other node.  When `Run` returns, the two lists
are equal: exactly one `Create` per returned key and per returned node. -/
theorem C5_create_only_on_sampled_nodes (env : Env) (r : Rule242466) (ctx : Context)
    (tr : Trace) :
    ∃ more, (r.Run env ctx tr).2 = tr ++ more ∧
      more.flatMap Op.createdNode <+: more.flatMap (Op.sampledNodes env) ∧
      ∀ out, (r.Run env ctx tr).1 = Outcome.returned out →
        more.flatMap Op.createdNode = more.flatMap (Op.sampledNodes env) := by
  obtain ⟨more, h, hp, he⟩ := Run_owes env r ctx tr
  exact ⟨more, h, by simpa using hp, fun out hout => by simpa using he out hout⟩

/-- Witness of C5: in the cluster of `scenario` the run returns; the sampler
returned the seed node for the etcd pod, the shoot node for the kubelet and the
shoot node for kube-proxy, and these are the nodes of the three `Create`
calls. -/
theorem C5_create_only_on_sampled_nodes_witness :
    (scenarioRule.Run scenario scenarioCtx []).2.flatMap Op.createdNode =
        ["seed-node-a", "shoot-node-a", "shoot-node-a"] ∧
    (scenarioRule.Run scenario scenarioCtx []).2.flatMap (Op.sampledNodes scenario) =
        ["seed-node-a", "shoot-node-a", "shoot-node-a"] := by
  obtain ⟨more, h, _, he⟩ :=
    C5_create_only_on_sampled_nodes scenario scenarioRule scenarioCtx []
  rw [List.nil_append] at h
  have hc : (scenarioRule.Run scenario scenarioCtx []).2.flatMap Op.createdNode =
      ["seed-node-a", "shoot-node-a", "shoot-node-a"] := by decide
  refine ⟨hc, ?_⟩
  have hret : ∃ out, (scenarioRule.Run scenario scenarioCtx []).1 = Outcome.returned out :=
    ⟨_, rfl⟩
  obtain ⟨out, hout⟩ := hret
  rw [h, ← he out hout, ← h]
  exact hc

/-! ## The shape of one `checkPods` and of one `checkKubelet` -/

/-- The calls of `checkPods`: the name generation, `Create`, then re-fetch and
inspections, then `Delete` under the fresh 30 second context and what its
error hands to the logger. -/
theorem checkPods_shape (env : Env) (r : Rule242466) (ctx : Context) (c : Client)
    (pc : PodContext) (pods : List Pod) (replicaSets : List ReplicaSet)
    (nodeName imageName : String) (expectedFilePermissionsMax : String) (target : Target)
    (tr : Trace) :
    ∃ mid err,
      (r.checkPods env ctx c pc pods replicaSets nodeName imageName
        expectedFilePermissionsMax target tr).2 =
      tr ++ Op.Generate 10 ::
        Op.Create ctx pc (NewPrivilegedPod (generatedPodName env r tr) "kube-system" imageName
          nodeName [(env.LabelInstanceID, r.InstanceID)]) ::
        (mid ++ Op.Delete (Context.WithTimeout Context.Background 30) pc
          (generatedPodName env r tr) "kube-system" :: deleteLog err) ∧
      ∀ op ∈ mid, op.isProbe = true := by
  rw [checkPods_apply, defer_deferredDelete_apply]
  obtain ⟨more, h, hp⟩ := checkPodsBody_trace env ctx c pc pods replicaSets nodeName
    imageName expectedFilePermissionsMax target (generatedPodName env r tr)
    (target.With [("name", generatedPodName env r tr), ("namespace", "kube-system"),
      ("kind", "Pod")]) [(env.LabelInstanceID, r.InstanceID)] (tr ++ [Op.Generate 10])
  rw [h]
  refine ⟨more,
    (match r.Logger with
      | none => none
      | some _ => env.Delete
        (tr ++ [Op.Generate 10] ++ Op.Create ctx pc
          (NewPrivilegedPod (generatedPodName env r tr)
            "kube-system" imageName nodeName [(env.LabelInstanceID, r.InstanceID)]) :: more)
        (Context.WithTimeout Context.Background 30) pc (generatedPodName env r tr)
        "kube-system"),
    ?_, hp⟩
  simp

/-- The calls of `checkKubelet`: the name generation, `Create`, then
inspections, then `Delete` under the fresh 30 second context and what its
error hands to the logger. -/
theorem checkKubelet_shape (env : Env) (r : Rule242466) (ctx : Context)
    (nodeName imageName : String) (expectedFilePermissionsMax : String) (target : Target)
    (tr : Trace) :
    ∃ mid err,
      (r.checkKubelet env ctx nodeName imageName expectedFilePermissionsMax target tr).2 =
      tr ++ Op.Generate 10 ::
        Op.Create ctx r.ClusterPodContext (NewPrivilegedPod (generatedPodName env r tr)
          "kube-system" imageName nodeName [(env.LabelInstanceID, r.InstanceID)]) ::
        (mid ++ Op.Delete (Context.WithTimeout Context.Background 30) r.ClusterPodContext
          (generatedPodName env r tr) "kube-system" :: deleteLog err) ∧
      ∀ op ∈ mid, op.isProbe = true := by
  rw [checkKubelet_apply, defer_deferredDelete_apply]
  obtain ⟨more, h, hp⟩ := checkKubeletBody_trace env r ctx nodeName imageName
    expectedFilePermissionsMax (generatedPodName env r tr)
    (target.With [("name", nodeName), ("kind", "Node")])
    (target.With [("name", generatedPodName env r tr), ("namespace", "kube-system"),
      ("kind", "Pod")]) [(env.LabelInstanceID, r.InstanceID)] (tr ++ [Op.Generate 10])
  rw [h]
  refine ⟨more,
    (match r.Logger with
      | none => none
      | some _ => env.Delete
        (tr ++ [Op.Generate 10] ++ Op.Create ctx r.ClusterPodContext
          (NewPrivilegedPod (generatedPodName env r tr) "kube-system" imageName nodeName
            [(env.LabelInstanceID, r.InstanceID)]) :: more)
        (Context.WithTimeout Context.Background 30) r.ClusterPodContext
        (generatedPodName env r tr) "kube-system"),
    ?_, fun op hop => isProbe_of_isInspection op (hp op hop)⟩
  simp

/-! ## Properties of the calls of a whole run -/

theorem emits_pure {α : Type} (P : List Op → Prop) (h0 : P []) (a : α) :
    Prog.Emits P (Pure.pure a : Prog α) :=
  fun tr => ⟨[], by simp [Prog.pure_apply], h0⟩

theorem emits_bind {α β : Type} (P : List Op → Prop)
    (happ : ∀ l1 l2, P l1 → P l2 → P (l1 ++ l2)) (m : Prog α) (f : α → Prog β)
    (hm : Prog.Emits P m) (hf : ∀ a, Prog.Emits P (f a)) : Prog.Emits P (m >>= f) := by
  intro tr
  obtain ⟨more1, h1, hp1⟩ := hm tr
  rw [Prog.bind_apply]
  rcases hmt : m tr with ⟨out, tr1⟩
  rw [hmt] at h1
  simp only at h1
  subst h1
  cases out with
  | returned a =>
    obtain ⟨more2, h2, hp2⟩ := hf a (tr ++ more1)
    exact ⟨more1 ++ more2, by simp [h2], happ _ _ hp1 hp2⟩
  | panicked msg => exact ⟨more1, rfl, hp1⟩

theorem emits_call {α : Type} (P : List Op → Prop) (op : Op) (answer : Trace → α)
    (h : P [op]) : Prog.Emits P (Prog.call op answer) :=
  fun tr => ⟨[op], by simp [Prog.call_apply], h⟩

theorem emits_after_call {α β : Type} (P : List Op → Prop)
    (happ : ∀ l1 l2, P l1 → P l2 → P (l1 ++ l2)) (op : Op) (answer : Trace → α)
    (f : α → Prog β) (h : P [op]) (hf : ∀ a, Prog.Emits P (f a)) :
    Prog.Emits P (Prog.call op answer >>= f) :=
  emits_bind P happ _ _ (emits_call P op answer h) hf

theorem runCheckPodsGroups_emits (P : List Op → Prop) (h0 : P [])
    (happ : ∀ l1 l2, P l1 → P l2 → P (l1 ++ l2)) (env : Env) (r : Rule242466)
    (hpods : ∀ ctx c pc pods replicaSets nodeName imageName expectedFilePermissionsMax target,
      Prog.Emits P (r.checkPods env ctx c pc pods replicaSets nodeName imageName
        expectedFilePermissionsMax target))
    (ctx : Context) (c : Client) (pc : PodContext) (replicaSets : List ReplicaSet)
    (imageName : String) (expectedFilePermissionsMax : String) (target : Target)
    (groupedPods : GoMap String (List Pod)) :
    ∀ checkResults, Prog.Emits P
      (runCheckPodsGroups env r ctx c pc replicaSets imageName expectedFilePermissionsMax
        target groupedPods checkResults) := by
  induction groupedPods with
  | nil => intro checkResults; exact emits_pure P h0 _
  | cons entry rest ih =>
    intro checkResults
    rcases entry with ⟨nodeName, pods⟩
    unfold runCheckPodsGroups
    exact emits_bind P happ _ _ (hpods _ _ _ _ _ _ _ _ _) (fun results => ih _)

theorem runCheckKubelets_emits (P : List Op → Prop) (h0 : P [])
    (happ : ∀ l1 l2, P l1 → P l2 → P (l1 ++ l2)) (env : Env) (r : Rule242466)
    (hkubelet : ∀ ctx nodeName imageName expectedFilePermissionsMax target,
      Prog.Emits P (r.checkKubelet env ctx nodeName imageName expectedFilePermissionsMax
        target))
    (ctx : Context) (imageName : String) (expectedFilePermissionsMax : String)
    (shootTarget : Target) (nodes : List Node) :
    ∀ checkResults, Prog.Emits P
      (runCheckKubelets env r ctx imageName expectedFilePermissionsMax shootTarget nodes
        checkResults) := by
  induction nodes with
  | nil => intro checkResults; exact emits_pure P h0 _
  | cons node rest ih =>
    intro checkResults
    unfold runCheckKubelets
    exact emits_bind P happ _ _ (hkubelet _ _ _ _ _) (fun results => ih _)

theorem runSeedDeployments_emits (P : List Op → Prop) (h0 : P [])
    (happ : ∀ l1 l2, P l1 → P l2 → P (l1 ++ l2))
    (hcall : ∀ op, op.isRunCall = true → P [op]) (env : Env) (r : Rule242466)
    (ctx : Context) (seedTarget : Target) (deploymentNames : List String) :
    ∀ st, Prog.Emits P (runSeedDeployments env r ctx seedTarget deploymentNames st) := by
  induction deploymentNames with
  | nil => intro st; exact emits_pure P h0 _
  | cons deploymentName rest ih =>
    intro st
    unfold runSeedDeployments
    refine emits_after_call P happ _ _ _ (hcall _ rfl) ?_
    intro a
    cases a with
    | error err => exact ih _
    | ok pods =>
      simp only []
      split
      · exact ih _
      · exact ih _

theorem runKubeProxy_emits (P : List Op → Prop) (h0 : P [])
    (happ : ∀ l1 l2, P l1 → P l2 → P (l1 ++ l2))
    (hcall : ∀ op, op.isRunCall = true → P [op]) (env : Env) (r : Rule242466)
    (hpods : ∀ ctx c pc pods replicaSets nodeName imageName expectedFilePermissionsMax target,
      Prog.Emits P (r.checkPods env ctx c pc pods replicaSets nodeName imageName
        expectedFilePermissionsMax target))
    (ctx : Context) (image : ImageSource) (expectedFilePermissionsMax : String)
    (kubeProxySelector : Selector) (shootTarget : Target) (allShootPods : List Pod)
    (shootReplicaSets : List ReplicaSet) (shootNodesAllocatablePods : GoMap String Int)
    (checkResults : List CheckResult) :
    Prog.Emits P
      (runKubeProxy env r ctx image expectedFilePermissionsMax kubeProxySelector shootTarget
        allShootPods shootReplicaSets shootNodesAllocatablePods checkResults) := by
  unfold runKubeProxy
  split
  · exact emits_pure P h0 _
  · simp only []
    split
    · exact emits_pure P h0 _
    · refine emits_after_call P happ _ _ _ (hcall _ rfl) ?_
      intro a
      rcases a with ⟨groupedShootPods, checks⟩
      simp only []
      exact emits_bind P happ _ _
        (runCheckPodsGroups_emits P h0 happ env r hpods _ _ _ _ _ _ _ _ _)
        (fun a => emits_pure P h0 _)

theorem runShoot_emits (P : List Op → Prop) (h0 : P [])
    (happ : ∀ l1 l2, P l1 → P l2 → P (l1 ++ l2))
    (hcall : ∀ op, op.isRunCall = true → P [op]) (env : Env) (r : Rule242466)
    (hpods : ∀ ctx c pc pods replicaSets nodeName imageName expectedFilePermissionsMax target,
      Prog.Emits P (r.checkPods env ctx c pc pods replicaSets nodeName imageName
        expectedFilePermissionsMax target))
    (hkubelet : ∀ ctx nodeName imageName expectedFilePermissionsMax target,
      Prog.Emits P (r.checkKubelet env ctx nodeName imageName expectedFilePermissionsMax
        target))
    (ctx : Context) (image : ImageSource) (expectedFilePermissionsMax : String)
    (kubeProxySelector : Selector) (nodeLabels : List String)
    (checkResults : List CheckResult) :
    Prog.Emits P
      (runShoot env r ctx image expectedFilePermissionsMax kubeProxySelector nodeLabels
        checkResults) := by
  unfold runShoot
  refine emits_after_call P happ _ _ _ (hcall _ rfl) ?_
  intro a
  cases a with
  | error err => exact emits_pure P h0 _
  | ok allShootPods =>
    simp only []
    refine emits_after_call P happ _ _ _ (hcall _ rfl) ?_
    intro a
    cases a with
    | error err => exact emits_pure P h0 _
    | ok shootReplicaSets =>
      simp only []
      refine emits_after_call P happ _ _ _ (hcall _ rfl) ?_
      intro a
      cases a with
      | error err => exact emits_pure P h0 _
      | ok shootNodes =>
        simp only []
        refine emits_after_call P happ _ _ _ (hcall _ rfl) ?_
        intro a
        rcases a with ⟨selectedShootNodes, checks⟩
        simp only []
        exact emits_bind P happ _ _
          (runCheckKubelets_emits P h0 happ env r hkubelet _ _ _ _ _ _)
          (fun a => runKubeProxy_emits P h0 happ hcall env r hpods _ _ _ _ _ _ _ _ _)

/-- A property of sequences of calls that holds of the empty sequence, of every
call `Run` makes itself and of the calls of every `checkPods` and
`checkKubelet`, and that is kept by concatenation, holds of the calls of every
run of `Run`, however the run ends. -/
theorem Run_emits (P : List Op → Prop) (h0 : P [])
    (happ : ∀ l1 l2, P l1 → P l2 → P (l1 ++ l2))
    (hcall : ∀ op, op.isRunCall = true → P [op]) (env : Env) (r : Rule242466)
    (hpods : ∀ ctx c pc pods replicaSets nodeName imageName expectedFilePermissionsMax target,
      Prog.Emits P (r.checkPods env ctx c pc pods replicaSets nodeName imageName
        expectedFilePermissionsMax target))
    (hkubelet : ∀ ctx nodeName imageName expectedFilePermissionsMax target,
      Prog.Emits P (r.checkKubelet env ctx nodeName imageName expectedFilePermissionsMax
        target))
    (ctx : Context) : Prog.Emits P (r.Run env ctx) := by
  unfold Rule242466.Run
  simp only []
  refine emits_after_call P happ _ _ _ (hcall _ rfl) ?_
  intro a
  cases a with
  | error err => exact emits_pure P h0 _
  | ok image0 =>
    simp only []
    refine emits_after_call P happ _ _ _ (hcall _ rfl) ?_
    intro a
    cases a with
    | error err => exact runShoot_emits P h0 happ hcall env r hpods hkubelet _ _ _ _ _ _
    | ok allSeedPods =>
      simp only []
      refine emits_after_call P happ _ _ _ (hcall _ rfl) ?_
      intro a
      cases a with
      | error err => exact emits_pure P h0 _
      | ok seedReplicaSets =>
        simp only []
        refine emits_bind P happ _ _
          (runSeedDeployments_emits P h0 happ hcall env r _ _ _ _) ?_
        intro st
        rcases st with ⟨checkPods, checkResults⟩
        simp only []
        split
        · refine emits_after_call P happ _ _ _ (hcall _ rfl) ?_
          intro a
          cases a with
          | error err => exact runShoot_emits P h0 happ hcall env r hpods hkubelet _ _ _ _ _ _
          | ok nodes =>
            simp only []
            refine emits_after_call P happ _ _ _ (hcall _ rfl) ?_
            intro a
            rcases a with ⟨groupedPods, checks⟩
            simp only []
            exact emits_bind P happ _ _
              (runCheckPodsGroups_emits P h0 happ env r hpods _ _ _ _ _ _ _ _ _)
              (fun a => runShoot_emits P h0 happ hcall env r hpods hkubelet _ _ _ _ _ _)
        · exact runShoot_emits P h0 happ hcall env r hpods hkubelet _ _ _ _ _ _

/-! ## C14: diagnostic pods are never alive together -/

theorem pairedOps_append (l1 l2 : List Op) (h1 : pairedOps l1 = true)
    (h2 : pairedOps l2 = true) : pairedOps (l1 ++ l2) = true := by
  induction l1 using pairedOps.induct with
  | case1 => simpa using h2
  | case2 ctx pc pod ctx1 pc1 name ns rest ih =>
    simp only [pairedOps, Bool.and_eq_true] at h1
    simp only [List.cons_append, pairedOps, Bool.and_eq_true]
    exact ⟨h1.1, ih h1.2⟩
  | case3 l hnil hpair =>
    unfold pairedOps at h1
    split at h1
    · exact absurd rfl hnil
    · exact absurd rfl (hpair _ _ _ _ _ _ _ _)
    · simp at h1

theorem liveStep_of_not_podContextOp (live : List (PodContext × String × String)) (op : Op)
    (h : op.isPodContextOp = false) : liveStep live op = live := by
  cases op <;> simp_all [liveStep, Op.isPodContextOp]

theorem foldl_liveStep_filter (ops : List Op) :
    ∀ live, ops.foldl liveStep live = (ops.filter Op.isPodContextOp).foldl liveStep live := by
  induction ops with
  | nil => intro live; rfl
  | cons op rest ih =>
    intro live
    cases hop : op.isPodContextOp with
    | true => simp [List.filter_cons, hop, ih]
    | false => simp [List.filter_cons, hop, ih, liveStep_of_not_podContextOp live op hop]

/-- In a paired sequence at most one diagnostic pod is alive after any number
of its calls. -/
theorem livePods_of_pairedOps (l : List Op) (h : pairedOps l = true) :
    ∀ p, p <+: l → (livePods p).length ≤ 1 := by
  induction l using pairedOps.induct with
  | case1 =>
    intro p hp
    rw [List.prefix_nil] at hp
    subst hp
    simp [livePods]
  | case2 ctx pc pod ctx1 pc1 name ns rest ih =>
    simp only [pairedOps, Bool.and_eq_true, beq_iff_eq] at h
    obtain ⟨⟨⟨hpc, hname⟩, hns⟩, hrest⟩ := h
    intro p hp
    match p, hp with
    | [], _ => simp [livePods]
    | [op], hp1 =>
      have := (List.cons_prefix_cons.1 hp1).1
      subst this
      simp [livePods, liveStep]
    | op1 :: op2 :: p1, hp1 =>
      obtain ⟨e1, hp2⟩ := List.cons_prefix_cons.1 hp1
      obtain ⟨e2, hp3⟩ := List.cons_prefix_cons.1 hp2
      subst e1 e2
      have := ih hrest p1 hp3
      simpa [livePods, liveStep, hpc, hname, hns] using this
  | case3 l hnil hpair =>
    unfold pairedOps at h
    split at h
    · exact absurd rfl hnil
    · exact absurd rfl (hpair _ _ _ _ _ _ _ _)
    · simp at h

/-- The calls of every run of `Run` are paired. -/
theorem Run_paired (env : Env) (r : Rule242466) (ctx : Context) :
    Prog.Emits (fun l => pairedOps (l.filter Op.isPodContextOp) = true) (r.Run env ctx) := by
  apply Run_emits
  · rfl
  · intro l1 l2 h1 h2
    rw [List.filter_append]
    exact pairedOps_append _ _ h1 h2
  · intro op hop
    cases op <;> simp_all [Op.isRunCall, Op.isPodContextOp, pairedOps]
  · intro ctx c pc pods replicaSets nodeName imageName expectedFilePermissionsMax target tr
    obtain ⟨mid, err, h, hp⟩ := checkPods_shape env r ctx c pc pods replicaSets nodeName
      imageName expectedFilePermissionsMax target tr
    refine ⟨_, h, ?_⟩
    simp [List.filter_cons, List.filter_append, Op.isPodContextOp, deleteLog_filter,
      filter_isPodContextOp_eq_nil mid
        (fun op hop => isPodContextOp_of_isProbe op (hp op hop)),
      pairedOps, NewPrivilegedPod]
  · intro ctx nodeName imageName expectedFilePermissionsMax target tr
    obtain ⟨mid, err, h, hp⟩ := checkKubelet_shape env r ctx nodeName imageName
      expectedFilePermissionsMax target tr
    refine ⟨_, h, ?_⟩
    simp [List.filter_cons, List.filter_append, Op.isPodContextOp, deleteLog_filter,
      filter_isPodContextOp_eq_nil mid
        (fun op hop => isPodContextOp_of_isProbe op (hp op hop)),
      pairedOps, NewPrivilegedPod]

/-- C14: in every run of `Run`, however it ends, the pod-context operations
are paired: each `Create` is directly followed, among them, by the `Delete` of
the pod it created, before any other `Create`.  So after any number of calls of
the run at most one diagnostic pod of the run is alive. -/
theorem C14_one_live_diagnostic_pod (env : Env) (r : Rule242466) (ctx : Context)
    (tr : Trace) :
    ∃ more, (r.Run env ctx tr).2 = tr ++ more ∧
      pairedOps (more.filter Op.isPodContextOp) = true ∧
      ∀ p, p <+: more → (livePods p).length ≤ 1 := by
  obtain ⟨more, h, hp⟩ := Run_paired env r ctx tr
  refine ⟨more, h, hp, ?_⟩
  intro p hpre
  have h1 := livePods_of_pairedOps _ hp (p.filter Op.isPodContextOp) (hpre.filter _)
  unfold livePods at h1 ⊢
  rw [foldl_liveStep_filter]
  exact h1

/-- Witness of C14: the run in the cluster of `scenario` makes six pod-context
operations, three pairs of `Create` and `Delete`; after its first ten calls
(the first `Create` is the tenth) one diagnostic pod is alive. -/
theorem C14_one_live_diagnostic_pod_witness :
    pairedOps ((scenarioRule.Run scenario scenarioCtx []).2.filter Op.isPodContextOp) = true ∧
    ((scenarioRule.Run scenario scenarioCtx []).2.filter Op.isPodContextOp).length = 6 ∧
    (livePods ((scenarioRule.Run scenario scenarioCtx []).2.take 10)).length = 1 ∧
    ∀ n, (livePods ((scenarioRule.Run scenario scenarioCtx []).2.take n)).length ≤ 1 := by
  obtain ⟨more, h, hp, hl⟩ := C14_one_live_diagnostic_pod scenario scenarioRule scenarioCtx []
  rw [List.nil_append] at h
  refine ⟨by rw [h]; exact hp, by decide, by decide, ?_⟩
  intro n
  rw [h]
  exact hl _ (List.take_prefix n more)

/-! ## C15: the context of `Delete` -/

/-- C15: whatever context the caller hands to `checkPods` or `checkKubelet`,
cancelled or not, the run contains the call of `Delete`, and its context is the
background context with a timeout of 30 seconds: the root of that context is
the background context, not a context of the caller, and it is not cancelled.
Only the logging of the error of `Delete` follows the call. -/
theorem C15_delete_context_detached (env : Env) (r : Rule242466) (ctx : Context)
    (c : Client) (pc : PodContext) (pods : List Pod) (replicaSets : List ReplicaSet)
    (nodeName imageName : String) (expectedFilePermissionsMax : String) (target : Target)
    (tr : Trace) :
    (∃ before err,
      (r.checkPods env ctx c pc pods replicaSets nodeName imageName
        expectedFilePermissionsMax target tr).2 =
      before ++ Op.Delete (Context.WithTimeout Context.Background 30) pc
        (generatedPodName env r tr) "kube-system" :: deleteLog err) ∧
    (∃ before err,
      (r.checkKubelet env ctx nodeName imageName expectedFilePermissionsMax target tr).2 =
      before ++ Op.Delete (Context.WithTimeout Context.Background 30) r.ClusterPodContext
        (generatedPodName env r tr) "kube-system" :: deleteLog err) ∧
    (Context.WithTimeout Context.Background 30).root = Context.Background ∧
    (∀ id cancelled,
      (Context.WithTimeout Context.Background 30).root ≠ Context.External id cancelled) ∧
    (Context.WithTimeout Context.Background 30).Cancelled = false := by
  refine ⟨?_, ?_, rfl, ?_, rfl⟩
  · obtain ⟨mid, err, h, _⟩ := checkPods_shape env r ctx c pc pods replicaSets nodeName
      imageName expectedFilePermissionsMax target tr
    exact ⟨_, err, by rw [h]; simp only [← List.append_assoc, ← List.cons_append]; rfl⟩
  · obtain ⟨mid, err, h, _⟩ := checkKubelet_shape env r ctx nodeName imageName
      expectedFilePermissionsMax target tr
    exact ⟨_, err, by rw [h]; simp only [← List.append_assoc, ← List.cons_append]; rfl⟩
  · intro id cancelled h
    simp [Context.root] at h

/-! ## What `Run` returns -/

theorem sampledChecks_of_not_isSampler (env : Env) (op : Op) (h : op.isSampler = false) :
    op.sampledChecks env = [] := by
  cases op <;> simp_all [Op.isSampler, Op.sampledChecks]

theorem isSampler_of_isProbe (op : Op) (h : op.isProbe = true) : op.isSampler = false := by
  cases op <;> simp_all [Op.isProbe, Op.isInspection, Op.isSampler]

theorem deleteLog_isSampler (err : Option String) :
    ∀ op ∈ deleteLog err, op.isSampler = false := by
  cases err <;> simp [deleteLog, Op.isSampler]

/-- `checkPods` does not call the sampler. -/
theorem checkPods_noSampler (env : Env) (r : Rule242466) (ctx : Context) (c : Client)
    (pc : PodContext) (pods : List Pod) (replicaSets : List ReplicaSet)
    (nodeName imageName : String) (expectedFilePermissionsMax : String) (target : Target) :
    Prog.Emits (fun l => ∀ op ∈ l, op.isSampler = false)
      (r.checkPods env ctx c pc pods replicaSets nodeName imageName
        expectedFilePermissionsMax target) := by
  intro tr
  obtain ⟨mid, err, h, hp⟩ := checkPods_shape env r ctx c pc pods replicaSets nodeName
    imageName expectedFilePermissionsMax target tr
  refine ⟨_, h, ?_⟩
  intro op hop
  simp only [List.mem_cons, List.mem_append] at hop
  rcases hop with h1 | h1 | h1 | h1 | h1
  · subst h1; rfl
  · subst h1; rfl
  · exact isSampler_of_isProbe op (hp op h1)
  · subst h1; rfl
  · exact deleteLog_isSampler err op h1

/-- `checkKubelet` does not call the sampler. -/
theorem checkKubelet_noSampler (env : Env) (r : Rule242466) (ctx : Context)
    (nodeName imageName : String) (expectedFilePermissionsMax : String) (target : Target) :
    Prog.Emits (fun l => ∀ op ∈ l, op.isSampler = false)
      (r.checkKubelet env ctx nodeName imageName expectedFilePermissionsMax target) := by
  intro tr
  obtain ⟨mid, err, h, hp⟩ := checkKubelet_shape env r ctx nodeName imageName
    expectedFilePermissionsMax target tr
  refine ⟨_, h, ?_⟩
  intro op hop
  simp only [List.mem_cons, List.mem_append] at hop
  rcases hop with h1 | h1 | h1 | h1 | h1
  · subst h1; rfl
  · subst h1; rfl
  · exact isSampler_of_isProbe op (hp op h1)
  · subst h1; rfl
  · exact deleteLog_isSampler err op h1

theorem keeps_pure {α : Type} (env : Env) (res : α → List CheckResult)
    (acc : List CheckResult) (a : α) (h : acc.Sublist (res a)) :
    Prog.Keeps env res acc (Pure.pure a : Prog α) := by
  intro tr a1 tr1 heq
  simp only [Prog.pure_apply, Prod.mk.injEq, Outcome.returned.injEq] at heq
  obtain ⟨h1, h2⟩ := heq
  subst h1 h2
  exact ⟨[], by simp, by simpa using h⟩

/-- A step that calls no sampler, followed by a step that keeps results which
hold `acc`. -/
theorem keeps_bind {α β : Type} (env : Env) (res : β → List CheckResult)
    (acc : List CheckResult) (m : Prog α) (f : α → Prog β) (g : α → List CheckResult)
    (hm : Prog.Emits (fun l => ∀ op ∈ l, op.isSampler = false) m)
    (hg : ∀ a, acc.Sublist (g a))
    (hf : ∀ a, Prog.Keeps env res (g a) (f a)) : Prog.Keeps env res acc (m >>= f) := by
  intro tr b tr1 heq
  obtain ⟨more1, h1, hp1⟩ := hm tr
  rw [Prog.bind_apply] at heq
  rcases hmt : m tr with ⟨out, tr2⟩
  rw [hmt] at h1 heq
  simp only at h1
  subst h1
  cases out with
  | returned a =>
    simp only at heq
    obtain ⟨more2, h2, hs⟩ := hf a _ _ _ heq
    refine ⟨more1 ++ more2, by rw [h2, List.append_assoc], ?_⟩
    have hnil : more1.flatMap (Op.sampledChecks env) = [] :=
      flatMap_eq_nil_of _ _
        (fun op hop => sampledChecks_of_not_isSampler env op (hp1 op hop))
    rw [List.flatMap_append, hnil, List.nil_append]
    exact ((hg a).append (List.Sublist.refl _)).trans hs
  | panicked msg => simp at heq

theorem concludes_pure (env : Env) (r : Rule242466) (acc results : List CheckResult)
    (h : acc.Sublist results) :
    Prog.Concludes env r acc (Pure.pure (r.Result env results, none)) := by
  intro tr out tr1 heq
  simp only [Prog.pure_apply, Prod.mk.injEq, Outcome.returned.injEq] at heq
  obtain ⟨h1, h2⟩ := heq
  subst h1 h2
  exact ⟨[], results, by simp, rfl, by simpa using h⟩

/-- A step that keeps the results, followed by a last step. -/
theorem concludes_of_keeps_bind {α : Type} (env : Env) (r : Rule242466)
    (res : α → List CheckResult) (acc : List CheckResult) (m : Prog α)
    (f : α → Prog (RuleResult × Option String)) (hm : Prog.Keeps env res acc m)
    (hf : ∀ a, Prog.Concludes env r (res a) (f a)) :
    Prog.Concludes env r acc (m >>= f) := by
  intro tr out tr1 heq
  rw [Prog.bind_apply] at heq
  rcases hmt : m tr with ⟨o, tr2⟩
  rw [hmt] at heq
  cases o with
  | returned a =>
    simp only at heq
    obtain ⟨more1, h1, hs1⟩ := hm tr a tr2 hmt
    obtain ⟨more2, results, h2, ho, hs2⟩ := hf a _ _ _ heq
    refine ⟨more1 ++ more2, results, by rw [h2, h1, List.append_assoc], ho, ?_⟩
    rw [List.flatMap_append, ← List.append_assoc]
    exact (hs1.append (List.Sublist.refl _)).trans hs2
  | panicked msg => simp at heq

/-- A call that is not a sampler call, in front of a last step entered with
results that hold `acc`. -/
theorem concludes_after_call {α : Type} (env : Env) (r : Rule242466)
    (acc : List CheckResult) (op : Op) (answer : Trace → α)
    (f : α → Prog (RuleResult × Option String)) (g : α → List CheckResult)
    (hop : op.isSampler = false) (hg : ∀ a, acc.Sublist (g a))
    (hf : ∀ a, Prog.Concludes env r (g a) (f a)) :
    Prog.Concludes env r acc (Prog.call op answer >>= f) := by
  intro tr out tr1 heq
  simp only [Prog.bind_apply, Prog.call_apply] at heq
  obtain ⟨more, results, h1, ho, hs⟩ := hf _ _ _ _ heq
  refine ⟨op :: more, results, by rw [h1]; simp, ho, ?_⟩
  rw [List.flatMap_cons, sampledChecks_of_not_isSampler env op hop, List.nil_append]
  exact ((hg _).append (List.Sublist.refl _)).trans hs

/-- A sampler call, in front of a last step entered with the results so far
and the diagnostics of the call. -/
theorem concludes_after_sampler {α : Type} (env : Env) (r : Rule242466)
    (acc : List CheckResult) (op : Op) (answer : α)
    (f : α → Prog (RuleResult × Option String))
    (hf : Prog.Concludes env r (acc ++ op.sampledChecks env) (f answer)) :
    Prog.Concludes env r acc (Prog.call op (fun _ => answer) >>= f) := by
  intro tr out tr1 heq
  simp only [Prog.bind_apply, Prog.call_apply] at heq
  obtain ⟨more, results, h1, ho, hs⟩ := hf _ _ _ heq
  refine ⟨op :: more, results, by rw [h1]; simp, ho, ?_⟩
  rw [List.flatMap_cons, ← List.append_assoc]
  exact hs

theorem keeps_mono {α : Type} (env : Env) (res : α → List CheckResult)
    (acc acc1 : List CheckResult) (m : Prog α) (h : acc.Sublist acc1)
    (hm : Prog.Keeps env res acc1 m) : Prog.Keeps env res acc m := by
  intro tr a tr1 heq
  obtain ⟨more, h1, hs⟩ := hm tr a tr1 heq
  exact ⟨more, h1, (h.append (List.Sublist.refl _)).trans hs⟩

theorem concludes_mono (env : Env) (r : Rule242466) (acc acc1 : List CheckResult)
    (m : Prog (RuleResult × Option String)) (h : acc.Sublist acc1)
    (hm : Prog.Concludes env r acc1 m) : Prog.Concludes env r acc m := by
  intro tr out tr1 heq
  obtain ⟨more, results, h1, ho, hs⟩ := hm tr out tr1 heq
  exact ⟨more, results, h1, ho, (h.append (List.Sublist.refl _)).trans hs⟩

theorem runCheckPodsGroups_keeps (env : Env) (r : Rule242466) (ctx : Context) (c : Client)
    (pc : PodContext) (replicaSets : List ReplicaSet) (imageName : String)
    (expectedFilePermissionsMax : String) (target : Target)
    (groupedPods : GoMap String (List Pod)) :
    ∀ checkResults, Prog.Keeps env (fun results => results) checkResults
      (runCheckPodsGroups env r ctx c pc replicaSets imageName expectedFilePermissionsMax
        target groupedPods checkResults) := by
  induction groupedPods with
  | nil => intro checkResults; exact keeps_pure env _ _ _ (List.Sublist.refl _)
  | cons entry rest ih =>
    intro checkResults
    rcases entry with ⟨nodeName, pods⟩
    unfold runCheckPodsGroups
    exact keeps_bind env _ _ _ _ (fun results => checkResults ++ results)
      (checkPods_noSampler _ _ _ _ _ _ _ _ _ _ _)
      (fun results => List.sublist_append_left _ _) (fun results => ih _)

theorem runCheckKubelets_keeps (env : Env) (r : Rule242466) (ctx : Context)
    (imageName : String) (expectedFilePermissionsMax : String) (shootTarget : Target)
    (nodes : List Node) :
    ∀ checkResults, Prog.Keeps env (fun results => results) checkResults
      (runCheckKubelets env r ctx imageName expectedFilePermissionsMax shootTarget nodes
        checkResults) := by
  induction nodes with
  | nil => intro checkResults; exact keeps_pure env _ _ _ (List.Sublist.refl _)
  | cons node rest ih =>
    intro checkResults
    unfold runCheckKubelets
    exact keeps_bind env _ _ _ _ (fun results => checkResults ++ results)
      (checkKubelet_noSampler _ _ _ _ _ _ _)
      (fun results => List.sublist_append_left _ _) (fun results => ih _)

theorem runSeedDeployments_keeps (env : Env) (r : Rule242466) (ctx : Context)
    (seedTarget : Target) (deploymentNames : List String) :
    ∀ st, Prog.Keeps env (fun st1 => st1.2) st.2
      (runSeedDeployments env r ctx seedTarget deploymentNames st) := by
  induction deploymentNames with
  | nil => intro st; exact keeps_pure env _ _ _ (List.Sublist.refl _)
  | cons deploymentName rest ih =>
    intro st
    unfold runSeedDeployments
    refine keeps_bind env _ _ _ _ (fun _ => st.2)
      (emits_call _ _ _ (by simp [Op.isSampler])) (fun _ => List.Sublist.refl _) ?_
    intro a
    cases a with
    | error err =>
      exact keeps_mono env _ _ _ _ (List.sublist_append_left _ _) (ih _)
    | ok pods =>
      simp only []
      split
      · exact keeps_mono env _ _ _ _ (List.sublist_append_left _ _) (ih _)
      · exact ih _

theorem runKubeProxy_concludes (env : Env) (r : Rule242466) (ctx : Context)
    (image : ImageSource) (expectedFilePermissionsMax : String) (kubeProxySelector : Selector)
    (shootTarget : Target) (allShootPods : List Pod) (shootReplicaSets : List ReplicaSet)
    (shootNodesAllocatablePods : GoMap String Int) (checkResults : List CheckResult) :
    Prog.Concludes env r checkResults
      (runKubeProxy env r ctx image expectedFilePermissionsMax kubeProxySelector shootTarget
        allShootPods shootReplicaSets shootNodesAllocatablePods checkResults) := by
  unfold runKubeProxy
  split
  · exact concludes_pure env r _ _ (List.sublist_append_left _ _)
  · simp only []
    split
    · exact concludes_pure env r _ _ (List.sublist_append_left _ _)
    · refine concludes_after_sampler env r _ _ _ _ ?_
      simp only [Op.sampledChecks]
      rcases env.SelectPodOfReferenceGroup
        (List.filter (fun p => kubeProxySelector.Matches p.Labels) allShootPods)
        shootReplicaSets shootNodesAllocatablePods shootTarget with ⟨groupedShootPods, checks⟩
      simp only []
      exact concludes_of_keeps_bind env r _ _ _ _
        (runCheckPodsGroups_keeps _ _ _ _ _ _ _ _ _ _ _)
        (fun a => concludes_pure env r _ _ (List.Sublist.refl _))

theorem runShoot_concludes (env : Env) (r : Rule242466) (ctx : Context) (image : ImageSource)
    (expectedFilePermissionsMax : String) (kubeProxySelector : Selector)
    (nodeLabels : List String) (checkResults : List CheckResult) :
    Prog.Concludes env r checkResults
      (runShoot env r ctx image expectedFilePermissionsMax kubeProxySelector nodeLabels
        checkResults) := by
  unfold runShoot
  refine concludes_after_call env r _ _ _ _ (fun _ => checkResults) rfl
    (fun _ => List.Sublist.refl _) ?_
  intro a
  cases a with
  | error err => exact concludes_pure env r _ _ (List.sublist_append_left _ _)
  | ok allShootPods =>
    simp only []
    refine concludes_after_call env r _ _ _ _ (fun _ => checkResults) rfl
      (fun _ => List.Sublist.refl _) ?_
    intro a
    cases a with
    | error err => exact concludes_pure env r _ _ (List.sublist_append_left _ _)
    | ok shootReplicaSets =>
      simp only []
      refine concludes_after_call env r _ _ _ _ (fun _ => checkResults) rfl
        (fun _ => List.Sublist.refl _) ?_
      intro a
      cases a with
      | error err => exact concludes_pure env r _ _ (List.sublist_append_left _ _)
      | ok shootNodes =>
        simp only []
        refine concludes_after_sampler env r _ _ _ _ ?_
        simp only [Op.sampledChecks]
        rcases env.SelectNodes shootNodes
          (env.GetNodesAllocatablePodsNum allShootPods shootNodes) nodeLabels with
          ⟨selectedShootNodes, checks⟩
        simp only []
        refine concludes_of_keeps_bind env r (fun results => results) _ _ _ ?_
          (fun a => runKubeProxy_concludes _ _ _ _ _ _ _ _ _ _ _)
        split
        · exact keeps_mono env _ _ _ _ (List.sublist_append_left _ _)
            (runCheckKubelets_keeps _ _ _ _ _ _ _ _)
        · exact runCheckKubelets_keeps _ _ _ _ _ _ _ _

/-- `Run` after the image was found: a last step entered with no results. -/
theorem Run_concludes_after_image (env : Env) (r : Rule242466) (ctx : Context) (tr : Trace)
    (image0 : ImageSource) (out : RuleResult × Option String) (tr1 : Trace)
    (himage : env.FindImage tr env.DikiOpsImageName = Except.ok image0)
    (h : r.Run env ctx tr = (Outcome.returned out, tr1)) :
    ∃ more results, tr1 = tr ++ Op.FindImage env.DikiOpsImageName :: more ∧
      out = (r.Result env results, none) ∧
      (more.flatMap (Op.sampledChecks env)).Sublist results := by
  have key : ∀ m : Prog (RuleResult × Option String), Prog.Concludes env r [] m →
      m (tr ++ [Op.FindImage env.DikiOpsImageName]) = (Outcome.returned out, tr1) →
      ∃ more results, tr1 = tr ++ Op.FindImage env.DikiOpsImageName :: more ∧
        out = (r.Result env results, none) ∧
        (more.flatMap (Op.sampledChecks env)).Sublist results := by
    intro m hm heq
    obtain ⟨more, results, h1, ho, hs⟩ := hm _ _ _ heq
    exact ⟨more, results, by rw [h1]; simp, ho, by simpa using hs⟩
  unfold Rule242466.Run at h
  simp only [] at h
  rw [Prog.bind_apply, Prog.call_apply] at h
  simp only [himage] at h
  refine key _ ?_ h
  refine concludes_after_call env r _ _ _ _ (fun _ => []) rfl
    (fun _ => List.Sublist.refl _) ?_
  intro a
  cases a with
  | error err =>
    exact concludes_mono env r _ _ _ (List.nil_sublist _) (runShoot_concludes _ _ _ _ _ _ _ _)
  | ok allSeedPods =>
    simp only []
    refine concludes_after_call env r _ _ _ _ (fun _ => []) rfl
      (fun _ => List.Sublist.refl _) ?_
    intro a
    cases a with
    | error err => exact concludes_pure env r _ _ (List.nil_sublist _)
    | ok seedReplicaSets =>
      simp only []
      refine concludes_of_keeps_bind env r (fun st1 => st1.2) _ _ _
        (keeps_mono env _ _ _ _ (List.nil_sublist _)
          (runSeedDeployments_keeps _ _ _ _ _ _)) ?_
      intro st
      rcases st with ⟨checkPods, checkResults⟩
      simp only []
      split
      · refine concludes_after_call env r _ _ _ _ (fun _ => checkResults) rfl
          (fun _ => List.Sublist.refl _) ?_
        intro a
        cases a with
        | error err =>
          exact concludes_mono env r _ _ _ (List.sublist_append_left _ _)
            (runShoot_concludes _ _ _ _ _ _ _ _)
        | ok nodes =>
          simp only []
          refine concludes_after_sampler env r _ _ _ _ ?_
          simp only [Op.sampledChecks]
          rcases env.SelectPodOfReferenceGroup checkPods seedReplicaSets
            (env.GetNodesAllocatablePodsNum allSeedPods nodes)
            (NewTarget [("cluster", "seed")]) with ⟨groupedPods, checks⟩
          simp only []
          exact concludes_of_keeps_bind env r (fun results => results) _ _ _
            (runCheckPodsGroups_keeps _ _ _ _ _ _ _ _ _ _ _)
            (fun a => runShoot_concludes _ _ _ _ _ _ _ _)
      · exact runShoot_concludes _ _ _ _ _ _ _ _

/-! ## C11: when `Run` returns an error -/

/-- C11 (what the code does): when the image is not found, `Run` returns the
empty rule result and an error, after that one call; when the image is found,
every value `Run` returns has a nil error and is the rule result of the check
results accumulated.  But `Run` does not return in every other case: in the
cluster whose diagnostic pod has no container status yet, the first
`checkPods` panics at `ContainerStatuses[0]` and `Run` panics with it. -/
theorem C11_error_only_without_image (env : Env) (r : Rule242466) (ctx : Context)
    (tr : Trace) :
    (∀ err, env.FindImage tr env.DikiOpsImageName = Except.error err →
      r.Run env ctx tr =
        (Outcome.returned (RuleResult.zero,
          some ("failed to find image version for " ++ env.DikiOpsImageName ++ ": " ++ err)),
         tr ++ [Op.FindImage env.DikiOpsImageName])) ∧
    (∀ image0 out tr1, env.FindImage tr env.DikiOpsImageName = Except.ok image0 →
      r.Run env ctx tr = (Outcome.returned out, tr1) →
      out.2 = none ∧ ∃ results, out.1 = r.Result env results) ∧
    (scenarioRule.Run scenarioNotReady scenarioCtx []).1 =
      Outcome.panicked "runtime error: index out of range [0] with length 0" := by
  refine ⟨?_, ?_, by decide⟩
  · intro err herr
    simp [Rule242466.Run, Prog.bind_apply, Prog.call_apply, Prog.pure_apply, herr]
  · intro image0 out tr1 himage h
    obtain ⟨more, results, _, ho, _⟩ :=
      Run_concludes_after_image env r ctx tr image0 out tr1 himage h
    subst ho
    exact ⟨rfl, results, rfl⟩

/-- Witness of C11: without the image `Run` returns the error after one call;
in the cluster of `scenario` it returns a nil error. -/
theorem C11_error_only_without_image_witness :
    scenarioRule.Run scenarioImageFails scenarioCtx [] =
      (Outcome.returned (RuleResult.zero,
        some "failed to find image version for diki-ops: image not found"),
       [Op.FindImage "diki-ops"]) ∧
    ∃ out tr1, scenarioRule.Run scenario scenarioCtx [] = (Outcome.returned out, tr1) ∧
      out.2 = none ∧ out.1.RuleID = "242466" ∧ out.1.CheckResults.length = 8 := by
  have h1 := (C11_error_only_without_image scenarioImageFails scenarioRule scenarioCtx []).1
    "image not found" rfl
  refine ⟨h1, _, _, rfl, ?_⟩
  have h2 := (C11_error_only_without_image scenario scenarioRule scenarioCtx []).2.1
    ⟨"diki-ops", none⟩ _ _ rfl rfl
  exact ⟨h2.1, by decide, by decide⟩

/-! ## C12: the diagnostics of the sampler reach the results -/

/-- C12: when `Run` returns, the diagnostic check results of the sampler calls
it made (of `SelectPodOfReferenceGroup` for the seed pods, of `SelectNodes`,
of `SelectPodOfReferenceGroup` for the kube-proxy pods), concatenated in the
order of the calls, are a subsequence of the check results returned: each of
them is there unchanged, in the order the sampler gave, and none was
dropped. -/
theorem C12_sampler_diagnostics_kept (env : Env) (r : Rule242466) (ctx : Context)
    (tr : Trace) (out : RuleResult × Option String) (tr1 : Trace)
    (h : r.Run env ctx tr = (Outcome.returned out, tr1)) :
    ∃ more, tr1 = tr ++ more ∧
      (more.flatMap (Op.sampledChecks env)).Sublist out.1.CheckResults := by
  cases himage : env.FindImage tr env.DikiOpsImageName with
  | error err =>
    have h1 : r.Run env ctx tr =
        (Outcome.returned (RuleResult.zero,
          some ("failed to find image version for " ++ env.DikiOpsImageName ++ ": " ++ err)),
         tr ++ [Op.FindImage env.DikiOpsImageName]) := by
      simp [Rule242466.Run, Prog.bind_apply, Prog.call_apply, Prog.pure_apply, himage]
    rw [h1] at h
    simp only [Prod.mk.injEq, Outcome.returned.injEq] at h
    obtain ⟨ho, ht⟩ := h
    subst ho ht
    exact ⟨[Op.FindImage env.DikiOpsImageName], rfl, by simp [Op.sampledChecks]⟩
  | ok image0 =>
    obtain ⟨more, results, h1, ho, hs⟩ :=
      Run_concludes_after_image env r ctx tr image0 out tr1 himage h
    subst ho
    refine ⟨Op.FindImage env.DikiOpsImageName :: more, h1, ?_⟩
    simpa [List.flatMap_cons, Op.sampledChecks, Rule242466.Result, Result] using hs

/-- Witness of C12: in a cluster in which each of the three sampler calls
reports one diagnostic, the three are among the results `Run` returns, in the
order of the calls. -/
theorem C12_sampler_diagnostics_kept_witness :
    ∃ out, (scenarioRule.Run scenarioDiagnostics scenarioCtx []).1 = Outcome.returned out ∧
      (scenarioRule.Run scenarioDiagnostics scenarioCtx []).2.flatMap
          (Op.sampledChecks scenarioDiagnostics) =
        [⟨Status.Errored, "pod cannot be tested", [("cluster", "seed"), ("name", "other")]⟩,
         ⟨Status.Errored, "no allocatable node in pool", [("pool", "b")]⟩,
         ⟨Status.Errored, "pod cannot be tested", [("cluster", "shoot"), ("name", "other")]⟩] ∧
      ((scenarioRule.Run scenarioDiagnostics scenarioCtx []).2.flatMap
        (Op.sampledChecks scenarioDiagnostics)).Sublist out.1.CheckResults := by
  obtain ⟨out, hout⟩ :
      ∃ out, (scenarioRule.Run scenarioDiagnostics scenarioCtx []).1 = Outcome.returned out :=
    ⟨_, rfl⟩
  obtain ⟨more, h1, hs⟩ :=
    C12_sampler_diagnostics_kept scenarioDiagnostics scenarioRule scenarioCtx [] out
      (scenarioRule.Run scenarioDiagnostics scenarioCtx []).2 (Prod.ext hout rfl)
  refine ⟨out, hout, by decide, ?_⟩
  rw [List.nil_append] at h1
  rw [h1]
  exact hs

/-! ## C18: the kube-proxy check switched off -/

/-- The shoot side of `Run` when the three listings succeed and the kube-proxy
check is switched off: the kubelets of the selected nodes are checked, then the
Accepted result is appended and `Run` returns. -/
theorem runShoot_kubeProxyDisabled (env : Env) (r : Rule242466) (ctx : Context)
    (image : ImageSource) (expectedFilePermissionsMax : String) (kubeProxySelector : Selector)
    (nodeLabels : List String) (checkResults : List CheckResult) (tr : Trace)
    (allShootPods : List Pod) (shootReplicaSets : List ReplicaSet) (shootNodes : List Node)
    (selectedShootNodes : List Node) (checks : List CheckResult)
    (hdisabled : r.kubeProxyDisabled = true)
    (hpods : env.GetPods tr ctx r.ClusterClient "" NewSelector 300 = Except.ok allShootPods)
    (hrs : env.GetReplicaSets (tr ++ [Op.GetPods ctx r.ClusterClient "" NewSelector 300]) ctx
      r.ClusterClient "" NewSelector 300 = Except.ok shootReplicaSets)
    (hnodes : env.GetNodes
      (tr ++ [Op.GetPods ctx r.ClusterClient "" NewSelector 300,
        Op.GetReplicaSets ctx r.ClusterClient "" NewSelector 300])
      ctx r.ClusterClient 300 = Except.ok shootNodes)
    (hselect : env.SelectNodes shootNodes
      (env.GetNodesAllocatablePodsNum allShootPods shootNodes) nodeLabels =
        (selectedShootNodes, checks)) :
    runShoot env r ctx image expectedFilePermissionsMax kubeProxySelector nodeLabels
        checkResults tr =
      (runCheckKubelets env r ctx (env.ImageString image) expectedFilePermissionsMax
          [("cluster", "shoot")] selectedShootNodes
          (if selectedShootNodes.length == 0 then
            checkResults ++ checks ++
              [⟨Status.Errored, "no allocatable nodes could be selected",
                [("cluster", "shoot")]⟩]
          else checkResults ++ checks) >>= fun results =>
        (Pure.pure (r.Result env (results ++
          [⟨Status.Accepted, "kube-proxy check is skipped.", [("cluster", "shoot")]⟩]),
          none) : Prog (RuleResult × Option String)))
        (tr ++ [Op.GetPods ctx r.ClusterClient "" NewSelector 300,
          Op.GetReplicaSets ctx r.ClusterClient "" NewSelector 300,
          Op.GetNodes ctx r.ClusterClient 300,
          Op.SelectNodes shootNodes (env.GetNodesAllocatablePodsNum allShootPods shootNodes)
            nodeLabels]) := by
  simp [runShoot, runKubeProxy, Prog.bind_apply, Prog.call_apply, Prog.pure_apply, hpods, hrs,
    hnodes, hselect, hdisabled, NewTarget, ErroredCheckResult, AcceptedCheckResult]

/-- C18: whenever `Run` has reached its shoot side (lines 143-202) with
`Options.KubeProxyDisabled` set and the shoot pods, replica sets and nodes are
listed, `Run` checks the kubelets of the nodes `SelectNodes` selected and then
appends Accepted "kube-proxy check is skipped." at the bare shoot target and
returns.  After the call of `SelectNodes` the sampler is not called again, and
diagnostic pods are created on the selected nodes only, one each if `Run`
returns; the value returned has a nil error and the Accepted result is its last
check result. -/
theorem C18_kube_proxy_check_skipped (env : Env) (r : Rule242466) (ctx : Context)
    (tr0 : Trace) (image : ImageSource) (checkResults : List CheckResult) (tr : Trace)
    (allShootPods : List Pod) (shootReplicaSets : List ReplicaSet) (shootNodes : List Node)
    (selectedShootNodes : List Node) (checks : List CheckResult)
    (hreach : r.Run env ctx tr0 =
      runShoot env r ctx image "644" (SelectorFromSet [("role", "proxy")])
        ["worker.gardener.cloud/pool"] checkResults tr)
    (hdisabled : r.kubeProxyDisabled = true)
    (hpods : env.GetPods tr ctx r.ClusterClient "" NewSelector 300 = Except.ok allShootPods)
    (hrs : env.GetReplicaSets (tr ++ [Op.GetPods ctx r.ClusterClient "" NewSelector 300]) ctx
      r.ClusterClient "" NewSelector 300 = Except.ok shootReplicaSets)
    (hnodes : env.GetNodes
      (tr ++ [Op.GetPods ctx r.ClusterClient "" NewSelector 300,
        Op.GetReplicaSets ctx r.ClusterClient "" NewSelector 300])
      ctx r.ClusterClient 300 = Except.ok shootNodes)
    (hselect : env.SelectNodes shootNodes
      (env.GetNodesAllocatablePodsNum allShootPods shootNodes)
      ["worker.gardener.cloud/pool"] = (selectedShootNodes, checks)) :
    ∃ more,
      (r.Run env ctx tr0).2 =
        tr ++ [Op.GetPods ctx r.ClusterClient "" NewSelector 300,
          Op.GetReplicaSets ctx r.ClusterClient "" NewSelector 300,
          Op.GetNodes ctx r.ClusterClient 300,
          Op.SelectNodes shootNodes (env.GetNodesAllocatablePodsNum allShootPods shootNodes)
            ["worker.gardener.cloud/pool"]] ++ more ∧
      (∀ op ∈ more, op.isSampler = false) ∧
      more.flatMap Op.createdNode <+: selectedShootNodes.map (fun node => node.Name) ∧
      ∀ out, (r.Run env ctx tr0).1 = Outcome.returned out →
        more.flatMap Op.createdNode = selectedShootNodes.map (fun node => node.Name) ∧
        out.2 = none ∧
        out.1.CheckResults.getLast? =
          some ⟨Status.Accepted, "kube-proxy check is skipped.", [("cluster", "shoot")]⟩ := by
  have hrun := hreach.trans
    (runShoot_kubeProxyDisabled env r ctx image "644" (SelectorFromSet [("role", "proxy")])
      ["worker.gardener.cloud/pool"] checkResults tr allShootPods shootReplicaSets shootNodes
      selectedShootNodes checks hdisabled hpods hrs hnodes hselect)
  rw [hrun, Prog.bind_apply]
  generalize hacc : (if selectedShootNodes.length == 0 then
      checkResults ++ checks ++
        [(⟨Status.Errored, "no allocatable nodes could be selected",
          [("cluster", "shoot")]⟩ : CheckResult)]
    else checkResults ++ checks) = acc
  generalize htr : tr ++ [Op.GetPods ctx r.ClusterClient "" NewSelector 300,
      Op.GetReplicaSets ctx r.ClusterClient "" NewSelector 300,
      Op.GetNodes ctx r.ClusterClient 300,
      Op.SelectNodes shootNodes (env.GetNodesAllocatablePodsNum allShootPods shootNodes)
        ["worker.gardener.cloud/pool"]] = tr4
  obtain ⟨more, h1, _, hc, he⟩ := runCheckKubelets_creates env r ctx (env.ImageString image)
    "644" [("cluster", "shoot")] selectedShootNodes acc tr4
  obtain ⟨more1, h2, hns⟩ := runCheckKubelets_emits
    (fun l => ∀ op ∈ l, op.isSampler = false) (by simp)
    (fun l1 l2 h1 h2 op hop => by
      rcases List.mem_append.1 hop with h | h
      · exact h1 op h
      · exact h2 op h)
    env r (fun ctx nodeName imageName expectedFilePermissionsMax target =>
      checkKubelet_noSampler env r ctx nodeName imageName expectedFilePermissionsMax target)
    ctx (env.ImageString image) "644" [("cluster", "shoot")] selectedShootNodes acc tr4
  have hmore : more1 = more := List.append_cancel_left (h2.symm.trans h1)
  subst hmore
  rcases hk : runCheckKubelets env r ctx (env.ImageString image) "644" [("cluster", "shoot")]
    selectedShootNodes acc tr4 with ⟨o, trk⟩
  rw [hk] at h1 he
  simp only at h1 he
  cases o with
  | returned results =>
    refine ⟨more1, by simp [Prog.pure_apply, h1], hns, hc, ?_⟩
    intro out hout
    simp only [Prog.pure_apply, Outcome.returned.injEq] at hout
    subst hout
    exact ⟨he results rfl, rfl, by simp [Rule242466.Result, Result]⟩
  | panicked msg =>
    refine ⟨more1, by simp [h1], hns, hc, ?_⟩
    intro out hout
    simp at hout

/-- Witness of C18: the rule with the kube-proxy check switched off, in a
cluster with one shoot node; after `SelectNodes` one diagnostic pod is created,
on that node, and the Accepted result is the last one. -/
theorem C18_kube_proxy_check_skipped_witness :
    ∃ more,
      (scenarioRuleProxyDisabled.Run scenarioSeedPodsFail scenarioCtx []).2 =
        [Op.FindImage "diki-ops", Op.GetPods scenarioCtx ⟨"seed"⟩ "" NewSelector 300] ++
        [Op.GetPods scenarioCtx ⟨"shoot"⟩ "" NewSelector 300,
          Op.GetReplicaSets scenarioCtx ⟨"shoot"⟩ "" NewSelector 300,
          Op.GetNodes scenarioCtx ⟨"shoot"⟩ 300,
          Op.SelectNodes [⟨"shoot-node-a", []⟩] [("shoot-node-a", 10)]
            ["worker.gardener.cloud/pool"]] ++ more ∧
      (∀ op ∈ more, op.isSampler = false) ∧
      more.flatMap Op.createdNode <+: ["shoot-node-a"] ∧
      ∀ out, (scenarioRuleProxyDisabled.Run scenarioSeedPodsFail scenarioCtx []).1 =
          Outcome.returned out →
        more.flatMap Op.createdNode = ["shoot-node-a"] ∧
        out.2 = none ∧
        out.1.CheckResults.getLast? =
          some ⟨Status.Accepted, "kube-proxy check is skipped.", [("cluster", "shoot")]⟩ :=
  C18_kube_proxy_check_skipped scenarioSeedPodsFail scenarioRuleProxyDisabled scenarioCtx []
    ⟨"diki-ops", some "v1"⟩
    [⟨Status.Errored, "pods is forbidden", [("cluster", "seed"), ("kind", "PodList")]⟩]
    [Op.FindImage "diki-ops", Op.GetPods scenarioCtx ⟨"seed"⟩ "" NewSelector 300]
    [proxyPod] [] [⟨"shoot-node-a", []⟩] [⟨"shoot-node-a", []⟩] []
    rfl rfl rfl rfl rfl rfl

/-! ## C13: the pods of a group are inspected in the order of their names -/

theorem checkPodsLoop_eq_blocks (env : Env) (ctx : Context) (execContainerPath : String)
    (podExecutor : PodExecutor) (replicaSets : List ReplicaSet)
    (expectedFilePermissionsMax : String) (target execPodTarget : Target) (pods : List Pod) :
    ∀ checkResults tr,
      checkPodsLoop env ctx execContainerPath podExecutor replicaSets
          expectedFilePermissionsMax target execPodTarget pods checkResults tr =
        (Outcome.returned (checkResults ++
          (checkPodsBlocks env ctx execContainerPath podExecutor replicaSets
            expectedFilePermissionsMax target execPodTarget pods tr).flatten),
         tr ++ pods.map fun pod =>
          Op.GetMountedFilesStats ctx execContainerPath podExecutor pod
            checkPodsExcludedSources) := by
  induction pods with
  | nil => intro checkResults tr; simp [checkPodsLoop, checkPodsBlocks, Prog.pure_apply]
  | cons pod rest ih =>
    intro checkResults tr
    rw [checkPodsLoop_cons, ih]
    simp [checkPodsBlocks]

theorem sortPodsByName_sorted (pods : List Pod) :
    List.Sorted (fun a b : Pod => a.Name.data ≤ b.Name.data) (sortPodsByName pods) := by
  haveI : IsTotal Pod (fun a b : Pod => a.Name.data ≤ b.Name.data) :=
    ⟨fun a b => le_total a.Name.data b.Name.data⟩
  haveI : IsTrans Pod (fun a b : Pod => a.Name.data ≤ b.Name.data) :=
    ⟨fun _ _ _ hab hbc => le_trans hab hbc⟩
  exact List.sorted_insertionSort _ pods

theorem sortPodsByName_perm (pods : List Pod) : (sortPodsByName pods).Perm pods :=
  List.perm_insertionSort _ pods

theorem eq_of_map_eq_of_injOn {α β : Type} (f : α → β) (l : List α)
    (hinj : ∀ a ∈ l, ∀ b ∈ l, f a = f b → a = b) :
    ∀ l1 l2 : List α, (∀ a ∈ l1, a ∈ l) → (∀ b ∈ l2, b ∈ l) → l1.map f = l2.map f →
      l1 = l2 := by
  intro l1
  induction l1 with
  | nil =>
    intro l2 _ _ h
    cases l2 with
    | nil => rfl
    | cons b rest => simp at h
  | cons a rest ih =>
    intro l2 h1 h2 h
    cases l2 with
    | nil => simp at h
    | cons b rest2 =>
      simp only [List.map_cons, List.cons.injEq] at h
      have hab : a = b :=
        hinj a (h1 a (List.mem_cons_self _ _)) b (h2 b (List.mem_cons_self _ _)) h.1
      have hrest := ih rest2 (fun x hx => h1 x (List.mem_cons_of_mem _ hx))
        (fun x hx => h2 x (List.mem_cons_of_mem _ hx)) h.2
      rw [hab, hrest]

/-- For pods with distinct names the sorted list does not depend on the order
in which the pods are given. -/
theorem sortPodsByName_eq_of_perm (pods pods1 : List Pod) (hperm : pods1.Perm pods)
    (hnodup : (pods.map fun p => p.Name).Nodup) :
    sortPodsByName pods1 = sortPodsByName pods := by
  have hkeys : (pods.map fun p => p.Name.data).Nodup := by
    have := hnodup.map (f := String.data) (fun a b hab => String.ext hab)
    simpa [List.map_map] using this
  have hinj := List.inj_on_of_nodup_map hkeys
  have hp1 : (sortPodsByName pods1).Perm pods := (sortPodsByName_perm pods1).trans hperm
  have hp : (sortPodsByName pods).Perm pods := sortPodsByName_perm pods
  have hs1 : List.Sorted (· ≤ ·) ((sortPodsByName pods1).map fun p => p.Name.data) :=
    List.pairwise_map.2 (sortPodsByName_sorted pods1)
  have hs : List.Sorted (· ≤ ·) ((sortPodsByName pods).map fun p => p.Name.data) :=
    List.pairwise_map.2 (sortPodsByName_sorted pods)
  have hmap : (sortPodsByName pods1).map (fun p => p.Name.data) =
      (sortPodsByName pods).map fun p => p.Name.data :=
    List.eq_of_perm_of_sorted ((hp1.trans hp.symm).map _) hs1 hs
  exact eq_of_map_eq_of_injOn (fun p => p.Name.data) pods
    (fun a ha b hb hab => hinj ha hb hab) _ _
    (fun a ha => hp1.subset ha) (fun b hb => hp.subset hb) hmap

/-- `checkPods` when the diagnostic pod is created, fetched and has a runtime
identifier: the loop over the sorted pods, under the deferred delete. -/
theorem checkPods_inspects (env : Env) (r : Rule242466) (ctx : Context) (c : Client)
    (pc : PodContext) (pods : List Pod) (replicaSets : List ReplicaSet)
    (nodeName imageName : String) (expectedFilePermissionsMax : String) (target : Target)
    (tr : Trace) (podExecutor : PodExecutor) (execPod : Pod) (status : ContainerStatus)
    (execBaseContainerID : String)
    (hcreate : env.Create (tr ++ [Op.Generate 10]) ctx pc
        (NewPrivilegedPod (generatedPodName env r tr) "kube-system" imageName nodeName
          [(env.LabelInstanceID, r.InstanceID)]) = Except.ok podExecutor)
    (hget : env.Get (tr ++ [Op.Generate 10,
          Op.Create ctx pc (NewPrivilegedPod (generatedPodName env r tr) "kube-system"
            imageName nodeName [(env.LabelInstanceID, r.InstanceID)])])
        ctx c (generatedPodName env r tr) "kube-system" = Except.ok execPod)
    (hstatus : execPod.ContainerStatuses[0]? = some status)
    (hsplit : (Split status.ContainerID "//")[1]? = some execBaseContainerID) :
    r.checkPods env ctx c pc pods replicaSets nodeName imageName
        expectedFilePermissionsMax target tr =
      Prog.defer (deferredDelete env r.Logger pc (generatedPodName env r tr))
        (checkPodsLoop env ctx
          ("/run/containerd/io.containerd.runtime.v2.task/k8s.io/" ++ execBaseContainerID ++
            "/rootfs")
          podExecutor replicaSets expectedFilePermissionsMax target
          (target.With [("name", generatedPodName env r tr), ("namespace", "kube-system"),
            ("kind", "Pod")])
          (sortPodsByName pods) [])
        (tr ++ [Op.Generate 10,
          Op.Create ctx pc (NewPrivilegedPod (generatedPodName env r tr) "kube-system"
            imageName nodeName [(env.LabelInstanceID, r.InstanceID)]),
          Op.Get ctx c (generatedPodName env r tr) "kube-system"]) := by
  rw [checkPods_apply, defer_deferredDelete_apply, defer_deferredDelete_apply]
  simp [checkPodsBody, Prog.bind_apply, Prog.call_apply, hcreate, hget, hstatus, hsplit]

/-- C13: `checkPods` ranges over `sortPodsByName pods`, which is a
rearrangement of the pods given that ascends by name; for pods with distinct
names it is the same list for every order in which they are given.  When the
diagnostic pod is created, fetched and has a runtime identifier, and the rule
has its `Logger` set, the trace
shows one `GetMountedFilesStats` per pod in that order, and the results
returned are the blocks of results of the pods, concatenated in that order:
every result of a pod with a smaller name comes before every result of a pod
with a larger name. -/
theorem C13_pods_inspected_in_name_order (env : Env) (r : Rule242466) (ctx : Context)
    (c : Client) (pc : PodContext) (pods : List Pod) (replicaSets : List ReplicaSet)
    (nodeName imageName : String) (expectedFilePermissionsMax : String) (target : Target)
    (tr : Trace) :
    List.Sorted (fun a b : Pod => a.Name.data ≤ b.Name.data) (sortPodsByName pods) ∧
    (sortPodsByName pods).Perm pods ∧
    (∀ pods1 : List Pod, pods1.Perm pods → (pods.map fun p => p.Name).Nodup →
      sortPodsByName pods1 = sortPodsByName pods) ∧
    (∀ podExecutor execPod status execBaseContainerID,
      env.Create (tr ++ [Op.Generate 10]) ctx pc
        (NewPrivilegedPod (generatedPodName env r tr) "kube-system" imageName nodeName
          [(env.LabelInstanceID, r.InstanceID)]) = Except.ok podExecutor →
      env.Get (tr ++ [Op.Generate 10,
          Op.Create ctx pc (NewPrivilegedPod (generatedPodName env r tr) "kube-system"
            imageName nodeName [(env.LabelInstanceID, r.InstanceID)])])
        ctx c (generatedPodName env r tr) "kube-system" = Except.ok execPod →
      execPod.ContainerStatuses[0]? = some status →
      (Split status.ContainerID "//")[1]? = some execBaseContainerID →
      r.Logger ≠ none →
      ∃ err,
        r.checkPods env ctx c pc pods replicaSets nodeName imageName
            expectedFilePermissionsMax target tr =
          (Outcome.returned
            (checkPodsBlocks env ctx
              ("/run/containerd/io.containerd.runtime.v2.task/k8s.io/" ++
                execBaseContainerID ++ "/rootfs")
              podExecutor replicaSets expectedFilePermissionsMax target
              (target.With [("name", generatedPodName env r tr),
                ("namespace", "kube-system"), ("kind", "Pod")])
              (sortPodsByName pods)
              (tr ++ [Op.Generate 10,
                Op.Create ctx pc (NewPrivilegedPod (generatedPodName env r tr) "kube-system"
                  imageName nodeName [(env.LabelInstanceID, r.InstanceID)]),
                Op.Get ctx c (generatedPodName env r tr) "kube-system"])).flatten,
           tr ++ [Op.Generate 10,
              Op.Create ctx pc (NewPrivilegedPod (generatedPodName env r tr) "kube-system"
                imageName nodeName [(env.LabelInstanceID, r.InstanceID)]),
              Op.Get ctx c (generatedPodName env r tr) "kube-system"] ++
            ((sortPodsByName pods).map fun pod =>
              Op.GetMountedFilesStats ctx
                ("/run/containerd/io.containerd.runtime.v2.task/k8s.io/" ++
                  execBaseContainerID ++ "/rootfs")
                podExecutor pod checkPodsExcludedSources) ++
            Op.Delete (Context.WithTimeout Context.Background 30) pc
              (generatedPodName env r tr) "kube-system" :: deleteLog err)) := by
  refine ⟨sortPodsByName_sorted pods, sortPodsByName_perm pods,
    fun pods1 hperm hnodup => sortPodsByName_eq_of_perm pods pods1 hperm hnodup, ?_⟩
  intro podExecutor execPod status execBaseContainerID hcreate hget hstatus hsplit hlogger
  rw [checkPods_inspects env r ctx c pc pods replicaSets nodeName imageName
    expectedFilePermissionsMax target tr podExecutor execPod status execBaseContainerID
    hcreate hget hstatus hsplit, defer_deferredDelete_logger _ _ _ _ _ _ hlogger,
    checkPodsLoop_eq_blocks]
  exact ⟨_, rfl⟩

/-- Witness of C13: the pods etcd-main-0 and apiserver-1, given in either
order, are inspected as apiserver-1, etcd-main-0, and the result of apiserver-1
comes first. -/
theorem C13_pods_inspected_in_name_order_witness :
    sortPodsByName [apiserverPod, etcdPod] = sortPodsByName [etcdPod, apiserverPod] ∧
    sortPodsByName [etcdPod, apiserverPod] = [apiserverPod, etcdPod] ∧
    (∃ err,
      scenarioRule.checkPods scenario scenarioCtx ⟨"seed"⟩ ⟨"seed"⟩ [etcdPod, apiserverPod] []
          "seed-node-a" "diki-ops:v1" "644" [("cluster", "seed")] [] =
        (Outcome.returned
          [⟨Status.Failed, "File has too wide permissions",
            [("cluster", "seed"), ("containerName", "main"), ("name", "apiserver-1"),
              ("namespace", "shoot--foo"), ("kind", "Pod"),
              ("details",
                "fileName: /pki/ca.crt, permissions: 664, expectedPermissionsMax: 644")]⟩,
           ⟨Status.Failed, "File has too wide permissions",
            [("cluster", "seed"), ("containerName", "main"), ("name", "etcd-main-0"),
              ("namespace", "shoot--foo"), ("kind", "Pod"),
              ("details",
                "fileName: /pki/ca.crt, permissions: 664, expectedPermissionsMax: 644")]⟩],
         [Op.Generate 10,
          Op.Create scenarioCtx ⟨"seed"⟩ ⟨"diki-242466-abcdefghij", "kube-system",
            "diki-ops:v1", "seed-node-a", [("instanceID", "run-1")]⟩,
          Op.Get scenarioCtx ⟨"seed"⟩ "diki-242466-abcdefghij" "kube-system",
          Op.GetMountedFilesStats scenarioCtx
            "/run/containerd/io.containerd.runtime.v2.task/k8s.io/0a1b/rootfs"
            ⟨"diki-242466-abcdefghij"⟩ apiserverPod checkPodsExcludedSources,
          Op.GetMountedFilesStats scenarioCtx
            "/run/containerd/io.containerd.runtime.v2.task/k8s.io/0a1b/rootfs"
            ⟨"diki-242466-abcdefghij"⟩ etcdPod checkPodsExcludedSources,
          Op.Delete (Context.WithTimeout Context.Background 30) ⟨"seed"⟩
            "diki-242466-abcdefghij" "kube-system"] ++ deleteLog err)) := by
  have h := C13_pods_inspected_in_name_order scenario scenarioRule scenarioCtx ⟨"seed"⟩
    ⟨"seed"⟩ [etcdPod, apiserverPod] [] "seed-node-a" "diki-ops:v1" "644" [("cluster", "seed")]
    []
  refine ⟨h.2.2.1 [apiserverPod, etcdPod] (List.Perm.swap _ _ _) (by decide), by decide, ?_⟩
  obtain ⟨err, he⟩ := h.2.2.2 ⟨"diki-242466-abcdefghij"⟩
    { Name := "diki-242466-abcdefghij", Namespace := "kube-system", NodeName := "",
      Labels := [], ContainerStatuses := [⟨"containerd://0a1b"⟩] }
    ⟨"containerd://0a1b"⟩ "0a1b" rfl rfl rfl (by decide) (by decide)
  exact ⟨err, he⟩

/-! ## C16: rule 242421 -/

/-- C16: `Rule242421.Run` makes one call, `GetCommandOptionFromDeployment` for
the option root-ca-file, and returns a nil error and exactly one check result
at the target name=<deployment name>, namespace=<Namespace>, kind=Deployment:
Errored with the text of the error if the call fails, Failed "Option
root-ca-file has not been set." for no value, Warning "Option root-ca-file has
been set more than once in container command." for more than one value, Failed
"Option root-ca-file is empty." for one value that is blank once trimmed, and
Passed "Option root-ca-file set." for any other single value.  The five cases
cover every answer of the call. -/
theorem C16_root_ca_file_option (env : SharedEnv) (r : Rule242421) (ctx : Context)
    (tr : Trace) (deploymentName containerName : String)
    (hdeployment : deploymentName =
      if r.DeploymentName != "" then r.DeploymentName else "kube-controller-manager")
    (hcontainer : containerName =
      if r.ContainerName != "" then r.ContainerName else "kube-controller-manager") :
    (∀ err,
      env.GetCommandOptionFromDeployment tr ctx r.Client deploymentName containerName
        r.Namespace "root-ca-file" = Except.error err →
      r.Run env ctx tr =
        (Outcome.returned (r.Result env [⟨Status.Errored, err,
          [("name", deploymentName), ("namespace", r.Namespace), ("kind", "Deployment")]⟩],
          none),
         tr ++ [Op.GetCommandOptionFromDeployment ctx r.Client deploymentName containerName
           r.Namespace "root-ca-file"])) ∧
    (env.GetCommandOptionFromDeployment tr ctx r.Client deploymentName containerName
        r.Namespace "root-ca-file" = Except.ok [] →
      r.Run env ctx tr =
        (Outcome.returned (r.Result env [⟨Status.Failed,
          "Option root-ca-file has not been set.",
          [("name", deploymentName), ("namespace", r.Namespace), ("kind", "Deployment")]⟩],
          none),
         tr ++ [Op.GetCommandOptionFromDeployment ctx r.Client deploymentName containerName
           r.Namespace "root-ca-file"])) ∧
    (∀ value1 value2 rest,
      env.GetCommandOptionFromDeployment tr ctx r.Client deploymentName containerName
        r.Namespace "root-ca-file" = Except.ok (value1 :: value2 :: rest) →
      r.Run env ctx tr =
        (Outcome.returned (r.Result env [⟨Status.Warning,
          "Option root-ca-file has been set more than once in container command.",
          [("name", deploymentName), ("namespace", r.Namespace), ("kind", "Deployment")]⟩],
          none),
         tr ++ [Op.GetCommandOptionFromDeployment ctx r.Client deploymentName containerName
           r.Namespace "root-ca-file"])) ∧
    (∀ value,
      env.GetCommandOptionFromDeployment tr ctx r.Client deploymentName containerName
        r.Namespace "root-ca-file" = Except.ok [value] →
      TrimSpace value = "" →
      r.Run env ctx tr =
        (Outcome.returned (r.Result env [⟨Status.Failed, "Option root-ca-file is empty.",
          [("name", deploymentName), ("namespace", r.Namespace), ("kind", "Deployment")]⟩],
          none),
         tr ++ [Op.GetCommandOptionFromDeployment ctx r.Client deploymentName containerName
           r.Namespace "root-ca-file"])) ∧
    (∀ value,
      env.GetCommandOptionFromDeployment tr ctx r.Client deploymentName containerName
        r.Namespace "root-ca-file" = Except.ok [value] →
      TrimSpace value ≠ "" →
      r.Run env ctx tr =
        (Outcome.returned (r.Result env [⟨Status.Passed, "Option root-ca-file set.",
          [("name", deploymentName), ("namespace", r.Namespace), ("kind", "Deployment")]⟩],
          none),
         tr ++ [Op.GetCommandOptionFromDeployment ctx r.Client deploymentName containerName
           r.Namespace "root-ca-file"])) := by
  subst hdeployment hcontainer
  refine ⟨?_, ?_, ?_, ?_, ?_⟩
  · intro err h
    simp only [Rule242421.Run, Prog.bind_apply, Prog.call_apply, h]
    rfl
  · intro h
    simp only [Rule242421.Run, Prog.bind_apply, Prog.call_apply, h]
    rfl
  · intro value1 value2 rest h
    simp only [Rule242421.Run, Prog.bind_apply, Prog.call_apply, h]
    simp [Prog.pure_apply, NewTarget, WarningCheckResult]
  · intro value h hblank
    simp only [Rule242421.Run, Prog.bind_apply, Prog.call_apply, h]
    simp [Prog.pure_apply, NewTarget, FailedCheckResult, hblank]
  · intro value h hblank
    simp only [Rule242421.Run, Prog.bind_apply, Prog.call_apply, h]
    simp [Prog.pure_apply, NewTarget, PassedCheckResult, hblank]

/-- Witness of C16: the five answers of the option lookup, one for each
container name of `sharedScenario`. -/
theorem C16_root_ca_file_option_witness :
    (Rule242421.Run sharedScenario ⟨⟨"seed"⟩, "shoot--foo", "", "absent"⟩ scenarioCtx []).1 =
      Outcome.returned (⟨"242421",
        "Kubernetes Controller Manager must have the SSL Certificate Authority set.", "Medium",
        [⟨Status.Errored, "deployment does not contain container",
          [("name", "kube-controller-manager"), ("namespace", "shoot--foo"),
            ("kind", "Deployment")]⟩]⟩, none) ∧
    (Rule242421.Run sharedScenario ⟨⟨"seed"⟩, "shoot--foo", "", "unset"⟩ scenarioCtx []).1 =
      Outcome.returned (⟨"242421",
        "Kubernetes Controller Manager must have the SSL Certificate Authority set.", "Medium",
        [⟨Status.Failed, "Option root-ca-file has not been set.",
          [("name", "kube-controller-manager"), ("namespace", "shoot--foo"),
            ("kind", "Deployment")]⟩]⟩, none) ∧
    (Rule242421.Run sharedScenario ⟨⟨"seed"⟩, "shoot--foo", "kcm", "twice"⟩ scenarioCtx []).1 =
      Outcome.returned (⟨"242421",
        "Kubernetes Controller Manager must have the SSL Certificate Authority set.", "Medium",
        [⟨Status.Warning,
          "Option root-ca-file has been set more than once in container command.",
          [("name", "kcm"), ("namespace", "shoot--foo"), ("kind", "Deployment")]⟩]⟩, none) ∧
    (Rule242421.Run sharedScenario ⟨⟨"seed"⟩, "shoot--foo", "kcm", "blank"⟩ scenarioCtx []).1 =
      Outcome.returned (⟨"242421",
        "Kubernetes Controller Manager must have the SSL Certificate Authority set.", "Medium",
        [⟨Status.Failed, "Option root-ca-file is empty.",
          [("name", "kcm"), ("namespace", "shoot--foo"), ("kind", "Deployment")]⟩]⟩, none) ∧
    (Rule242421.Run sharedScenario ⟨⟨"seed"⟩, "shoot--foo", "kcm", ""⟩ scenarioCtx []).1 =
      Outcome.returned (⟨"242421",
        "Kubernetes Controller Manager must have the SSL Certificate Authority set.", "Medium",
        [⟨Status.Passed, "Option root-ca-file set.",
          [("name", "kcm"), ("namespace", "shoot--foo"), ("kind", "Deployment")]⟩]⟩, none) :=
  ⟨congrArg Prod.fst
      ((C16_root_ca_file_option sharedScenario ⟨⟨"seed"⟩, "shoot--foo", "", "absent"⟩
        scenarioCtx [] "kube-controller-manager" "absent" rfl rfl).1
        "deployment does not contain container" rfl),
   congrArg Prod.fst
      ((C16_root_ca_file_option sharedScenario ⟨⟨"seed"⟩, "shoot--foo", "", "unset"⟩
        scenarioCtx [] "kube-controller-manager" "unset" rfl rfl).2.1 rfl),
   congrArg Prod.fst
      ((C16_root_ca_file_option sharedScenario ⟨⟨"seed"⟩, "shoot--foo", "kcm", "twice"⟩
        scenarioCtx [] "kcm" "twice" rfl rfl).2.2.1 "/ca-1.crt" "/ca-2.crt" [] rfl),
   congrArg Prod.fst
      ((C16_root_ca_file_option sharedScenario ⟨⟨"seed"⟩, "shoot--foo", "kcm", "blank"⟩
        scenarioCtx [] "kcm" "blank" rfl rfl).2.2.2.1 "  " rfl (by decide)),
   congrArg Prod.fst
      ((C16_root_ca_file_option sharedScenario ⟨⟨"seed"⟩, "shoot--foo", "kcm", ""⟩
        scenarioCtx [] "kcm" "kube-controller-manager" rfl rfl).2.2.2.2
        "/srv/kubernetes/ca/ca.crt" rfl (by decide))⟩

/-! ## C20 and C19: rule 242379 -/

/-- C20: `checkStatefulSet` returns Errored, with the text of the error or the
message about the missing volume, when the stateful set cannot be fetched, has
no volume "etcd-config-file", or its configuration cannot be read or parsed;
once the configuration is parsed it returns Warning when `auto-tls` is absent,
Failed when it is true and Passed when it is false.  So Passed is returned
only for a parsed configuration with `auto-tls: false`. -/
theorem C20_auto_tls_of_stateful_set (env : SharedEnv) (r : Rule242379) (ctx : Context)
    (statefulSetName : String) (tr : Trace) :
    (∀ err,
      env.GetStatefulSet tr ctx r.Client statefulSetName r.Namespace = Except.error err →
      r.checkStatefulSet env ctx statefulSetName tr =
        (Outcome.returned ⟨Status.Errored, err,
          TargetWithK8sObject (NewTarget []) "StatefulSet" statefulSetName r.Namespace⟩,
         tr ++ [Op.GetStatefulSet ctx r.Client statefulSetName r.Namespace])) ∧
    (∀ statefulSet,
      env.GetStatefulSet tr ctx r.Client statefulSetName r.Namespace =
        Except.ok statefulSet →
      env.GetVolumeFromStatefulSet statefulSet "etcd-config-file" = none →
      r.checkStatefulSet env ctx statefulSetName tr =
        (Outcome.returned ⟨Status.Errored,
          "StatefulSet does not contain volume with name: etcd-config-file.",
          TargetWithK8sObject (NewTarget []) "StatefulSet" statefulSetName r.Namespace⟩,
         tr ++ [Op.GetStatefulSet ctx r.Client statefulSetName r.Namespace])) ∧
    (∀ statefulSet volume,
      env.GetStatefulSet tr ctx r.Client statefulSetName r.Namespace =
        Except.ok statefulSet →
      env.GetVolumeFromStatefulSet statefulSet "etcd-config-file" = some volume →
      (∀ err,
        env.GetFileDataFromVolume
          (tr ++ [Op.GetStatefulSet ctx r.Client statefulSetName r.Namespace]) ctx r.Client
          r.Namespace volume "etcd.conf.yaml" = Except.error err →
        r.checkStatefulSet env ctx statefulSetName tr =
          (Outcome.returned ⟨Status.Errored, err,
            TargetWithK8sObject (NewTarget []) "StatefulSet" statefulSetName r.Namespace⟩,
           tr ++ [Op.GetStatefulSet ctx r.Client statefulSetName r.Namespace,
             Op.GetFileDataFromVolume ctx r.Client r.Namespace volume "etcd.conf.yaml"])) ∧
      (∀ configByteSlice,
        env.GetFileDataFromVolume
          (tr ++ [Op.GetStatefulSet ctx r.Client statefulSetName r.Namespace]) ctx r.Client
          r.Namespace volume "etcd.conf.yaml" = Except.ok configByteSlice →
        (∀ err, env.Unmarshal configByteSlice = Except.error err →
          r.checkStatefulSet env ctx statefulSetName tr =
            (Outcome.returned ⟨Status.Errored, err,
              TargetWithK8sObject (NewTarget []) "StatefulSet" statefulSetName r.Namespace⟩,
             tr ++ [Op.GetStatefulSet ctx r.Client statefulSetName r.Namespace,
               Op.GetFileDataFromVolume ctx r.Client r.Namespace volume
                 "etcd.conf.yaml"])) ∧
        (∀ config, env.Unmarshal configByteSlice = Except.ok config →
          (config.ClientTransportSecurity.AutoTLS = none →
            r.checkStatefulSet env ctx statefulSetName tr =
              (Outcome.returned ⟨Status.Warning,
                "Option client-transport-security.auto-tls has not been set.",
                TargetWithK8sObject (NewTarget []) "StatefulSet" statefulSetName
                  r.Namespace⟩,
               tr ++ [Op.GetStatefulSet ctx r.Client statefulSetName r.Namespace,
                 Op.GetFileDataFromVolume ctx r.Client r.Namespace volume
                   "etcd.conf.yaml"])) ∧
          (config.ClientTransportSecurity.AutoTLS = some true →
            r.checkStatefulSet env ctx statefulSetName tr =
              (Outcome.returned ⟨Status.Failed,
                "Option client-transport-security.auto-tls set to not allowed value.",
                TargetWithK8sObject (NewTarget []) "StatefulSet" statefulSetName
                  r.Namespace⟩,
               tr ++ [Op.GetStatefulSet ctx r.Client statefulSetName r.Namespace,
                 Op.GetFileDataFromVolume ctx r.Client r.Namespace volume
                   "etcd.conf.yaml"])) ∧
          (config.ClientTransportSecurity.AutoTLS = some false →
            r.checkStatefulSet env ctx statefulSetName tr =
              (Outcome.returned ⟨Status.Passed,
                "Option client-transport-security.auto-tls set to allowed value.",
                TargetWithK8sObject (NewTarget []) "StatefulSet" statefulSetName
                  r.Namespace⟩,
               tr ++ [Op.GetStatefulSet ctx r.Client statefulSetName r.Namespace,
                 Op.GetFileDataFromVolume ctx r.Client r.Namespace volume
                   "etcd.conf.yaml"]))))) := by
  refine ⟨?_, ?_, ?_⟩
  · intro err h
    simp [Rule242379.checkStatefulSet, Prog.bind_apply, Prog.call_apply, Prog.pure_apply, h,
      ErroredCheckResult]
  · intro statefulSet h hvolume
    simp [Rule242379.checkStatefulSet, Prog.bind_apply, Prog.call_apply, Prog.pure_apply, h,
      hvolume, ErroredCheckResult]
  · intro statefulSet volume h hvolume
    refine ⟨?_, ?_⟩
    · intro err hdata
      simp [Rule242379.checkStatefulSet, Prog.bind_apply, Prog.call_apply, Prog.pure_apply, h,
        hvolume, hdata, ErroredCheckResult]
    · intro configByteSlice hdata
      refine ⟨?_, ?_⟩
      · intro err hyaml
        simp [Rule242379.checkStatefulSet, Prog.bind_apply, Prog.call_apply, Prog.pure_apply,
          h, hvolume, hdata, hyaml, ErroredCheckResult]
      · intro config hyaml
        refine ⟨?_, ?_, ?_⟩
        · intro hauto
          simp [Rule242379.checkStatefulSet, Prog.bind_apply, Prog.call_apply,
            Prog.pure_apply, h, hvolume, hdata, hyaml, hauto, WarningCheckResult]
        · intro hauto
          simp [Rule242379.checkStatefulSet, Prog.bind_apply, Prog.call_apply,
            Prog.pure_apply, h, hvolume, hdata, hyaml, hauto, FailedCheckResult]
        · intro hauto
          simp [Rule242379.checkStatefulSet, Prog.bind_apply, Prog.call_apply,
            Prog.pure_apply, h, hvolume, hdata, hyaml, hauto, PassedCheckResult]

/-- `checkStatefulSet` always returns, and the target of its result is that of
the stateful set it was asked about. -/
theorem checkStatefulSet_returns (env : SharedEnv) (r : Rule242379) (ctx : Context)
    (statefulSetName : String) (tr : Trace) :
    ∃ result tr1, r.checkStatefulSet env ctx statefulSetName tr =
        (Outcome.returned result, tr1) ∧
      result.Target =
        [("name", statefulSetName), ("namespace", r.Namespace), ("kind", "StatefulSet")] := by
  simp only [Rule242379.checkStatefulSet, Prog.bind_apply, Prog.call_apply]
  cases env.GetStatefulSet tr ctx r.Client statefulSetName r.Namespace with
  | error err => exact ⟨_, _, rfl, rfl⟩
  | ok statefulSet =>
    simp only []
    cases env.GetVolumeFromStatefulSet statefulSet "etcd-config-file" with
    | none => exact ⟨_, _, rfl, rfl⟩
    | some volume =>
      simp only [Prog.bind_apply, Prog.call_apply]
      cases env.GetFileDataFromVolume
          (tr ++ [Op.GetStatefulSet ctx r.Client statefulSetName r.Namespace]) ctx r.Client
          r.Namespace volume "etcd.conf.yaml" with
      | error err => exact ⟨_, _, rfl, rfl⟩
      | ok configByteSlice =>
        simp only []
        cases env.Unmarshal configByteSlice with
        | error err => exact ⟨_, _, rfl, rfl⟩
        | ok config =>
          simp only []
          rcases config with ⟨⟨autoTLS, clientCertAuth⟩, peer⟩
          cases autoTLS with
          | none => exact ⟨_, _, rfl, rfl⟩
          | some b => cases b <;> exact ⟨_, _, rfl, rfl⟩

/-- C19: `Rule242379.Run` checks the stateful set etcd-main (or
`StatefulSetETCDMain` when that is not empty), then etcd-events (or
`StatefulSetETCDEvents`), whatever the first check gave, and returns a nil
error and exactly the two results, in this order, each with the target
name=<stateful set name>, namespace=<Namespace>, kind=StatefulSet.  The second
result is what `checkStatefulSet` gives for the second name after the calls of
the first check: it does not depend on the first result. -/
theorem C19_two_stateful_set_results (env : SharedEnv) (r : Rule242379) (ctx : Context)
    (tr : Trace) :
    ∃ first second tr1 tr2,
      r.checkStatefulSet env ctx
          (if r.StatefulSetETCDMain != "" then r.StatefulSetETCDMain else "etcd-main") tr =
        (Outcome.returned first, tr1) ∧
      r.checkStatefulSet env ctx
          (if r.StatefulSetETCDEvents != "" then r.StatefulSetETCDEvents else "etcd-events")
          tr1 = (Outcome.returned second, tr2) ∧
      r.Run env ctx tr = (Outcome.returned (r.Result env [first, second], none), tr2) ∧
      first.Target =
        [("name", if r.StatefulSetETCDMain != "" then r.StatefulSetETCDMain else "etcd-main"),
          ("namespace", r.Namespace), ("kind", "StatefulSet")] ∧
      second.Target =
        [("name",
            if r.StatefulSetETCDEvents != "" then r.StatefulSetETCDEvents else "etcd-events"),
          ("namespace", r.Namespace), ("kind", "StatefulSet")] := by
  obtain ⟨first, tr1, h1, ht1⟩ := checkStatefulSet_returns env r ctx
    (if r.StatefulSetETCDMain != "" then r.StatefulSetETCDMain else "etcd-main") tr
  obtain ⟨second, tr2, h2, ht2⟩ := checkStatefulSet_returns env r ctx
    (if r.StatefulSetETCDEvents != "" then r.StatefulSetETCDEvents else "etcd-events") tr1
  refine ⟨first, second, tr1, tr2, h1, h2, ?_, ht1, ht2⟩
  simp only [Rule242379.Run, Prog.bind_apply, h1, h2]
  rfl

/-- Witness of C20: the seven stateful sets of `sharedScenario`, one for each
case. -/
theorem C20_auto_tls_of_stateful_set_witness :
    (Rule242379.checkStatefulSet sharedScenario ⟨⟨"seed"⟩, "shoot--foo", "", ""⟩ scenarioCtx
        "etcd-events" []).1 =
      Outcome.returned ⟨Status.Errored, "statefulsets etcd-events not found",
        [("name", "etcd-events"), ("namespace", "shoot--foo"), ("kind", "StatefulSet")]⟩ ∧
    (Rule242379.checkStatefulSet sharedScenario ⟨⟨"seed"⟩, "shoot--foo", "", ""⟩ scenarioCtx
        "etcd-bare" []).1 =
      Outcome.returned ⟨Status.Errored, "StatefulSet does not contain volume with name: etcd-config-file.",
        [("name", "etcd-bare"), ("namespace", "shoot--foo"), ("kind", "StatefulSet")]⟩ ∧
    (Rule242379.checkStatefulSet sharedScenario ⟨⟨"seed"⟩, "shoot--foo", "", ""⟩ scenarioCtx
        "etcd-secretless" []).1 =
      Outcome.returned ⟨Status.Errored, "secret not found",
        [("name", "etcd-secretless"), ("namespace", "shoot--foo"), ("kind", "StatefulSet")]⟩ ∧
    (Rule242379.checkStatefulSet sharedScenario ⟨⟨"seed"⟩, "shoot--foo", "", ""⟩ scenarioCtx
        "broken" []).1 =
      Outcome.returned ⟨Status.Errored, "yaml: unmarshal errors",
        [("name", "broken"), ("namespace", "shoot--foo"), ("kind", "StatefulSet")]⟩ ∧
    (Rule242379.checkStatefulSet sharedScenario ⟨⟨"seed"⟩, "shoot--foo", "", ""⟩ scenarioCtx
        "unset" []).1 =
      Outcome.returned ⟨Status.Warning, "Option client-transport-security.auto-tls has not been set.",
        [("name", "unset"), ("namespace", "shoot--foo"), ("kind", "StatefulSet")]⟩ ∧
    (Rule242379.checkStatefulSet sharedScenario ⟨⟨"seed"⟩, "shoot--foo", "", ""⟩ scenarioCtx
        "auto" []).1 =
      Outcome.returned ⟨Status.Failed, "Option client-transport-security.auto-tls set to not allowed value.",
        [("name", "auto"), ("namespace", "shoot--foo"), ("kind", "StatefulSet")]⟩ ∧
    (Rule242379.checkStatefulSet sharedScenario ⟨⟨"seed"⟩, "shoot--foo", "", ""⟩ scenarioCtx
        "etcd-main" []).1 =
      Outcome.returned ⟨Status.Passed, "Option client-transport-security.auto-tls set to allowed value.",
        [("name", "etcd-main"), ("namespace", "shoot--foo"), ("kind", "StatefulSet")]⟩ :=
  ⟨congrArg Prod.fst
      ((C20_auto_tls_of_stateful_set sharedScenario ⟨⟨"seed"⟩, "shoot--foo", "", ""⟩ scenarioCtx
        "etcd-events" []).1 "statefulsets etcd-events not found" rfl),
   congrArg Prod.fst
      ((C20_auto_tls_of_stateful_set sharedScenario ⟨⟨"seed"⟩, "shoot--foo", "", ""⟩ scenarioCtx
        "etcd-bare" []).2.1 ⟨"etcd-bare", "shoot--foo", []⟩ rfl rfl),
   congrArg Prod.fst
      (((C20_auto_tls_of_stateful_set sharedScenario ⟨⟨"seed"⟩, "shoot--foo", "", ""⟩ scenarioCtx
        "etcd-secretless" []).2.2 ⟨"etcd-secretless", "shoot--foo", [⟨"etcd-config-file", "etcd-secretless"⟩]⟩
        ⟨"etcd-config-file", "etcd-secretless"⟩ rfl rfl).1 "secret not found" rfl),
   congrArg Prod.fst
      ((((C20_auto_tls_of_stateful_set sharedScenario ⟨⟨"seed"⟩, "shoot--foo", "", ""⟩ scenarioCtx
        "broken" []).2.2 ⟨"broken", "shoot--foo", [⟨"etcd-config-file", "broken"⟩]⟩
        ⟨"etcd-config-file", "broken"⟩ rfl rfl).2 "broken" rfl).1 "yaml: unmarshal errors" rfl),
   congrArg Prod.fst
      (((((C20_auto_tls_of_stateful_set sharedScenario ⟨⟨"seed"⟩, "shoot--foo", "", ""⟩ scenarioCtx
        "unset" []).2.2 ⟨"unset", "shoot--foo", [⟨"etcd-config-file", "unset"⟩]⟩
        ⟨"etcd-config-file", "unset"⟩ rfl rfl).2 "unset" rfl).2 ⟨⟨none, none⟩, ⟨none, none⟩⟩ rfl).1 rfl),
   congrArg Prod.fst
      (((((C20_auto_tls_of_stateful_set sharedScenario ⟨⟨"seed"⟩, "shoot--foo", "", ""⟩ scenarioCtx
        "auto" []).2.2 ⟨"auto", "shoot--foo", [⟨"etcd-config-file", "auto"⟩]⟩
        ⟨"etcd-config-file", "auto"⟩ rfl rfl).2 "auto" rfl).2 ⟨⟨some true, none⟩, ⟨none, none⟩⟩ rfl).2.1 rfl),
   congrArg Prod.fst
      (((((C20_auto_tls_of_stateful_set sharedScenario ⟨⟨"seed"⟩, "shoot--foo", "", ""⟩ scenarioCtx
        "etcd-main" []).2.2 ⟨"etcd-main", "shoot--foo", [⟨"etcd-config-file", "etcd-main"⟩]⟩
        ⟨"etcd-config-file", "etcd-main"⟩ rfl rfl).2 "etcd-main" rfl).2 ⟨⟨some false, none⟩, ⟨none, none⟩⟩ rfl).2.2 rfl)⟩

/-! ## C17: the flag cert-dir given more than once -/

/-- C17 as stated fails: for a kubelet started with `cert-dir` given twice,
`checkKubelet` returns one result whose status is Errored, not Warning, at the
target of the diagnostic pod. -/
theorem C17_cert_dir_twice_is_errored :
    (scenarioRule.checkKubelet scenarioCertDirTwice scenarioCtx "shoot-node-a" "diki-ops:v1"
        "644" [("cluster", "shoot")] []).1 =
      Outcome.returned [⟨Status.Errored, "kubelet cert-dir flag has been set more than once",
        [("cluster", "shoot"), ("name", "diki-242466-abcdefghij"),
          ("namespace", "kube-system"), ("kind", "Pod")]⟩] ∧
    ∀ results,
      (scenarioRule.checkKubelet scenarioCertDirTwice scenarioCtx "shoot-node-a" "diki-ops:v1"
        "644" [("cluster", "shoot")] []).1 = Outcome.returned results →
      ∀ result ∈ results, result.Status ≠ Status.Warning := by
  have h : (scenarioRule.checkKubelet scenarioCertDirTwice scenarioCtx "shoot-node-a"
      "diki-ops:v1" "644" [("cluster", "shoot")] []).1 =
      Outcome.returned [⟨Status.Errored, "kubelet cert-dir flag has been set more than once",
        [("cluster", "shoot"), ("name", "diki-242466-abcdefghij"),
          ("namespace", "kube-system"), ("kind", "Pod")]⟩] := by decide
  refine ⟨h, ?_⟩
  intro results hresults result hmem
  rw [h] at hresults
  simp only [Outcome.returned.injEq] at hresults
  subst hresults
  simp only [List.mem_singleton] at hmem
  subst hmem
  decide

/-- C17, amended: when the kubelet configuration does not set both
`tlsPrivateKeyFile` and `tlsCertFile` and the kubelet command sets the flag
`cert-dir` more than once, `checkKubelet` of a rule whose `Logger` is set
returns exactly one result, with
status Errored and message "kubelet cert-dir flag has been set more than once",
at the target of the diagnostic pod; no file is listed or inspected. -/
theorem C17_cert_dir_more_than_once_errored (env : Env) (r : Rule242466) (ctx : Context)
    (nodeName imageName : String) (expectedFilePermissionsMax : String) (target : Target)
    (tr : Trace) (podExecutor : PodExecutor) (rawKubeletCommand : String)
    (kubeletConfig : KubeletConfig)
    (hcreate : env.Create (tr ++ [Op.Generate 10]) ctx r.ClusterPodContext
        (NewPrivilegedPod (generatedPodName env r tr) "kube-system" imageName nodeName
          [(env.LabelInstanceID, r.InstanceID)]) = Except.ok podExecutor)
    (hcommand : env.GetKubeletCommand
        (tr ++ [Op.Generate 10,
          Op.Create ctx r.ClusterPodContext (NewPrivilegedPod (generatedPodName env r tr)
            "kube-system" imageName nodeName [(env.LabelInstanceID, r.InstanceID)])])
        ctx podExecutor = Except.ok rawKubeletCommand)
    (hlen : len rawKubeletCommand ≠ 0)
    (hconfig : env.GetKubeletConfig
        (tr ++ [Op.Generate 10,
          Op.Create ctx r.ClusterPodContext (NewPrivilegedPod (generatedPodName env r tr)
            "kube-system" imageName nodeName [(env.LabelInstanceID, r.InstanceID)]),
          Op.GetKubeletCommand ctx podExecutor])
        ctx podExecutor rawKubeletCommand = Except.ok kubeletConfig)
    (htls : kubeletConfig.TLSPrivateKeyFile = none ∨ kubeletConfig.TLSCertFile = none)
    (hflag : env.IsFlagSet rawKubeletCommand "cert-dir" = true)
    (htwice : 1 < (env.FindFlagValueRaw (Split rawKubeletCommand " ") "cert-dir").length)
    (hlogger : r.Logger ≠ none) :
    ∃ err,
      r.checkKubelet env ctx nodeName imageName expectedFilePermissionsMax target tr =
        (Outcome.returned [⟨Status.Errored,
            "kubelet cert-dir flag has been set more than once",
            target.With [("name", generatedPodName env r tr), ("namespace", "kube-system"),
              ("kind", "Pod")]⟩],
         tr ++ [Op.Generate 10,
            Op.Create ctx r.ClusterPodContext (NewPrivilegedPod (generatedPodName env r tr)
              "kube-system" imageName nodeName [(env.LabelInstanceID, r.InstanceID)]),
            Op.GetKubeletCommand ctx podExecutor,
            Op.GetKubeletConfig ctx podExecutor rawKubeletCommand] ++
            Op.Delete (Context.WithTimeout Context.Background 30) r.ClusterPodContext
              (generatedPodName env r tr) "kube-system" :: deleteLog err) := by
  rw [checkKubelet_apply, defer_deferredDelete_logger _ _ _ _ _ _ hlogger]
  rcases kubeletConfig with ⟨key, cert⟩
  have hbody : checkKubeletBody env r ctx nodeName imageName expectedFilePermissionsMax
      (generatedPodName env r tr) (target.With [("name", nodeName), ("kind", "Node")])
      (target.With [("name", generatedPodName env r tr), ("namespace", "kube-system"),
        ("kind", "Pod")])
      [(env.LabelInstanceID, r.InstanceID)] (tr ++ [Op.Generate 10]) =
      (Outcome.returned [⟨Status.Errored,
          "kubelet cert-dir flag has been set more than once",
          target.With [("name", generatedPodName env r tr), ("namespace", "kube-system"),
            ("kind", "Pod")]⟩],
       tr ++ [Op.Generate 10,
          Op.Create ctx r.ClusterPodContext (NewPrivilegedPod (generatedPodName env r tr)
            "kube-system" imageName nodeName [(env.LabelInstanceID, r.InstanceID)]),
          Op.GetKubeletCommand ctx podExecutor,
          Op.GetKubeletConfig ctx podExecutor rawKubeletCommand]) := by
    simp only at htls
    rcases htls with h | h <;> subst h <;>
      simp [checkKubeletBody, Prog.bind_apply, Prog.call_apply, Prog.pure_apply, hcreate,
        hcommand, hlen, hconfig, hflag, htwice, ErroredCheckResult]
  rw [hbody]
  exact ⟨_, rfl⟩

/-- Witness of the amended C17: the kubelet of `scenarioCertDirTwice`. -/
theorem C17_cert_dir_more_than_once_witness :
    ∃ err,
      scenarioRule.checkKubelet scenarioCertDirTwice scenarioCtx "shoot-node-a" "diki-ops:v1"
          "644" [("cluster", "shoot")] [] =
        (Outcome.returned [⟨Status.Errored,
            "kubelet cert-dir flag has been set more than once",
            [("cluster", "shoot"), ("name", "diki-242466-abcdefghij"),
              ("namespace", "kube-system"), ("kind", "Pod")]⟩],
         [Op.Generate 10,
            Op.Create scenarioCtx ⟨"shoot"⟩ ⟨"diki-242466-abcdefghij", "kube-system",
              "diki-ops:v1", "shoot-node-a", [("instanceID", "run-1")]⟩,
            Op.GetKubeletCommand scenarioCtx ⟨"diki-242466-abcdefghij"⟩,
            Op.GetKubeletConfig scenarioCtx ⟨"diki-242466-abcdefghij"⟩
              "kubelet --cert-dir=/a --cert-dir=/b",
            Op.Delete (Context.WithTimeout Context.Background 30) ⟨"shoot"⟩
              "diki-242466-abcdefghij" "kube-system"] ++ deleteLog err) :=
  C17_cert_dir_more_than_once_errored scenarioCertDirTwice scenarioRule scenarioCtx
    "shoot-node-a" "diki-ops:v1" "644" [("cluster", "shoot")] []
    ⟨"diki-242466-abcdefghij"⟩ "kubelet --cert-dir=/a --cert-dir=/b" ⟨none, none⟩
    rfl rfl (by decide) rfl (Or.inl rfl) rfl (by decide) (by decide)

/-! ## C21: the files that `checkKubelet` evaluates -/

theorem checkKubeletFile_append (env : Env) (expectedFilePermissionsMax : String)
    (nodeTarget : Target) (checkResults : List CheckResult) (fileStats : FileStats) :
    checkKubeletFile env expectedFilePermissionsMax nodeTarget checkResults fileStats =
      checkResults ++
        checkKubeletFile env expectedFilePermissionsMax nodeTarget [] fileStats := by
  unfold checkKubeletFile
  split <;> simp

theorem checkKubeletFile_singleton (env : Env) (expectedFilePermissionsMax : String)
    (nodeTarget : Target) (fileStats : FileStats) :
    ∃ result,
      checkKubeletFile env expectedFilePermissionsMax nodeTarget [] fileStats = [result] := by
  unfold checkKubeletFile
  split <;> exact ⟨_, List.nil_append _⟩

theorem checkKubeletFiles_foldl (env : Env) (expectedFilePermissionsMax : String)
    (nodeTarget : Target) (selectedFileStats : List FileStats) :
    ∀ checkResults,
      selectedFileStats.foldl (checkKubeletFile env expectedFilePermissionsMax nodeTarget)
          checkResults =
        checkResults ++ selectedFileStats.flatMap
          (checkKubeletFile env expectedFilePermissionsMax nodeTarget []) := by
  induction selectedFileStats with
  | nil => intro checkResults; simp
  | cons fileStats rest ih =>
    intro checkResults
    rw [List.foldl_cons, ih, checkKubeletFile_append, List.flatMap_cons, List.append_assoc]

theorem checkKubeletFiles_eq_flatMap (env : Env) (expectedFilePermissionsMax : String)
    (nodeTarget : Target) (selectedFileStats : List FileStats) :
    checkKubeletFiles env expectedFilePermissionsMax nodeTarget selectedFileStats =
      selectedFileStats.flatMap
        (checkKubeletFile env expectedFilePermissionsMax nodeTarget []) := by
  rw [checkKubeletFiles, checkKubeletFiles_foldl, List.nil_append]

theorem checkKubeletPKIDir_apply (env : Env) (ctx : Context) (podExecutor : PodExecutor)
    (expectedFilePermissionsMax : String) (nodeTarget execPodTarget : Target)
    (kubeletPKIDir : String) (tr : Trace) (pkiFilesStats : List FileStats)
    (hlist : env.GetFileStatsByDir tr ctx podExecutor kubeletPKIDir = Except.ok pkiFilesStats) :
    checkKubeletPKIDir env ctx podExecutor expectedFilePermissionsMax nodeTarget execPodTarget
        kubeletPKIDir tr =
      (Outcome.returned
        (if (pkiFilesStats.filter (fun pkiFileStat =>
              HasSuffix pkiFileStat.Path ".crt" || HasSuffix pkiFileStat.Path ".pem")).length = 0
         then [⟨Status.Errored, "no '.crt' files found in PKI directory",
            nodeTarget.With [("directory", kubeletPKIDir)]⟩]
         else (pkiFilesStats.filter (fun pkiFileStat =>
              HasSuffix pkiFileStat.Path ".crt" || HasSuffix pkiFileStat.Path ".pem")).flatMap
            (checkKubeletFile env expectedFilePermissionsMax nodeTarget [])),
       tr ++ [Op.GetFileStatsByDir ctx podExecutor kubeletPKIDir]) := by
  simp only [checkKubeletPKIDir, Prog.bind_apply, Prog.call_apply, hlist, beq_iff_eq,
    List.nil_append, checkKubeletFiles_eq_flatMap, ErroredCheckResult]
  split <;> rfl

/-- C21 as stated fails: in `scenarioCertDirBlank` the kubelet configuration
sets neither TLS file and the kubelet command sets `cert-dir` exactly once, to
the empty value. `checkKubelet` then lists no directory at all: it returns
exactly one Errored result, "kubelet cert-dir flag set to empty", at the target
of the diagnostic pod, and its record holds no `GetFileStatsByDir`. -/
theorem C21_blank_cert_dir_lists_nothing :
    scenarioCertDirBlank.GetKubeletConfig
        [Op.Generate 10,
          Op.Create scenarioCtx ⟨"shoot"⟩ ⟨"diki-242466-abcdefghij", "kube-system",
            "diki-ops:v1", "shoot-node-a", [("instanceID", "run-1")]⟩,
          Op.GetKubeletCommand scenarioCtx ⟨"diki-242466-abcdefghij"⟩]
        scenarioCtx ⟨"diki-242466-abcdefghij"⟩ "kubelet --cert-dir=" =
          Except.ok ⟨none, none⟩ ∧
    scenarioCertDirBlank.IsFlagSet "kubelet --cert-dir=" "cert-dir" = true ∧
    scenarioCertDirBlank.FindFlagValueRaw (Split "kubelet --cert-dir=" " ") "cert-dir" = [""] ∧
    scenarioRule.checkKubelet scenarioCertDirBlank scenarioCtx "shoot-node-a" "diki-ops:v1"
        "644" [("cluster", "shoot")] [] =
      (Outcome.returned [⟨Status.Errored, "kubelet cert-dir flag set to empty",
          [("cluster", "shoot"), ("name", "diki-242466-abcdefghij"),
            ("namespace", "kube-system"), ("kind", "Pod")]⟩],
       [Op.Generate 10,
          Op.Create scenarioCtx ⟨"shoot"⟩ ⟨"diki-242466-abcdefghij", "kube-system",
            "diki-ops:v1", "shoot-node-a", [("instanceID", "run-1")]⟩,
          Op.GetKubeletCommand scenarioCtx ⟨"diki-242466-abcdefghij"⟩,
          Op.GetKubeletConfig scenarioCtx ⟨"diki-242466-abcdefghij"⟩ "kubelet --cert-dir=",
          Op.Delete (Context.WithTimeout Context.Background 30) ⟨"shoot"⟩
            "diki-242466-abcdefghij" "kube-system"]) :=
  ⟨rfl, rfl, rfl, rfl⟩

/-- C21, amended: once the diagnostic pod is created and the kubelet command
(not empty) and configuration are read, `checkKubelet` of a rule whose `Logger`
is set chooses the files it evaluates as follows. If the configuration sets both `tlsPrivateKeyFile` and
`tlsCertFile`: an empty `tlsCertFile` yields exactly one Failed result at the
node target with no file inspected; otherwise only the stats of the
`tlsCertFile` path are read and, when that succeeds, evaluated. If the
configuration does not set both, the PKI directory is "/var/lib/kubelet/pki"
when the flag `cert-dir` is not set, and the single value of the flag trimmed of
white space when it is set once: a directory that is empty after trimming
yields exactly one Errored result at the target of the diagnostic pod with
nothing listed; otherwise the directory is listed once and, when that succeeds,
exactly the files whose path ends in ".crt" or ".pem" are evaluated, in the
order of the listing, with exactly one Errored result at the node target
extended with the directory when there is no such file. Each evaluated file
yields exactly one result. In every case the diagnostic pod is deleted last. -/
theorem C21_files_evaluated_by_checkKubelet (env : Env) (r : Rule242466) (ctx : Context)
    (nodeName imageName : String) (expectedFilePermissionsMax : String) (target : Target)
    (tr : Trace) (podExecutor : PodExecutor) (rawKubeletCommand : String)
    (kubeletConfig : KubeletConfig) (podName : String) (nodeTarget execPodTarget : Target)
    (log : Trace) (deleted : Op)
    (hname : podName = generatedPodName env r tr)
    (hnode : nodeTarget = target.With [("name", nodeName), ("kind", "Node")])
    (hexec : execPodTarget =
      target.With [("name", podName), ("namespace", "kube-system"), ("kind", "Pod")])
    (hlog : log = tr ++ [Op.Generate 10,
      Op.Create ctx r.ClusterPodContext (NewPrivilegedPod podName "kube-system" imageName
        nodeName [(env.LabelInstanceID, r.InstanceID)]),
      Op.GetKubeletCommand ctx podExecutor,
      Op.GetKubeletConfig ctx podExecutor rawKubeletCommand])
    (hdeleted : deleted = Op.Delete (Context.WithTimeout Context.Background 30)
      r.ClusterPodContext podName "kube-system")
    (hcreate : env.Create (tr ++ [Op.Generate 10]) ctx r.ClusterPodContext
        (NewPrivilegedPod podName "kube-system" imageName nodeName
          [(env.LabelInstanceID, r.InstanceID)]) = Except.ok podExecutor)
    (hcommand : env.GetKubeletCommand
        (tr ++ [Op.Generate 10,
          Op.Create ctx r.ClusterPodContext (NewPrivilegedPod podName "kube-system" imageName
            nodeName [(env.LabelInstanceID, r.InstanceID)])])
        ctx podExecutor = Except.ok rawKubeletCommand)
    (hlen : len rawKubeletCommand ≠ 0)
    (hconfig : env.GetKubeletConfig
        (tr ++ [Op.Generate 10,
          Op.Create ctx r.ClusterPodContext (NewPrivilegedPod podName "kube-system" imageName
            nodeName [(env.LabelInstanceID, r.InstanceID)]),
          Op.GetKubeletCommand ctx podExecutor])
        ctx podExecutor rawKubeletCommand = Except.ok kubeletConfig)
    (hlogger : r.Logger ≠ none) :
    (∀ tlsPrivateKeyFile tlsCertFile,
      kubeletConfig.TLSPrivateKeyFile = some tlsPrivateKeyFile →
      kubeletConfig.TLSCertFile = some tlsCertFile →
        (len tlsCertFile = 0 →
          ∃ err,
            r.checkKubelet env ctx nodeName imageName expectedFilePermissionsMax target tr =
              (Outcome.returned [⟨Status.Failed,
                  "could not find cert file, option tlsCertFile is empty.", nodeTarget⟩],
               log ++ deleted :: deleteLog err)) ∧
        (len tlsCertFile ≠ 0 →
          ∀ certFileStats,
            env.GetSingleFileStats log ctx podExecutor tlsCertFile = Except.ok certFileStats →
            ∃ err,
              r.checkKubelet env ctx nodeName imageName expectedFilePermissionsMax target tr =
                (Outcome.returned
                  (checkKubeletFile env expectedFilePermissionsMax nodeTarget [] certFileStats),
                 log ++ [Op.GetSingleFileStats ctx podExecutor tlsCertFile] ++
                   deleted :: deleteLog err))) ∧
    (kubeletConfig.TLSPrivateKeyFile = none ∨ kubeletConfig.TLSCertFile = none →
      ∀ kubeletPKIDir,
        (env.IsFlagSet rawKubeletCommand "cert-dir" = false ∧
            kubeletPKIDir = "/var/lib/kubelet/pki") ∨
          (env.IsFlagSet rawKubeletCommand "cert-dir" = true ∧
            ∃ value,
              env.FindFlagValueRaw (Split rawKubeletCommand " ") "cert-dir" = [value] ∧
              kubeletPKIDir = TrimSpace value) →
        (len kubeletPKIDir = 0 →
          ∃ err,
            r.checkKubelet env ctx nodeName imageName expectedFilePermissionsMax target tr =
              (Outcome.returned [⟨Status.Errored, "kubelet cert-dir flag set to empty",
                  execPodTarget⟩],
               log ++ deleted :: deleteLog err)) ∧
        (len kubeletPKIDir ≠ 0 →
          ∀ pkiFilesStats,
            env.GetFileStatsByDir log ctx podExecutor kubeletPKIDir = Except.ok pkiFilesStats →
            ∃ err,
              r.checkKubelet env ctx nodeName imageName expectedFilePermissionsMax target tr =
                (Outcome.returned
                  (if (pkiFilesStats.filter (fun pkiFileStat =>
                        HasSuffix pkiFileStat.Path ".crt" ||
                          HasSuffix pkiFileStat.Path ".pem")).length = 0
                   then [⟨Status.Errored, "no '.crt' files found in PKI directory",
                      nodeTarget.With [("directory", kubeletPKIDir)]⟩]
                   else (pkiFilesStats.filter (fun pkiFileStat =>
                        HasSuffix pkiFileStat.Path ".crt" ||
                          HasSuffix pkiFileStat.Path ".pem")).flatMap
                      (checkKubeletFile env expectedFilePermissionsMax nodeTarget [])),
                 log ++ [Op.GetFileStatsByDir ctx podExecutor kubeletPKIDir] ++
                   deleted :: deleteLog err))) ∧
    (∀ fileStats, ∃ result,
      checkKubeletFile env expectedFilePermissionsMax nodeTarget [] fileStats = [result]) := by
  subst hname hnode hexec hlog hdeleted
  rcases kubeletConfig with ⟨key, cert⟩
  refine ⟨?_, ?_, fun fileStats => checkKubeletFile_singleton _ _ _ fileStats⟩
  · intro tlsPrivateKeyFile tlsCertFile hkey hcert
    simp only at hkey hcert
    subst hkey hcert
    constructor
    · intro hempty
      rw [checkKubelet_apply, defer_deferredDelete_logger _ _ _ _ _ _ hlogger]
      have hbody : checkKubeletBody env r ctx nodeName imageName expectedFilePermissionsMax
          (generatedPodName env r tr) (target.With [("name", nodeName), ("kind", "Node")])
          (target.With [("name", generatedPodName env r tr), ("namespace", "kube-system"),
            ("kind", "Pod")])
          [(env.LabelInstanceID, r.InstanceID)] (tr ++ [Op.Generate 10]) =
          (Outcome.returned [⟨Status.Failed,
              "could not find cert file, option tlsCertFile is empty.",
              target.With [("name", nodeName), ("kind", "Node")]⟩],
           tr ++ [Op.Generate 10,
              Op.Create ctx r.ClusterPodContext (NewPrivilegedPod (generatedPodName env r tr)
                "kube-system" imageName nodeName [(env.LabelInstanceID, r.InstanceID)]),
              Op.GetKubeletCommand ctx podExecutor,
              Op.GetKubeletConfig ctx podExecutor rawKubeletCommand]) := by
        simp [checkKubeletBody, Prog.bind_apply, Prog.call_apply, Prog.pure_apply, hcreate,
          hcommand, hlen, hconfig, hempty, FailedCheckResult]
      rw [hbody]
      exact ⟨_, rfl⟩
    · intro hfull certFileStats hstats
      rw [checkKubelet_apply, defer_deferredDelete_logger _ _ _ _ _ _ hlogger]
      have hbody : checkKubeletBody env r ctx nodeName imageName expectedFilePermissionsMax
          (generatedPodName env r tr) (target.With [("name", nodeName), ("kind", "Node")])
          (target.With [("name", generatedPodName env r tr), ("namespace", "kube-system"),
            ("kind", "Pod")])
          [(env.LabelInstanceID, r.InstanceID)] (tr ++ [Op.Generate 10]) =
          (Outcome.returned
            (checkKubeletFile env expectedFilePermissionsMax
              (target.With [("name", nodeName), ("kind", "Node")]) [] certFileStats),
           tr ++ [Op.Generate 10,
              Op.Create ctx r.ClusterPodContext (NewPrivilegedPod (generatedPodName env r tr)
                "kube-system" imageName nodeName [(env.LabelInstanceID, r.InstanceID)]),
              Op.GetKubeletCommand ctx podExecutor,
              Op.GetKubeletConfig ctx podExecutor rawKubeletCommand] ++
              [Op.GetSingleFileStats ctx podExecutor tlsCertFile]) := by
        simp [checkKubeletBody, Prog.bind_apply, Prog.call_apply, Prog.pure_apply, hcreate,
          hcommand, hlen, hconfig, hfull, hstats, checkKubeletFiles]
      rw [hbody]
      exact ⟨_, rfl⟩
  · intro htls kubeletPKIDir hdir
    simp only at htls
    constructor
    · intro hempty
      rcases hdir with ⟨_, hdefault⟩ | ⟨hflag, value, hvalue, htrim⟩
      · subst hdefault
        exact absurd hempty (by decide)
      · subst htrim
        rw [checkKubelet_apply, defer_deferredDelete_logger _ _ _ _ _ _ hlogger]
        have hbody : checkKubeletBody env r ctx nodeName imageName expectedFilePermissionsMax
            (generatedPodName env r tr) (target.With [("name", nodeName), ("kind", "Node")])
            (target.With [("name", generatedPodName env r tr), ("namespace", "kube-system"),
              ("kind", "Pod")])
            [(env.LabelInstanceID, r.InstanceID)] (tr ++ [Op.Generate 10]) =
            (Outcome.returned [⟨Status.Errored, "kubelet cert-dir flag set to empty",
                target.With [("name", generatedPodName env r tr), ("namespace", "kube-system"),
                  ("kind", "Pod")]⟩],
             tr ++ [Op.Generate 10,
                Op.Create ctx r.ClusterPodContext (NewPrivilegedPod (generatedPodName env r tr)
                  "kube-system" imageName nodeName [(env.LabelInstanceID, r.InstanceID)]),
                Op.GetKubeletCommand ctx podExecutor,
                Op.GetKubeletConfig ctx podExecutor rawKubeletCommand]) := by
          rcases htls with h | h <;> subst h <;>
            simp [checkKubeletBody, Prog.bind_apply, Prog.call_apply, Prog.pure_apply, hcreate,
              hcommand, hlen, hconfig, hflag, hvalue, hempty, ErroredCheckResult]
        rw [hbody]
        exact ⟨_, rfl⟩
    · intro hfull pkiFilesStats hlist
      have hpki := checkKubeletPKIDir_apply env ctx podExecutor expectedFilePermissionsMax
        (target.With [("name", nodeName), ("kind", "Node")])
        (target.With [("name", generatedPodName env r tr), ("namespace", "kube-system"),
          ("kind", "Pod")]) kubeletPKIDir _ pkiFilesStats hlist
      rw [checkKubelet_apply, defer_deferredDelete_logger _ _ _ _ _ _ hlogger]
      have hbody : checkKubeletBody env r ctx nodeName imageName expectedFilePermissionsMax
          (generatedPodName env r tr) (target.With [("name", nodeName), ("kind", "Node")])
          (target.With [("name", generatedPodName env r tr), ("namespace", "kube-system"),
            ("kind", "Pod")])
          [(env.LabelInstanceID, r.InstanceID)] (tr ++ [Op.Generate 10]) =
          checkKubeletPKIDir env ctx podExecutor expectedFilePermissionsMax
            (target.With [("name", nodeName), ("kind", "Node")])
            (target.With [("name", generatedPodName env r tr), ("namespace", "kube-system"),
              ("kind", "Pod")]) kubeletPKIDir
            (tr ++ [Op.Generate 10,
              Op.Create ctx r.ClusterPodContext (NewPrivilegedPod (generatedPodName env r tr)
                "kube-system" imageName nodeName [(env.LabelInstanceID, r.InstanceID)]),
              Op.GetKubeletCommand ctx podExecutor,
              Op.GetKubeletConfig ctx podExecutor rawKubeletCommand]) := by
        rcases hdir with ⟨hflag, hdefault⟩ | ⟨hflag, value, hvalue, htrim⟩
        · subst hdefault
          rcases htls with h | h <;> subst h <;>
            simp [checkKubeletBody, Prog.bind_apply, Prog.call_apply, Prog.pure_apply, hcreate,
              hcommand, hlen, hconfig, hflag]
        · subst htrim
          rcases htls with h | h <;> subst h <;>
            simp [checkKubeletBody, Prog.bind_apply, Prog.call_apply, Prog.pure_apply, hcreate,
              hcommand, hlen, hconfig, hflag, hvalue, hfull]
      rw [hbody, hpki]
      exact ⟨_, rfl⟩

/-- Witness of the amended C21, one kubelet for each way of choosing: an empty
`tlsCertFile`; both TLS files set; the flag `cert-dir` set once, with a value
that is trimmed and a directory holding certificates among other files; the
default directory without any certificate; the flag `cert-dir` set to nothing. -/
theorem C21_files_evaluated_witness :
    (∃ err,
      scenarioRule.checkKubelet scenarioTLSCertEmpty scenarioCtx "shoot-node-a" "diki-ops:v1" "644"
          [("cluster", "shoot")] [] =
        (Outcome.returned [⟨Status.Failed,
            "could not find cert file, option tlsCertFile is empty.",
            [("cluster", "shoot"), ("name", "shoot-node-a"), ("kind", "Node")]⟩],
         [Op.Generate 10,
            Op.Create scenarioCtx ⟨"shoot"⟩ ⟨"diki-242466-abcdefghij", "kube-system",
              "diki-ops:v1", "shoot-node-a", [("instanceID", "run-1")]⟩,
            Op.GetKubeletCommand scenarioCtx ⟨"diki-242466-abcdefghij"⟩,
            Op.GetKubeletConfig scenarioCtx ⟨"diki-242466-abcdefghij"⟩
              "kubelet --config=/etc/kubelet.yaml",
            Op.Delete (Context.WithTimeout Context.Background 30) ⟨"shoot"⟩
              "diki-242466-abcdefghij" "kube-system"] ++ deleteLog err)) ∧
    (∃ err,
      scenarioRule.checkKubelet scenarioTLSFiles scenarioCtx "shoot-node-a" "diki-ops:v1" "644"
          [("cluster", "shoot")] [] =
        (Outcome.returned [⟨Status.Passed, "File has expected permissions",
            [("cluster", "shoot"), ("name", "shoot-node-a"), ("kind", "Node"),
              ("details", "fileName: /etc/kubelet/tls.crt, permissions: 644")]⟩],
         [Op.Generate 10,
            Op.Create scenarioCtx ⟨"shoot"⟩ ⟨"diki-242466-abcdefghij", "kube-system",
              "diki-ops:v1", "shoot-node-a", [("instanceID", "run-1")]⟩,
            Op.GetKubeletCommand scenarioCtx ⟨"diki-242466-abcdefghij"⟩,
            Op.GetKubeletConfig scenarioCtx ⟨"diki-242466-abcdefghij"⟩
              "kubelet --config=/etc/kubelet.yaml",
            Op.GetSingleFileStats scenarioCtx ⟨"diki-242466-abcdefghij"⟩ "/etc/kubelet/tls.crt",
            Op.Delete (Context.WithTimeout Context.Background 30) ⟨"shoot"⟩
              "diki-242466-abcdefghij" "kube-system"] ++ deleteLog err)) ∧
    (∃ err,
      scenarioRule.checkKubelet scenarioCertDirOnce scenarioCtx "shoot-node-a" "diki-ops:v1" "644"
          [("cluster", "shoot")] [] =
        (Outcome.returned [
            ⟨Status.Failed, "File has too wide permissions",
              [("cluster", "shoot"), ("name", "shoot-node-a"), ("kind", "Node"),
                ("details", "fileName: /etc/pki/kubelet.pem, permissions: 664, " ++
                  "expectedPermissionsMax: 644")]⟩,
            ⟨Status.Passed, "File has expected permissions",
              [("cluster", "shoot"), ("name", "shoot-node-a"), ("kind", "Node"),
                ("details", "fileName: /etc/pki/ca.crt, permissions: 644")]⟩],
         [Op.Generate 10,
            Op.Create scenarioCtx ⟨"shoot"⟩ ⟨"diki-242466-abcdefghij", "kube-system",
              "diki-ops:v1", "shoot-node-a", [("instanceID", "run-1")]⟩,
            Op.GetKubeletCommand scenarioCtx ⟨"diki-242466-abcdefghij"⟩,
            Op.GetKubeletConfig scenarioCtx ⟨"diki-242466-abcdefghij"⟩
              "kubelet --cert-dir=/etc/pki\n",
            Op.GetFileStatsByDir scenarioCtx ⟨"diki-242466-abcdefghij"⟩ "/etc/pki",
            Op.Delete (Context.WithTimeout Context.Background 30) ⟨"shoot"⟩
              "diki-242466-abcdefghij" "kube-system"] ++ deleteLog err)) ∧
    (∃ err,
      scenarioRule.checkKubelet scenarioNoCertFiles scenarioCtx "shoot-node-a" "diki-ops:v1" "644"
          [("cluster", "shoot")] [] =
        (Outcome.returned [⟨Status.Errored, "no '.crt' files found in PKI directory",
            [("cluster", "shoot"), ("name", "shoot-node-a"), ("kind", "Node"),
              ("directory", "/var/lib/kubelet/pki")]⟩],
         [Op.Generate 10,
            Op.Create scenarioCtx ⟨"shoot"⟩ ⟨"diki-242466-abcdefghij", "kube-system",
              "diki-ops:v1", "shoot-node-a", [("instanceID", "run-1")]⟩,
            Op.GetKubeletCommand scenarioCtx ⟨"diki-242466-abcdefghij"⟩,
            Op.GetKubeletConfig scenarioCtx ⟨"diki-242466-abcdefghij"⟩
              "kubelet --config=/etc/kubelet.yaml",
            Op.GetFileStatsByDir scenarioCtx ⟨"diki-242466-abcdefghij"⟩
              "/var/lib/kubelet/pki",
            Op.Delete (Context.WithTimeout Context.Background 30) ⟨"shoot"⟩
              "diki-242466-abcdefghij" "kube-system"] ++ deleteLog err)) ∧
    (∃ err,
      scenarioRule.checkKubelet scenarioCertDirBlank scenarioCtx "shoot-node-a" "diki-ops:v1" "644"
          [("cluster", "shoot")] [] =
        (Outcome.returned [⟨Status.Errored, "kubelet cert-dir flag set to empty",
            [("cluster", "shoot"), ("name", "diki-242466-abcdefghij"),
              ("namespace", "kube-system"), ("kind", "Pod")]⟩],
         [Op.Generate 10,
            Op.Create scenarioCtx ⟨"shoot"⟩ ⟨"diki-242466-abcdefghij", "kube-system",
              "diki-ops:v1", "shoot-node-a", [("instanceID", "run-1")]⟩,
            Op.GetKubeletCommand scenarioCtx ⟨"diki-242466-abcdefghij"⟩,
            Op.GetKubeletConfig scenarioCtx ⟨"diki-242466-abcdefghij"⟩ "kubelet --cert-dir=",
            Op.Delete (Context.WithTimeout Context.Background 30) ⟨"shoot"⟩
              "diki-242466-abcdefghij" "kube-system"] ++ deleteLog err)) :=
  ⟨((C21_files_evaluated_by_checkKubelet scenarioTLSCertEmpty scenarioRule scenarioCtx
      "shoot-node-a" "diki-ops:v1" "644" [("cluster", "shoot")] [] ⟨"diki-242466-abcdefghij"⟩
      "kubelet --config=/etc/kubelet.yaml" ⟨some "/etc/kubelet/tls.key", some ""⟩
      "diki-242466-abcdefghij"
      [("cluster", "shoot"), ("name", "shoot-node-a"), ("kind", "Node")]
      [("cluster", "shoot"), ("name", "diki-242466-abcdefghij"), ("namespace", "kube-system"),
        ("kind", "Pod")]
      [Op.Generate 10,
        Op.Create scenarioCtx ⟨"shoot"⟩ ⟨"diki-242466-abcdefghij", "kube-system",
          "diki-ops:v1", "shoot-node-a", [("instanceID", "run-1")]⟩,
        Op.GetKubeletCommand scenarioCtx ⟨"diki-242466-abcdefghij"⟩,
        Op.GetKubeletConfig scenarioCtx ⟨"diki-242466-abcdefghij"⟩
          "kubelet --config=/etc/kubelet.yaml"]
      (Op.Delete (Context.WithTimeout Context.Background 30) ⟨"shoot"⟩
        "diki-242466-abcdefghij" "kube-system")
      rfl rfl rfl rfl rfl rfl rfl (by decide) rfl (by decide)).1
      "/etc/kubelet/tls.key" "" rfl rfl).1 rfl,
   ((C21_files_evaluated_by_checkKubelet scenarioTLSFiles scenarioRule scenarioCtx
      "shoot-node-a" "diki-ops:v1" "644" [("cluster", "shoot")] [] ⟨"diki-242466-abcdefghij"⟩
      "kubelet --config=/etc/kubelet.yaml"
      ⟨some "/etc/kubelet/tls.key", some "/etc/kubelet/tls.crt"⟩
      "diki-242466-abcdefghij"
      [("cluster", "shoot"), ("name", "shoot-node-a"), ("kind", "Node")]
      [("cluster", "shoot"), ("name", "diki-242466-abcdefghij"), ("namespace", "kube-system"),
        ("kind", "Pod")]
      [Op.Generate 10,
        Op.Create scenarioCtx ⟨"shoot"⟩ ⟨"diki-242466-abcdefghij", "kube-system",
          "diki-ops:v1", "shoot-node-a", [("instanceID", "run-1")]⟩,
        Op.GetKubeletCommand scenarioCtx ⟨"diki-242466-abcdefghij"⟩,
        Op.GetKubeletConfig scenarioCtx ⟨"diki-242466-abcdefghij"⟩
          "kubelet --config=/etc/kubelet.yaml"]
      (Op.Delete (Context.WithTimeout Context.Background 30) ⟨"shoot"⟩
        "diki-242466-abcdefghij" "kube-system")
      rfl rfl rfl rfl rfl rfl rfl (by decide) rfl (by decide)).1
      "/etc/kubelet/tls.key" "/etc/kubelet/tls.crt" rfl rfl).2 (by decide)
      ⟨"/etc/kubelet/tls.crt", "644", "0", "0"⟩ rfl,
   ((C21_files_evaluated_by_checkKubelet scenarioCertDirOnce scenarioRule scenarioCtx
      "shoot-node-a" "diki-ops:v1" "644" [("cluster", "shoot")] [] ⟨"diki-242466-abcdefghij"⟩
      "kubelet --cert-dir=/etc/pki\n" ⟨none, none⟩ "diki-242466-abcdefghij"
      [("cluster", "shoot"), ("name", "shoot-node-a"), ("kind", "Node")]
      [("cluster", "shoot"), ("name", "diki-242466-abcdefghij"), ("namespace", "kube-system"),
        ("kind", "Pod")]
      [Op.Generate 10,
        Op.Create scenarioCtx ⟨"shoot"⟩ ⟨"diki-242466-abcdefghij", "kube-system",
          "diki-ops:v1", "shoot-node-a", [("instanceID", "run-1")]⟩,
        Op.GetKubeletCommand scenarioCtx ⟨"diki-242466-abcdefghij"⟩,
        Op.GetKubeletConfig scenarioCtx ⟨"diki-242466-abcdefghij"⟩
          "kubelet --cert-dir=/etc/pki\n"]
      (Op.Delete (Context.WithTimeout Context.Background 30) ⟨"shoot"⟩
        "diki-242466-abcdefghij" "kube-system")
      rfl rfl rfl rfl rfl rfl rfl (by decide) rfl (by decide)).2.1
      (Or.inl rfl) "/etc/pki" (Or.inr ⟨rfl, "/etc/pki\n", rfl, rfl⟩)).2 (by decide)
      [⟨"/etc/pki/kubelet.key", "600", "0", "0"⟩, ⟨"/etc/pki/kubelet.pem", "664", "0", "0"⟩,
        ⟨"/etc/pki/notes.txt", "644", "0", "0"⟩, ⟨"/etc/pki/ca.crt", "644", "0", "0"⟩] rfl,
   ((C21_files_evaluated_by_checkKubelet scenarioNoCertFiles scenarioRule scenarioCtx
      "shoot-node-a" "diki-ops:v1" "644" [("cluster", "shoot")] [] ⟨"diki-242466-abcdefghij"⟩
      "kubelet --config=/etc/kubelet.yaml" ⟨none, none⟩ "diki-242466-abcdefghij"
      [("cluster", "shoot"), ("name", "shoot-node-a"), ("kind", "Node")]
      [("cluster", "shoot"), ("name", "diki-242466-abcdefghij"), ("namespace", "kube-system"),
        ("kind", "Pod")]
      [Op.Generate 10,
        Op.Create scenarioCtx ⟨"shoot"⟩ ⟨"diki-242466-abcdefghij", "kube-system",
          "diki-ops:v1", "shoot-node-a", [("instanceID", "run-1")]⟩,
        Op.GetKubeletCommand scenarioCtx ⟨"diki-242466-abcdefghij"⟩,
        Op.GetKubeletConfig scenarioCtx ⟨"diki-242466-abcdefghij"⟩
          "kubelet --config=/etc/kubelet.yaml"]
      (Op.Delete (Context.WithTimeout Context.Background 30) ⟨"shoot"⟩
        "diki-242466-abcdefghij" "kube-system")
      rfl rfl rfl rfl rfl rfl rfl (by decide) rfl (by decide)).2.1
      (Or.inl rfl) "/var/lib/kubelet/pki" (Or.inl ⟨rfl, rfl⟩)).2 (by decide)
      [⟨"/var/lib/kubelet/pki/kubelet.key", "600", "0", "0"⟩] rfl,
   ((C21_files_evaluated_by_checkKubelet scenarioCertDirBlank scenarioRule scenarioCtx
      "shoot-node-a" "diki-ops:v1" "644" [("cluster", "shoot")] [] ⟨"diki-242466-abcdefghij"⟩
      "kubelet --cert-dir=" ⟨none, none⟩ "diki-242466-abcdefghij"
      [("cluster", "shoot"), ("name", "shoot-node-a"), ("kind", "Node")]
      [("cluster", "shoot"), ("name", "diki-242466-abcdefghij"), ("namespace", "kube-system"),
        ("kind", "Pod")]
      [Op.Generate 10,
        Op.Create scenarioCtx ⟨"shoot"⟩ ⟨"diki-242466-abcdefghij", "kube-system",
          "diki-ops:v1", "shoot-node-a", [("instanceID", "run-1")]⟩,
        Op.GetKubeletCommand scenarioCtx ⟨"diki-242466-abcdefghij"⟩,
        Op.GetKubeletConfig scenarioCtx ⟨"diki-242466-abcdefghij"⟩ "kubelet --cert-dir="]
      (Op.Delete (Context.WithTimeout Context.Background 30) ⟨"shoot"⟩
        "diki-242466-abcdefghij" "kube-system")
      rfl rfl rfl rfl rfl rfl rfl (by decide) rfl (by decide)).2.1
      (Or.inl rfl) "" (Or.inr ⟨rfl, "", rfl, rfl⟩)).1 rfl⟩

end Diki
